import Mathlib

/-! # OpenXR Toolkit API layer

Swapchain processing chain, view caches, descriptor heaps, FSR input resolution, GPU timers,
constant buffers, shader binding, session teardown and prediction dampening.

A shallow embedding of `XR_APILAYER_NOVENDOR_toolkit` (`layer.cpp`, `d3d11.cpp`,
`d3d12.cpp`, `fsr.cpp`).  C++ objects become records, member functions become
functions from the old state to the new state, exceptions become `Except`.

Conventions.
* `uint32_t`/`uint64_t` values are `Nat`, `int`/`int64_t` values are `Int`.
* Handles (`XrSession`, `XrSwapchain`, native texture pointers) are `Nat`; `0` is the null handle.
* A `std::shared_ptr` that may be empty is an `Option`.
* `std::vector` is `List`; an index past the end (undefined in C++) is reported as an
  explicit `outOfRange` error wherever the code itself goes on to use the element.
* Calls into the OpenXR runtime (`OpenXrApi::xr...`) are parameters of the embedded function.
* Calls on a Direct3D context or command list are recorded in the order they are issued;
  what a native call returns (`GetData`, `Map`, the creation calls of `resolve`) is a
  parameter of the embedded function.
* `assert(c)` aborts in a build without `NDEBUG` and is no code in a build with it; the
  build is a parameter.
-/

namespace toolkit

/-! ## OpenXR data (openxr.h) -/

/-- Result codes: `XR_SUCCEEDED(result)` is `result >= 0`. -/
def XR_SUCCEEDED (result : Int) : Bool := decide (0 ≤ result)

def XR_SUCCESS : Int := 0

def XR_NULL_HANDLE : Nat := 0

def XR_SWAPCHAIN_USAGE_COLOR_ATTACHMENT_BIT : Nat := 0x00000001
def XR_SWAPCHAIN_USAGE_DEPTH_STENCIL_ATTACHMENT_BIT : Nat := 0x00000002
def XR_SWAPCHAIN_USAGE_UNORDERED_ACCESS_BIT : Nat := 0x00000004
def XR_SWAPCHAIN_USAGE_SAMPLED_BIT : Nat := 0x00000020

/-- The complement `~bit` of a 64-bit flag word (`XrSwapchainUsageFlags` is `XrFlags64`). -/
def flagsNot (bit : Nat) : Nat := 0xFFFFFFFFFFFFFFFF ^^^ bit

/-- The test `flags & bit` used as a C++ condition. -/
def hasFlag (flags bit : Nat) : Bool := flags &&& bit != 0

structure XrSwapchainCreateInfo where
  createFlags : Nat
  usageFlags : Nat
  format : Int
  sampleCount : Nat
  width : Nat
  height : Nat
  faceCount : Nat
  arraySize : Nat
  mipCount : Nat
deriving DecidableEq, Repr

/-! ## The graphics interfaces as the layer sees them (interfaces.h) -/

namespace graphics

inductive Api
  | D3D11
  | D3D12
deriving DecidableEq, Repr

/-- DXGI formats named by the devices (dxgiformat.h). -/
def DXGI_FORMAT_R10G10B10A2_UNORM : Int := 24
def DXGI_FORMAT_R8G8B8A8_UNORM_SRGB : Int := 29
def DXGI_FORMAT_B8G8R8A8_UNORM_SRGB : Int := 91
def DXGI_FORMAT_B8G8R8X8_UNORM_SRGB : Int := 93

/-- Where the native resource behind an `ITexture` comes from: an image owned by the
OpenXR runtime and wrapped by `WrapD3D11Texture`/`WrapD3D12Texture`, or the `serial`-th
resource allocated by `IDevice::createTexture`. -/
inductive NativeTexture
  | runtime (handle : Nat)
  | created (serial : Nat)
deriving DecidableEq, Repr

/-- An `ITexture` as used by the layer: `getInfo()`, `getNative()` and the debug name. -/
structure ITexture where
  info : XrSwapchainCreateInfo
  native : NativeTexture
  debugName : String
deriving DecidableEq, Repr

/-- An `IGpuTimer` handle: the `serial`-th timer made by `IDevice::createTimer`. -/
structure IGpuTimer where
  serial : Nat
deriving DecidableEq, Repr

/-- The part of an `IDevice` the layer depends on: its API and its allocation counters. -/
structure IDevice where
  api : Api
  texturesCreated : Nat
  timersCreated : Nat
deriving DecidableEq, Repr

/-- `WrapD3D11Device` / `WrapD3D12Device`. -/
def WrapDevice (api : Api) : IDevice :=
  { api := api, texturesCreated := 0, timersCreated := 0 }

/-- `IDevice::createTexture(info, debugName)`: a fresh resource carrying `info`. -/
def IDevice.createTexture (d : IDevice) (info : XrSwapchainCreateInfo) (debugName : String) :
    ITexture × IDevice :=
  ({ info := info, native := .created d.texturesCreated, debugName := debugName },
   { d with texturesCreated := d.texturesCreated + 1 })

/-- `IDevice::createTimer()`. -/
def IDevice.createTimer (d : IDevice) : IGpuTimer × IDevice :=
  ({ serial := d.timersCreated }, { d with timersCreated := d.timersCreated + 1 })

/-- `WrapD3D11Texture` / `WrapD3D12Texture`: wraps a runtime image, keeping `info`. -/
def WrapTexture (info : XrSwapchainCreateInfo) (texture : Nat) (debugName : String) : ITexture :=
  { info := info, native := .runtime texture, debugName := debugName }

/-- `D3D11Device::isTextureFormatSRGB` (the D3D12 device has the same switch). -/
def isTextureFormatSRGB (format : Int) : Bool :=
  format == DXGI_FORMAT_R8G8B8A8_UNORM_SRGB || format == DXGI_FORMAT_B8G8R8A8_UNORM_SRGB ||
    format == DXGI_FORMAT_B8G8R8X8_UNORM_SRGB

end graphics

open graphics

/-! ## Configuration (config::IConfigManager) -/

namespace config

/-- `config::ScalingType`; `other` stands for any value the `switch` statements of the
layer send to their `default:` branch. -/
inductive ScalingType
  | None
  | NIS
  | FSR
  | other
deriving DecidableEq, Repr

end config

/-- The values the layer reads from the configuration manager. -/
structure ConfigManager where
  SettingScalingType : config.ScalingType
  SettingScaling : Int
  SettingFOV : Int
  SettingPredictionDampen : Int
deriving DecidableEq, Repr

/-! ## Layer state (layer.cpp) -/

/-- Two views to process, one per eye. -/
def ViewCount : Nat := 2

/-- GPU timers are re-used after this many frames. -/
def GpuTimerLatency : Nat := 2

/-- An upscaler made by `CreateFSRUpscaler` or `CreateNISUpscaler`. -/
structure IUpscaler where
  kind : config.ScalingType
  outputWidth : Nat
  outputHeight : Nat
deriving DecidableEq, Repr

/-- An image processor made by `CreateImageProcessor`. -/
structure IImageProcessor where
  shaderFile : String
deriving DecidableEq, Repr

structure SwapchainImages where
  chain : List ITexture
  upscalerGpuTimer : List (Option IGpuTimer)
  preProcessorGpuTimer : List (Option IGpuTimer)
  postProcessorGpuTimer : List (Option IGpuTimer)
deriving DecidableEq, Repr

/-- A default-constructed `SwapchainImages`: empty chain, `ViewCount` empty timer slots. -/
def SwapchainImages.empty : SwapchainImages :=
  { chain := [],
    upscalerGpuTimer := List.replicate ViewCount none,
    preProcessorGpuTimer := List.replicate ViewCount none,
    postProcessorGpuTimer := List.replicate ViewCount none }

structure SwapchainState where
  images : List SwapchainImages
  acquiredImageIndex : Nat
deriving DecidableEq, Repr

/-- The members of `OpenXrLayer` that the swapchain and frame functions read or write. -/
structure OpenXrLayer where
  m_vrSystemId : Nat
  m_vrSession : Nat
  m_displayWidth : Nat
  m_displayHeight : Nat
  m_waitedFrameTime : Int
  m_begunFrameTime : Int
  m_configManager : ConfigManager
  m_graphicsDevice : Option IDevice
  m_swapchains : List (Nat × SwapchainState)
  m_upscaler : Option IUpscaler
  m_upscaleMode : config.ScalingType
  m_upscalingFactor : Int
  m_preProcessor : Option IImageProcessor
  m_postProcessor : Option IImageProcessor
  m_handTracker : Bool
  m_menuHandler : Bool
  xrConvertWin32PerformanceCounterToTimeKHR : Bool
deriving DecidableEq, Repr

/-- The layer as its member initialisers leave it, for a given configuration. -/
def OpenXrLayer.fresh (cfg : ConfigManager) : OpenXrLayer :=
  { m_vrSystemId := 0, m_vrSession := XR_NULL_HANDLE,
    m_displayWidth := 0, m_displayHeight := 0,
    m_waitedFrameTime := 0, m_begunFrameTime := 0,
    m_configManager := cfg,
    m_graphicsDevice := none, m_swapchains := [],
    m_upscaler := none, m_upscaleMode := .None, m_upscalingFactor := 100,
    m_preProcessor := none, m_postProcessor := none,
    m_handTracker := false, m_menuHandler := false,
    xrConvertWin32PerformanceCounterToTimeKHR := false }

namespace OpenXrLayer

def isVrSystem (s : OpenXrLayer) (systemId : Nat) : Bool := systemId == s.m_vrSystemId

def isVrSession (s : OpenXrLayer) (session : Nat) : Bool := session == s.m_vrSession

/-- `m_swapchains.find(swapchain)`. -/
def findSwapchain (s : OpenXrLayer) (swapchain : Nat) : Option SwapchainState :=
  (s.m_swapchains.find? (fun e => e.1 == swapchain)).map Prod.snd

end OpenXrLayer

/-- `std::map::insert_or_assign`. -/
def insert_or_assign (m : List (Nat × SwapchainState)) (key : Nat) (value : SwapchainState) :
    List (Nat × SwapchainState) :=
  (key, value) :: m.filter (fun e => e.1 != key)

/-- How a layer function can leave abnormally. -/
inductive LayerError
  /-- `throw new std::runtime_error(what)`. -/
  | runtimeError (what : String)
  /-- A `std::vector` indexed past its end (undefined behaviour in C++). -/
  | outOfRange
  /-- A member called through an empty `std::shared_ptr` (undefined behaviour in C++). -/
  | nullPointer
  /-- The exception of `CHECK_HRCMD` / `CHECK_HRESULT` / `CHECK_XRCMD` for a call that
  failed. -/
  | hresult (originator : String)
deriving DecidableEq, Repr

/-! ### xrCreateSession -/

/-- The entries of the `next` chain of `XrSessionCreateInfo`, by structure type. -/
inductive XrSessionCreateNext
  | XR_TYPE_GRAPHICS_BINDING_D3D11_KHR
  | XR_TYPE_GRAPHICS_BINDING_D3D12_KHR
  | otherStructure
deriving DecidableEq, Repr

/-- The `while (entry)` loop of `xrCreateSession`: the first D3D11 or D3D12 binding. -/
def findGraphicsBinding : List XrSessionCreateNext → Option Api
  | [] => none
  | .XR_TYPE_GRAPHICS_BINDING_D3D11_KHR :: _ => some .D3D11
  | .XR_TYPE_GRAPHICS_BINDING_D3D12_KHR :: _ => some .D3D12
  | .otherStructure :: rest => findGraphicsBinding rest

/-- `OpenXrLayer::xrCreateSession`.  `result` and `session` are what the runtime returned.
The factories `CreateFSRUpscaler`, `CreateNISUpscaler` and `CreateImageProcessor` return a
new object (`std::make_shared`), so the members they are assigned to become non-empty. -/
def OpenXrLayer.xrCreateSession (s : OpenXrLayer) (systemId : Nat)
    (next : List XrSessionCreateNext) (result : Int) (session : Nat) :
    Except LayerError (OpenXrLayer × Int) :=
  if XR_SUCCEEDED result && s.isVrSystem systemId then do
    let s1 : OpenXrLayer :=
      match findGraphicsBinding next with
      | some api => { s with m_graphicsDevice := some (WrapDevice api) }
      | none => s
    let s2 ← match s1.m_graphicsDevice with
      | some _ => do
        let s1a := { s1 with m_upscaleMode := s1.m_configManager.SettingScalingType }
        let s1b ← match s1a.m_upscaleMode with
          | .FSR => pure { s1a with
              m_upscaler := some { kind := .FSR, outputWidth := s1a.m_displayWidth,
                                   outputHeight := s1a.m_displayHeight },
              m_upscalingFactor := s1a.m_configManager.SettingScaling }
          | .NIS => pure { s1a with
              m_upscaler := some { kind := .NIS, outputWidth := s1a.m_displayWidth,
                                   outputHeight := s1a.m_displayHeight },
              m_upscalingFactor := s1a.m_configManager.SettingScaling }
          | .None => pure s1a
          | .other => throw (.runtimeError "Unknown scaling type")
        pure { s1b with
          m_postProcessor := some { shaderFile := "postprocess.hlsl" },
          m_menuHandler := true }
      | none => pure s1
    pure ({ s2 with m_vrSession := session }, result)
  else
    pure (s, result)

/-! ### xrCreateSwapchain -/

/-- `chain.insert(chain.end() - 1, x)`: insert just before the last element. -/
def insertBeforeLast {α : Type} (chain : List α) (x : α) : List α :=
  chain.take (chain.length - 1) ++ x :: chain.drop (chain.length - 1)

/-- What the runtime answers to `OpenXrApi::xrCreateSwapchain` followed by
`OpenXrApi::xrEnumerateSwapchainImages`: result, handle and native images. -/
structure RuntimeSwapchain where
  result : Int
  swapchain : Nat
  images : List Nat
deriving DecidableEq, Repr

namespace OpenXrLayer

/-- The `chainCreateInfo` that `xrCreateSwapchain` passes on to the runtime. -/
def chainCreateInfo (s : OpenXrLayer) (createInfo : XrSwapchainCreateInfo) :
    XrSwapchainCreateInfo :=
  if hasFlag createInfo.usageFlags XR_SWAPCHAIN_USAGE_COLOR_ATTACHMENT_BIT then
    let c0 := createInfo
    let c1 := if s.m_preProcessor.isSome then
        { c0 with usageFlags := c0.usageFlags ||| XR_SWAPCHAIN_USAGE_COLOR_ATTACHMENT_BIT }
      else c0
    let c2 := if s.m_upscaler.isSome then
        { c1 with width := s.m_displayWidth, height := s.m_displayHeight,
                  usageFlags := c1.usageFlags ||| XR_SWAPCHAIN_USAGE_UNORDERED_ACCESS_BIT }
      else c1
    let c3 := if s.m_postProcessor.isSome then
        { c2 with usageFlags :=
            (c2.usageFlags &&& flagsNot XR_SWAPCHAIN_USAGE_UNORDERED_ACCESS_BIT) |||
              XR_SWAPCHAIN_USAGE_COLOR_ATTACHMENT_BIT }
      else c2
    c3
  else createInfo

/-- The two `createTimer()` statements that follow each texture insertion: slot 0 always,
slot 1 when `createInfo->arraySize > 1`. -/
def createStageTimers (dev : IDevice) (arraySize : Nat) (timers : List (Option IGpuTimer)) :
    List (Option IGpuTimer) × IDevice :=
  let (t0, dev1) := dev.createTimer
  let timers1 := timers.set 0 (some t0)
  if arraySize > 1 then
    let (t1, dev2) := dev1.createTimer
    (timers1.set 1 (some t1), dev2)
  else (timers1, dev1)

/-- The `inputCreateInfo` of the `if (m_preProcessor)` block; `upscaling` is `m_upscaler`
being set. -/
def preProcessorInputCreateInfo (createInfo : XrSwapchainCreateInfo) (upscaling : Bool) :
    XrSwapchainCreateInfo :=
  let c0 :=
    { createInfo with usageFlags := createInfo.usageFlags ||| XR_SWAPCHAIN_USAGE_SAMPLED_BIT }
  if upscaling then
    { c0 with usageFlags := c0.usageFlags ||| XR_SWAPCHAIN_USAGE_SAMPLED_BIT }
  else c0

/-- The `inputCreateInfo` of the `if (m_upscaler)` block. -/
def upscalerInputCreateInfo (createInfo : XrSwapchainCreateInfo) : XrSwapchainCreateInfo :=
  { createInfo with usageFlags := createInfo.usageFlags ||| XR_SWAPCHAIN_USAGE_SAMPLED_BIT }

/-- The `intermediateCreateInfo` of the `if (m_postProcessor)` block. -/
def intermediateCreateInfo (chainInfo : XrSwapchainCreateInfo) (upscaling : Bool) :
    XrSwapchainCreateInfo :=
  let c0 := { chainInfo with
    usageFlags := chainInfo.usageFlags ||| XR_SWAPCHAIN_USAGE_SAMPLED_BIT }
  if upscaling then
    let c1 := { c0 with
      usageFlags := c0.usageFlags ||| XR_SWAPCHAIN_USAGE_UNORDERED_ACCESS_BIT }
    if isTextureFormatSRGB c1.format then
      { c1 with format := DXGI_FORMAT_R10G10B10A2_UNORM }
    else c1
  else c0

/-- The `if (m_preProcessor)` block of the per-image loop: the new texture goes to the
very front of the chain. -/
def addPreProcessorTexture (createInfo : XrSwapchainCreateInfo) (upscaling : Bool) (i : Nat)
    (images : SwapchainImages) (dev : IDevice) : SwapchainImages × IDevice :=
  let (inputTexture, dev1) :=
    dev.createTexture (preProcessorInputCreateInfo createInfo upscaling)
      ("Postprocess input swapchain " ++ toString i ++ " TEX2D")
  let (timers, dev2) := createStageTimers dev1 createInfo.arraySize images.preProcessorGpuTimer
  ({ images with chain := inputTexture :: images.chain, preProcessorGpuTimer := timers }, dev2)

/-- The `if (m_upscaler)` block of the per-image loop: the new texture goes before the
runtime texture. -/
def addUpscalerTexture (createInfo : XrSwapchainCreateInfo) (i : Nat)
    (images : SwapchainImages) (dev : IDevice) : SwapchainImages × IDevice :=
  let (inputTexture, dev1) :=
    dev.createTexture (upscalerInputCreateInfo createInfo)
      ("App swapchain " ++ toString i ++ " TEX2D")
  let (timers, dev2) := createStageTimers dev1 createInfo.arraySize images.upscalerGpuTimer
  ({ images with chain := insertBeforeLast images.chain inputTexture,
                 upscalerGpuTimer := timers }, dev2)

/-- The `if (m_postProcessor)` block of the per-image loop: the new texture goes just
before the runtime texture. -/
def addPostProcessorTexture (createInfo chainInfo : XrSwapchainCreateInfo) (upscaling : Bool)
    (i : Nat) (images : SwapchainImages) (dev : IDevice) : SwapchainImages × IDevice :=
  let (intermediateTexture, dev1) :=
    dev.createTexture (intermediateCreateInfo chainInfo upscaling)
      ("Postprocess input swapchain " ++ toString i ++ " TEX2D")
  let (timers, dev2) := createStageTimers dev1 createInfo.arraySize images.postProcessorGpuTimer
  ({ images with chain := insertBeforeLast images.chain intermediateTexture,
                 postProcessorGpuTimer := timers }, dev2)

/-- One iteration of the second `for (i < imageCount)` loop: the three stage blocks in
source order, applied to image `i`. -/
def buildImageChain (s : OpenXrLayer) (createInfo chainInfo : XrSwapchainCreateInfo) (i : Nat)
    (images : SwapchainImages) (dev : IDevice) : SwapchainImages × IDevice :=
  let (im1, d1) :=
    if s.m_preProcessor.isSome then
      addPreProcessorTexture createInfo s.m_upscaler.isSome i images dev
    else (images, dev)
  let (im2, d2) :=
    if s.m_upscaler.isSome then addUpscalerTexture createInfo i im1 d1 else (im1, d1)
  let (im3, d3) :=
    if s.m_postProcessor.isSome then
      addPostProcessorTexture createInfo chainInfo s.m_upscaler.isSome i im2 d2
    else (im2, d2)
  (im3, d3)

/-- The first loop: every runtime image wrapped as the only entry of its chain. -/
def wrapRuntimeImages (chainInfo : XrSwapchainCreateInfo) (natives : List Nat) :
    List SwapchainImages :=
  natives.enum.map fun (i, texture) =>
    { SwapchainImages.empty with
      chain := [WrapTexture chainInfo texture ("Runtime swapchain " ++ toString i ++ " TEX2D")] }

/-- The second loop over all images, threading the device through. -/
def buildChains (s : OpenXrLayer) (createInfo chainInfo : XrSwapchainCreateInfo) :
    Nat → List SwapchainImages → IDevice → List SwapchainImages × IDevice
  | _, [], dev => ([], dev)
  | i, images :: rest, dev =>
    let (im, d1) := buildImageChain s createInfo chainInfo i images dev
    let (ims, d2) := buildChains s createInfo chainInfo (i + 1) rest d1
    (im :: ims, d2)

/-- What `xrCreateSwapchain` leaves behind: the layer, the returned result and handle, and
the create info that was handed to the runtime. -/
structure CreateSwapchainOutcome where
  layer : OpenXrLayer
  result : Int
  swapchain : Nat
  forwarded : XrSwapchainCreateInfo
deriving DecidableEq, Repr

/-- `OpenXrLayer::xrCreateSwapchain`.  `runtime` answers the forwarded request. -/
def xrCreateSwapchain (s : OpenXrLayer) (session : Nat) (createInfo : XrSwapchainCreateInfo)
    (runtime : XrSwapchainCreateInfo → RuntimeSwapchain) : CreateSwapchainOutcome :=
  match s.m_graphicsDevice with
  | none =>
    let rt := runtime createInfo
    { layer := s, result := rt.result, swapchain := rt.swapchain, forwarded := createInfo }
  | some dev =>
    if !s.isVrSession session then
      let rt := runtime createInfo
      { layer := s, result := rt.result, swapchain := rt.swapchain, forwarded := createInfo }
    else
      let useSwapchain := hasFlag createInfo.usageFlags XR_SWAPCHAIN_USAGE_COLOR_ATTACHMENT_BIT
      let chainInfo := s.chainCreateInfo createInfo
      let rt := runtime chainInfo
      if XR_SUCCEEDED rt.result && useSwapchain then
        let wrapped := wrapRuntimeImages chainInfo rt.images
        let (images, dev1) := buildChains s createInfo chainInfo 0 wrapped dev
        let swapchainState : SwapchainState := { images := images, acquiredImageIndex := 0 }
        { layer := { s with
            m_graphicsDevice := some dev1,
            m_swapchains := insert_or_assign s.m_swapchains rt.swapchain swapchainState },
          result := rt.result, swapchain := rt.swapchain, forwarded := chainInfo }
      else
        { layer := s, result := rt.result, swapchain := rt.swapchain, forwarded := chainInfo }

end OpenXrLayer

/-! ### xrEnumerateSwapchainImages, xrAcquireSwapchainImage -/

namespace OpenXrLayer

/-- The loop `d3dImages[i].texture = swapchainState.images[i].chain[0]->getNative()` for
`i = start, ..., start + count - 1`. -/
def applicationImages (images : List SwapchainImages) :
    Nat → Nat → Except LayerError (List NativeTexture)
  | _, 0 => pure []
  | start, count + 1 =>
    match images[start]? with
    | none => throw .outOfRange
    | some im =>
      match im.chain[0]? with
      | none => throw .outOfRange
      | some texture => do
        let rest ← applicationImages images (start + 1) count
        pure (texture.native :: rest)

/-- `OpenXrLayer::xrEnumerateSwapchainImages`.  `runtimeImages` is `none` when the
application passed no `images` array, otherwise the array as the runtime filled it
(`*imageCountOutput` entries).  The answer is the array as the application gets it. -/
def xrEnumerateSwapchainImages (s : OpenXrLayer) (swapchain : Nat) (result : Int)
    (runtimeImages : Option (List Nat)) : Except LayerError (Option (List NativeTexture)) :=
  match runtimeImages with
  | none => pure none
  | some rtImages =>
    if XR_SUCCEEDED result then
      match s.findSwapchain swapchain with
      | some swapchainState =>
        match s.m_graphicsDevice with
        | none => throw .nullPointer
        | some _ => do
          let out ← applicationImages swapchainState.images 0 rtImages.length
          pure (some out)
      | none => pure (some (rtImages.map .runtime))
    else pure (some (rtImages.map .runtime))

/-- `OpenXrLayer::xrAcquireSwapchainImage`: records the index the runtime returned. -/
def xrAcquireSwapchainImage (s : OpenXrLayer) (swapchain : Nat) (result : Int) (index : Nat) :
    OpenXrLayer :=
  if XR_SUCCEEDED result then
    { s with m_swapchains := s.m_swapchains.map fun e =>
        if e.1 == swapchain then (e.1, { e.2 with acquiredImageIndex := index }) else e }
  else s

end OpenXrLayer

/-! ### xrEndFrame -/

inductive Stage
  | preProcessor
  | upscaler
  | postProcessor
deriving DecidableEq, Repr

/-- One stage invocation of the per-eye walk, as issued by `xrEndFrame`: the timer that
is queried, started and stopped around it, `chain[lastImage]`, `chain[nextImage]` and the
slice argument.  A `none` timer is an empty `shared_ptr` in the timer array, a `none`
texture is a chain index past the end. -/
structure StageCall where
  stage : Stage
  timer : Option IGpuTimer
  input : Option ITexture
  output : Option ITexture
  slice : Int
deriving DecidableEq, Repr

/-- The cursors and the recorded calls of one per-eye walk. -/
structure Walk where
  nextImage : Nat
  lastImage : Nat
  calls : List StageCall
deriving DecidableEq, Repr

/-- What executing a stage invocation runs into.  The statements of a stage block are
`GpuTimer[gpuTimerIndex]->query()`, `->start()`, then the stage call on
`chain[lastImage]` and `chain[nextImage]`, then `->stop()`: an empty timer pointer is met
first (`nullPointer`), a chain index past the end after it (`outOfRange`). -/
def StageCall.fault (c : StageCall) : Option LayerError :=
  match c.timer with
  | none => some .nullPointer
  | some _ =>
    match c.input, c.output with
    | some _, some _ => none
    | _, _ => some .outOfRange

/-- The first fault met when the stage invocations are executed in order. -/
def firstFault : List StageCall → Option LayerError
  | [] => none
  | c :: rest =>
    match c.fault with
    | some e => some e
    | none => firstFault rest

namespace OpenXrLayer

/-- The number of stage members that are set. -/
def enabledStageCount (s : OpenXrLayer) : Nat :=
  (if s.m_preProcessor.isSome then 1 else 0) + (if s.m_upscaler.isSome then 1 else 0) +
    (if s.m_postProcessor.isSome then 1 else 0)

/-- `GpuTimer[gpuTimerIndex]` of a `ViewCount`-sized array of `shared_ptr`. -/
def timerAt (timers : List (Option IGpuTimer)) (gpuTimerIndex : Nat) : Option IGpuTimer :=
  (timers[gpuTimerIndex]?).join

/-- The body of the `for (eye < ViewCount)` loop of `xrEndFrame` from
`uint32_t nextImage = 0` up to the completeness check. -/
def walkChain (s : OpenXrLayer) (swapchainImages : SwapchainImages) (useVPRT : Bool)
    (eye : Nat) : Walk :=
  let gpuTimerIndex := if useVPRT then eye else 0
  let slice : Int := if useVPRT then (eye : Int) else -1
  let w0 : Walk := { nextImage := 0, lastImage := 0, calls := [] }
  let w1 : Walk :=
    if s.m_preProcessor.isSome then
      let nextImage := w0.nextImage + 1
      { nextImage := nextImage, lastImage := w0.lastImage + 1,
        calls := w0.calls ++ [{
          stage := .preProcessor,
          timer := timerAt swapchainImages.preProcessorGpuTimer gpuTimerIndex,
          input := swapchainImages.chain[w0.lastImage]?,
          output := swapchainImages.chain[nextImage]?, slice := slice }] }
    else w0
  let w2 : Walk :=
    if s.m_upscaler.isSome then
      let nextImage := w1.nextImage + 1
      if s.m_configManager.SettingScalingType != .None then
        { nextImage := nextImage, lastImage := w1.lastImage + 1,
          calls := w1.calls ++ [{
            stage := .upscaler,
            timer := timerAt swapchainImages.upscalerGpuTimer gpuTimerIndex,
            input := swapchainImages.chain[w1.lastImage]?,
            output := swapchainImages.chain[nextImage]?, slice := slice }] }
      else { w1 with nextImage := nextImage }
    else w1
  let w3 : Walk :=
    if s.m_postProcessor.isSome then
      let nextImage := w2.nextImage + 1
      { nextImage := nextImage, lastImage := w2.lastImage + 1,
        calls := w2.calls ++ [{
          stage := .postProcessor,
          timer := timerAt swapchainImages.postProcessorGpuTimer gpuTimerIndex,
          input := swapchainImages.chain[w2.lastImage]?,
          output := swapchainImages.chain[nextImage]?, slice := slice }] }
    else w2
  w3

/-- `chain.size() - 1` in `size_t` arithmetic. -/
def chainSizeMinusOne (chain : List ITexture) : Nat :=
  (chain.length + 2 ^ 64 - 1) % 2 ^ 64

/-- The text of the exception raised by the completeness check. -/
def chainIncomplete : LayerError := .runtimeError "Processing chain incomplete!"

/-- The text of the exception raised for an unknown swapchain handle. -/
def swapchainNotRegistered : LayerError := .runtimeError "Swapchain is not registered"

end OpenXrLayer

/-- `(int32_t)` of a `uint32_t` value. -/
def toInt32 (n : Nat) : Int :=
  if n % 2 ^ 32 < 2 ^ 31 then (n % 2 ^ 32 : Nat) else ((n % 2 ^ 32 : Nat) : Int) - 2 ^ 32

structure XrOffset2Di where
  x : Int
  y : Int
deriving DecidableEq, Repr

structure XrExtent2Di where
  width : Int
  height : Int
deriving DecidableEq, Repr

structure XrRect2Di where
  offset : XrOffset2Di
  extent : XrExtent2Di
deriving DecidableEq, Repr

structure XrSwapchainSubImage where
  swapchain : Nat
  imageRect : XrRect2Di
  imageArrayIndex : Nat
deriving DecidableEq, Repr

/-- A `float` angle of `XrFovf`, kept symbolic: a value supplied by the application, or
such a value after `angle *= 100.0f / fov`. -/
inductive FovAngle
  | given (bits : Nat)
  | scaled (angle : FovAngle) (fov : Int)
deriving DecidableEq, Repr

structure XrFovf where
  angleLeft : FovAngle
  angleRight : FovAngle
  angleUp : FovAngle
  angleDown : FovAngle
deriving DecidableEq, Repr

structure XrCompositionLayerProjectionView where
  pose : Nat
  fov : XrFovf
  subImage : XrSwapchainSubImage
deriving DecidableEq, Repr

/-- A composition layer: a projection layer with its `views` array, or a layer of any
other type, which the layer never looks into. -/
inductive XrCompositionLayer
  | projection (layerFlags space viewCount : Nat)
      (views : List XrCompositionLayerProjectionView)
  | other (type payload : Nat)
deriving DecidableEq, Repr

structure XrFrameEndInfo where
  displayTime : Int
  environmentBlendMode : Nat
  layers : List XrCompositionLayer
deriving DecidableEq, Repr

/-- What one call of `xrEndFrame` does when it returns normally: the frame handed to the
runtime, the runtime's result, the stage calls issued (in order) and the textures kept
for the overlay. -/
structure EndFrameOutcome where
  layer : OpenXrLayer
  forwarded : XrFrameEndInfo
  result : Int
  calls : List StageCall
  textureForOverlay : List (Option ITexture)
deriving DecidableEq, Repr

namespace OpenXrLayer

/-- The patches applied to `correctedProjectionViews[eye]`: the extent becomes the
display resolution, the FOV is scaled when the setting is above 100. -/
def patchView (s : OpenXrLayer) (view : XrCompositionLayerProjectionView) :
    XrCompositionLayerProjectionView :=
  let v1 := { view with subImage := { view.subImage with imageRect :=
    { view.subImage.imageRect with
      extent := { width := toInt32 s.m_displayWidth, height := toInt32 s.m_displayHeight } } } }
  let fov := s.m_configManager.SettingFOV
  if fov > 100 then
    { v1 with fov :=
      { angleUp := .scaled v1.fov.angleUp fov, angleDown := .scaled v1.fov.angleDown fov,
        angleLeft := .scaled v1.fov.angleLeft fov, angleRight := .scaled v1.fov.angleRight fov } }
  else v1

/-- One iteration of the `for (eye < ViewCount)` loop: the patched view, the texture kept
for the overlay (`chain.back()`) and the stage calls issued.  The stage blocks run before
the completeness check, so a fault of a stage invocation (`firstFault`) ends the iteration
before "Processing chain incomplete!" can be raised. -/
def processEye (s : OpenXrLayer) (view : XrCompositionLayerProjectionView) (useVPRT : Bool)
    (eye : Nat) :
    Except LayerError (XrCompositionLayerProjectionView × ITexture × List StageCall) :=
  match s.findSwapchain view.subImage.swapchain with
  | none => throw swapchainNotRegistered
  | some swapchainState =>
    match swapchainState.images[swapchainState.acquiredImageIndex]? with
    | none => throw .outOfRange
    | some swapchainImages =>
      let w := s.walkChain swapchainImages useVPRT eye
      match firstFault w.calls with
      | some e => throw e
      | none =>
        if w.nextImage != chainSizeMinusOne swapchainImages.chain then
          throw chainIncomplete
        else
          match swapchainImages.chain.getLast? with
          | none => throw .outOfRange
          | some back => pure (s.patchView view, back, w.calls)

/-- The projection branch of the layer loop: both eyes in order. -/
def processProjection (s : OpenXrLayer) (layerFlags space viewCount : Nat)
    (views : List XrCompositionLayerProjectionView) :
    Except LayerError (XrCompositionLayer × List ITexture × List StageCall) :=
  match views[0]?, views[1]? with
  | some view0, some view1 => do
    let useVPRT := view0.subImage.swapchain == view1.subImage.swapchain
    let (v0, t0, c0) ← s.processEye view0 useVPRT 0
    let (v1, t1, c1) ← s.processEye view1 useVPRT 1
    pure (.projection layerFlags space viewCount [v0, v1], [t0, t1], c0 ++ c1)
  | _, _ => throw .outOfRange

/-- The loop over `chainFrameEndInfo.layers`: corrected layers, the overlay textures of
the last projection layer seen so far, and the stage calls. -/
def processLayers (s : OpenXrLayer) :
    List XrCompositionLayer → List (Option ITexture) →
      Except LayerError (List XrCompositionLayer × List (Option ITexture) × List StageCall)
  | [], overlay => pure ([], overlay, [])
  | .projection layerFlags space viewCount views :: rest, _ => do
    let (corrected, textures, calls) ← s.processProjection layerFlags space viewCount views
    let (more, overlay, moreCalls) ← s.processLayers rest (textures.map some)
    pure (corrected :: more, overlay, calls ++ moreCalls)
  | .other type payload :: rest, overlay => do
    let (more, overlay1, moreCalls) ← s.processLayers rest overlay
    pure (.other type payload :: more, overlay1, moreCalls)

/-- `OpenXrLayer::xrEndFrame`; `runtimeResult` is what `OpenXrApi::xrEndFrame` returns for
the frame it is given.  An exception leaves before the runtime is called.  What the
stages do inside `process` and `upscale`, statistics, input handling and overlay drawing
do not influence the forwarded frame and are left out. -/
def xrEndFrame (s : OpenXrLayer) (session : Nat) (frameEndInfo : XrFrameEndInfo)
    (runtimeResult : XrFrameEndInfo → Int) : Except LayerError EndFrameOutcome :=
  if !s.isVrSession session || s.m_graphicsDevice.isNone then
    pure { layer := s, forwarded := frameEndInfo, result := runtimeResult frameEndInfo,
           calls := [], textureForOverlay := List.replicate ViewCount none }
  else do
    let (correctedLayers, overlay, calls) ←
      s.processLayers frameEndInfo.layers (List.replicate ViewCount none)
    let chainFrameEndInfo := { frameEndInfo with layers := correctedLayers }
    pure { layer := s, forwarded := chainFrameEndInfo,
           result := runtimeResult chainFrameEndInfo,
           calls := calls, textureForOverlay := overlay }

end OpenXrLayer

/-! ## Single-precision arithmetic (the C++ `float` of fsr.cpp) -/

namespace binary32

/-- A finite non-negative binary32 value `v`, held as the natural number `v * 2^128`.
Every binary32 value between `2^-104` and `2^128` is a multiple of `2^-128`, which covers
all values computed below (quotients `100 / p` with `p < 2^31` and their products with a
`uint32_t`). -/
def scale : Nat := 2 ^ 128

/-- The loop of `floorLog2`: halve `n` until it is below 2, at most `fuel` times. -/
def floorLog2Aux : Nat → Nat → Nat
  | 0, _ => 0
  | fuel + 1, n => if n < 2 then 0 else floorLog2Aux fuel (n / 2) + 1

/-- The position of the leading bit of `n`: `2^(floorLog2 n) <= n < 2^(floorLog2 n + 1)`
for `n > 0`. -/
def floorLog2 (n : Nat) : Nat := floorLog2Aux n n

/-- The binary32 value nearest to `num / den` (round to nearest, ties to even), for
`num / den` in the range above: the quotient is rounded to a multiple of
`ulp = 2^(e - 23)` where `2^e <= num / den < 2^(e+1)`, which leaves 24 significant bits. -/
def round (num den : Nat) : Nat :=
  let n := num * scale
  let ulp := 2 ^ (floorLog2 (n / den) - 23)
  let k := n / (den * ulp)
  let r := n % (den * ulp)
  if 2 * r > den * ulp ∨ (2 * r = den * ulp ∧ k % 2 = 1) then (k + 1) * ulp else k * ulp

/-- Conversion of an unsigned integer to `float`. -/
def ofNat (n : Nat) : Nat := round n 1

/-- `a / b` in `float`. -/
def div (a b : Nat) : Nat := round a b

/-- `a * b` in `float`. -/
def mul (a b : Nat) : Nat := round (a * b) (scale * scale)

/-- `(uint32_t)` of a `float` below `2^32`: the integer part. -/
def toUInt32 (a : Nat) : Nat := a / scale

end binary32

/-! ## GetFSRScaledResolution (fsr.cpp) -/

namespace graphics

/-- The `upscalingPercent > 100` branch for one dimension:
`(uint32_t)((100.0f / upscalingPercent) * output)`, incremented when odd. -/
def scaledInputAbove100 (upscalingPercent : Int) (output : Nat) : Nat :=
  let input := binary32.toUInt32
    (binary32.mul (binary32.div (binary32.ofNat 100) (binary32.ofNat upscalingPercent.toNat))
      (binary32.ofNat output))
  if input % 2 ≠ 0 then (input + 1) % 2 ^ 32 else input

/-- The `upscalingPercent < 100` branch for one dimension:
`(uint32_t)(upscalingPercent * output) / 100u` in unsigned 32-bit arithmetic, then
`input += input & 1`. -/
def scaledInputBelow100 (upscalingPercent : Int) (output : Nat) : Nat :=
  let input := ((upscalingPercent % 2 ^ 32).toNat * output) % 2 ^ 32 / 100
  (input + (input &&& 1)) % 2 ^ 32

/-- `GetFSRScaledResolution`; `upscalingPercent` is `configManager->getValue(SettingScaling)`. -/
def GetFSRScaledResolution (upscalingPercent : Int) (outputWidth outputHeight : Nat) :
    Nat × Nat :=
  if upscalingPercent > 100 then
    (scaledInputAbove100 upscalingPercent outputWidth,
     scaledInputAbove100 upscalingPercent outputHeight)
  else if upscalingPercent < 100 then
    (scaledInputBelow100 upscalingPercent outputWidth,
     scaledInputBelow100 upscalingPercent outputHeight)
  else (outputWidth, outputHeight)

end graphics

/-! ## Textures and their view caches (d3d11.cpp, d3d12.cpp) -/

namespace graphics

/-- The four kinds of view a texture hands out: `getShaderInputView`,
`getComputeShaderOutputView`, `getRenderTargetView`, `getDepthStencilView`. -/
inductive ViewKind
  | shaderInput
  | computeShaderOutput
  | renderTarget
  | depthStencil
deriving DecidableEq, Repr

/-- The native view description the getters fill in (after `ZeroMemory`): format, view
dimension (2-D array unless `arraySize == 1`), `ArraySize = 1`, first slice, and the mip
fields (`D3D11CalcSubresource(0, 0, mipCount)` and `D3D12CalcSubresource(0, 0, 0, ..)`
are both 0; `MipLevels` is set for shader resource views only). -/
structure ViewDesc where
  kind : ViewKind
  format : Int
  textureArray : Bool
  arraySize : Nat
  firstArraySlice : Nat
  mipLevels : Nat
  mipSlice : Nat
deriving DecidableEq, Repr

/-- The description built by `get*ViewInternal(view, slice)` from `m_info`. -/
def viewDesc (info : XrSwapchainCreateInfo) (kind : ViewKind) (slice : Nat) : ViewDesc :=
  { kind := kind, format := info.format, textureArray := !(info.arraySize == 1),
    arraySize := 1, firstArraySlice := slice,
    mipLevels := if kind = .shaderInput then info.mipCount else 0, mipSlice := 0 }

/-- The cached views of a texture: per kind one view for the whole texture and a vector
of per-slice views.  `View` is the wrapper class of the backend. -/
structure ViewCache (View : Type) where
  m_shaderResourceView : Option View
  m_shaderResourceSubView : List (Option View)
  m_unorderedAccessView : Option View
  m_unorderedAccessSubView : List (Option View)
  m_renderTargetView : Option View
  m_renderTargetSubView : List (Option View)
  m_depthStencilView : Option View
  m_depthStencilSubView : List (Option View)
deriving DecidableEq, Repr

namespace ViewCache

/-- The caches as the texture constructors leave them: no view yet, and
`m_shaderResourceSubView`, `m_unorderedAccessSubView` and `m_renderTargetSubView` resized
to `info.arraySize`.  `m_depthStencilSubView` is not resized by either constructor. -/
def create (View : Type) (arraySize : Nat) : ViewCache View :=
  { m_shaderResourceView := none,
    m_shaderResourceSubView := List.replicate arraySize none,
    m_unorderedAccessView := none,
    m_unorderedAccessSubView := List.replicate arraySize none,
    m_renderTargetView := none,
    m_renderTargetSubView := List.replicate arraySize none,
    m_depthStencilView := none,
    m_depthStencilSubView := [] }

variable {View : Type}

/-- The whole-texture member of a kind. -/
def whole (c : ViewCache View) : ViewKind → Option View
  | .shaderInput => c.m_shaderResourceView
  | .computeShaderOutput => c.m_unorderedAccessView
  | .renderTarget => c.m_renderTargetView
  | .depthStencil => c.m_depthStencilView

/-- The per-slice vector of a kind. -/
def sub (c : ViewCache View) : ViewKind → List (Option View)
  | .shaderInput => c.m_shaderResourceSubView
  | .computeShaderOutput => c.m_unorderedAccessSubView
  | .renderTarget => c.m_renderTargetSubView
  | .depthStencil => c.m_depthStencilSubView

/-- Assignment to the whole-texture member of a kind. -/
def setWhole (c : ViewCache View) (kind : ViewKind) (v : Option View) : ViewCache View :=
  match kind with
  | .shaderInput => { c with m_shaderResourceView := v }
  | .computeShaderOutput => { c with m_unorderedAccessView := v }
  | .renderTarget => { c with m_renderTargetView := v }
  | .depthStencil => { c with m_depthStencilView := v }

/-- Assignment to element `slice` of the per-slice vector of a kind. -/
def setSub (c : ViewCache View) (kind : ViewKind) (slice : Nat) (v : Option View) :
    ViewCache View :=
  match kind with
  | .shaderInput => { c with m_shaderResourceSubView := c.m_shaderResourceSubView.set slice v }
  | .computeShaderOutput =>
    { c with m_unorderedAccessSubView := c.m_unorderedAccessSubView.set slice v }
  | .renderTarget => { c with m_renderTargetSubView := c.m_renderTargetSubView.set slice v }
  | .depthStencil => { c with m_depthStencilSubView := c.m_depthStencilSubView.set slice v }

end ViewCache

end graphics

namespace graphics

/-! ### D3D11 textures -/

def D3D11_BIND_SHADER_RESOURCE : Nat := 0x8
def D3D11_BIND_RENDER_TARGET : Nat := 0x20
def D3D11_BIND_DEPTH_STENCIL : Nat := 0x40
def D3D11_BIND_UNORDERED_ACCESS : Nat := 0x80

/-- A view wrapper of d3d11.cpp (`D3D11ShaderResourceView`, `D3D11UnorderedAccessView`,
`D3D11RenderTargetView`, `D3D11DepthStencilView`): the native view it holds. -/
structure D3D11View where
  native : Nat
deriving DecidableEq, Repr

/-- The `ID3D11Device` as far as views go: the `Create*View` calls made so far, each with
the texture and the description it was given.  The call number is the native view. -/
structure ID3D11Device where
  views : List (Nat × ViewDesc)
deriving DecidableEq, Repr

/-- A `D3D11Texture`: `m_info`, the `BindFlags` and `ArraySize` of `m_textureDesc`, the
native texture and the view caches. -/
structure D3D11Texture where
  m_info : XrSwapchainCreateInfo
  BindFlags : Nat
  ArraySize : Nat
  m_texture : Nat
  cache : ViewCache D3D11View
deriving DecidableEq, Repr

namespace D3D11Texture

/-- The constructor `D3D11Texture(device, info, textureDesc, texture)`. -/
def create (info : XrSwapchainCreateInfo) (BindFlags ArraySize texture : Nat) : D3D11Texture :=
  { m_info := info, BindFlags := BindFlags, ArraySize := ArraySize, m_texture := texture,
    cache := ViewCache.create D3D11View info.arraySize }

/-- The bind flag each `get*ViewInternal` requires. -/
def requiredBindFlag : ViewKind → Nat
  | .shaderInput => D3D11_BIND_SHADER_RESOURCE
  | .computeShaderOutput => D3D11_BIND_UNORDERED_ACCESS
  | .renderTarget => D3D11_BIND_RENDER_TARGET
  | .depthStencil => D3D11_BIND_DEPTH_STENCIL

/-- The exception each `get*ViewInternal` throws when the flag is missing. -/
def capabilityError : ViewKind → LayerError
  | .shaderInput => .runtimeError "Texture was not created with D3D11_BIND_SHADER_RESOURCE"
  | .computeShaderOutput =>
    .runtimeError "Texture was not created with D3D11_BIND_UNORDERED_ACCESS"
  | .renderTarget => .runtimeError "Texture was not created with D3D11_BIND_RENDER_TARGET"
  | .depthStencil => .runtimeError "Texture was not created with D3D11_BIND_DEPTH_STENCIL"

/-- Whether the texture's bind flags permit a view kind. -/
def permits (t : D3D11Texture) (kind : ViewKind) : Bool :=
  hasFlag t.BindFlags (requiredBindFlag kind)

/-- `getShaderInputViewInternal`, `getComputeShaderOutputViewInternal`,
`getRenderTargetViewInternal`, `getDepthStencilViewInternal` (they differ in the flag, the
message and the native call only).  `cached` is the member passed by reference; the
answer is what is returned or thrown, the new value of that member, and the device.  The
native `Create*View` call is taken to succeed. -/
def getViewInternal (t : D3D11Texture) (kind : ViewKind) (cached : Option D3D11View)
    (slice : Nat) (dev : ID3D11Device) :
    Except LayerError D3D11View × Option D3D11View × ID3D11Device :=
  match cached with
  | some view => (.ok view, cached, dev)
  | none =>
    if !t.permits kind then (.error (capabilityError kind), none, dev)
    else
      let view : D3D11View := { native := dev.views.length }
      (.ok view, some view,
       { views := dev.views ++ [(t.m_texture, viewDesc t.m_info kind slice)] })

/-- The getters without argument: `get*View()` calls `get*ViewInternal(m_*View, 0)`. -/
def getView (t : D3D11Texture) (kind : ViewKind) (dev : ID3D11Device) :
    Except LayerError D3D11View × D3D11Texture × ID3D11Device :=
  let (r, c, d) := t.getViewInternal kind (t.cache.whole kind) 0 dev
  (r, { t with cache := t.cache.setWhole kind c }, d)

/-- The getters with a slice: `get*View(slice)` calls
`get*ViewInternal(m_*SubView[slice], slice)`; indexing the vector past its end is
reported as `outOfRange`. -/
def getSliceView (t : D3D11Texture) (kind : ViewKind) (slice : Nat) (dev : ID3D11Device) :
    Except LayerError D3D11View × D3D11Texture × ID3D11Device :=
  match (t.cache.sub kind)[slice]? with
  | none => (.error .outOfRange, t, dev)
  | some cached =>
    let (r, c, d) := t.getViewInternal kind cached slice dev
    (r, { t with cache := t.cache.setSub kind slice c }, d)

end D3D11Texture

/-- `D3D11Device::createTexture`: the bind flags derived from the usage flags. -/
def D3D11BindFlags (usageFlags : Nat) : Nat :=
  (if hasFlag usageFlags XR_SWAPCHAIN_USAGE_COLOR_ATTACHMENT_BIT then D3D11_BIND_RENDER_TARGET
    else 0) |||
  (if hasFlag usageFlags XR_SWAPCHAIN_USAGE_DEPTH_STENCIL_ATTACHMENT_BIT then
    D3D11_BIND_DEPTH_STENCIL else 0) |||
  (if hasFlag usageFlags XR_SWAPCHAIN_USAGE_SAMPLED_BIT then D3D11_BIND_SHADER_RESOURCE
    else 0) |||
  (if hasFlag usageFlags XR_SWAPCHAIN_USAGE_UNORDERED_ACCESS_BIT then
    D3D11_BIND_UNORDERED_ACCESS else 0)

/-- `D3D11Device::createTexture(info, ...)` as far as the wrapper goes; `texture` is the
native resource `CreateTexture2D` returned. -/
def D3D11CreateTexture (info : XrSwapchainCreateInfo) (texture : Nat) : D3D11Texture :=
  D3D11Texture.create info (D3D11BindFlags info.usageFlags) info.arraySize texture

/-! ### D3D12 descriptor heaps and textures -/

def D3D12_RESOURCE_FLAG_ALLOW_RENDER_TARGET : Nat := 0x1
def D3D12_RESOURCE_FLAG_ALLOW_DEPTH_STENCIL : Nat := 0x2
def D3D12_RESOURCE_FLAG_ALLOW_UNORDERED_ACCESS : Nat := 0x4
def D3D12_RESOURCE_FLAG_DENY_SHADER_RESOURCE : Nat := 0x8

/-- A value of `INT` arithmetic, wrapped into the 32-bit range (signed overflow is
undefined in C++; the properties below stay within the range). -/
def wrapInt32 (x : Int) : Int := (x + 2147483648) % 4294967296 - 2147483648

/-- `struct D3D12Heap`: start handles, the offset of the next free descriptor (`INT
heapOffset`) and the descriptor size (`UINT descSize`). -/
structure D3D12Heap where
  heapStartCPU : Nat
  heapStartGPU : Nat
  heapOffset : Int
  descSize : Nat
deriving DecidableEq, Repr

namespace D3D12Heap

/-- The descriptor count `D3D12Heap::initialize` asks for. -/
def NumDescriptors : Nat := 32

/-- `D3D12Heap::initialize` with the handles and increment the device reports. -/
def init (heapStartCPU heapStartGPU descSize : Nat) : D3D12Heap :=
  { heapStartCPU := heapStartCPU, heapStartGPU := heapStartGPU, heapOffset := 0,
    descSize := descSize }

/-- `D3D12Heap::allocate`: `CD3DX12_CPU_DESCRIPTOR_HANDLE(heapStartCPU, heapOffset++,
descSize)`.  The handle is `SIZE_T(INT64(heapStartCPU.ptr) + INT64(heapOffset) *
INT64(descSize))`; the increment is one of `INT`. -/
def allocate (h : D3D12Heap) : Nat × D3D12Heap :=
  ((((h.heapStartCPU : Int) + h.heapOffset * (h.descSize : Int)) % 18446744073709551616).toNat,
   { h with heapOffset := wrapInt32 (h.heapOffset + 1) })

/-- `D3D12Heap::getGPUHandle`. -/
def getGPUHandle (h : D3D12Heap) (cpuHandle : Nat) : Nat :=
  h.heapStartGPU + ((cpuHandle - h.heapStartCPU) / h.descSize) * h.descSize

end D3D12Heap

/-- `D3D12ResourceView`: the CPU descriptor handle it wraps. -/
structure D3D12ResourceView where
  m_resourceView : Nat
deriving DecidableEq, Repr

/-- The three heaps of the `D3D12Device` that textures allocate from, and the
`Create*View` calls made on the `ID3D12Device` so far (handle, texture, description). -/
structure D3D12Descriptors where
  m_rtvHeap : D3D12Heap
  m_dsvHeap : D3D12Heap
  m_rvHeap : D3D12Heap
  views : List (Nat × Nat × ViewDesc)
deriving DecidableEq, Repr

/-- A `D3D12Texture`: `m_info`, the `Flags` and `DepthOrArraySize` of `m_textureDesc`,
the native resource and the view caches. -/
structure D3D12Texture where
  m_info : XrSwapchainCreateInfo
  Flags : Nat
  DepthOrArraySize : Nat
  m_texture : Nat
  cache : ViewCache D3D12ResourceView
deriving DecidableEq, Repr

namespace D3D12Texture

/-- The constructor `D3D12Texture(device, info, textureDesc, texture, heaps)`. -/
def create (info : XrSwapchainCreateInfo) (Flags DepthOrArraySize texture : Nat) :
    D3D12Texture :=
  { m_info := info, Flags := Flags, DepthOrArraySize := DepthOrArraySize,
    m_texture := texture, cache := ViewCache.create D3D12ResourceView info.arraySize }

/-- The flag test of each `get*ViewInternal`: shader input views are refused when
`DENY_SHADER_RESOURCE` is set, the others when their `ALLOW` flag is missing. -/
def permits (t : D3D12Texture) : ViewKind → Bool
  | .shaderInput => !hasFlag t.Flags D3D12_RESOURCE_FLAG_DENY_SHADER_RESOURCE
  | .computeShaderOutput => hasFlag t.Flags D3D12_RESOURCE_FLAG_ALLOW_UNORDERED_ACCESS
  | .renderTarget => hasFlag t.Flags D3D12_RESOURCE_FLAG_ALLOW_RENDER_TARGET
  | .depthStencil => hasFlag t.Flags D3D12_RESOURCE_FLAG_ALLOW_DEPTH_STENCIL

/-- The exception each `get*ViewInternal` throws when the flags refuse the view. -/
def capabilityError : ViewKind → LayerError
  | .shaderInput =>
    .runtimeError "Texture was created with D3D12_RESOURCE_FLAG_DENY_SHADER_RESOURCE"
  | .computeShaderOutput =>
    .runtimeError "Texture was not created with D3D12_RESOURCE_FLAG_ALLOW_UNORDERED_ACCESS"
  | .renderTarget =>
    .runtimeError "Texture was not created with D3D12_RESOURCE_FLAG_ALLOW_RENDER_TARGET"
  | .depthStencil =>
    .runtimeError "Texture was not created with D3D12_RESOURCE_FLAG_ALLOW_DEPTH_STENCIL"

/-- The heap each view kind allocates from, after the allocation, with the handle. -/
def allocateFor (h : D3D12Descriptors) : ViewKind → Nat × D3D12Descriptors
  | .shaderInput => (h.m_rvHeap.allocate.1, { h with m_rvHeap := h.m_rvHeap.allocate.2 })
  | .computeShaderOutput =>
    (h.m_rvHeap.allocate.1, { h with m_rvHeap := h.m_rvHeap.allocate.2 })
  | .renderTarget => (h.m_rtvHeap.allocate.1, { h with m_rtvHeap := h.m_rtvHeap.allocate.2 })
  | .depthStencil => (h.m_dsvHeap.allocate.1, { h with m_dsvHeap := h.m_dsvHeap.allocate.2 })

/-- The four `get*ViewInternal` functions of `D3D12Texture`. -/
def getViewInternal (t : D3D12Texture) (kind : ViewKind) (cached : Option D3D12ResourceView)
    (slice : Nat) (h : D3D12Descriptors) :
    Except LayerError D3D12ResourceView × Option D3D12ResourceView × D3D12Descriptors :=
  match cached with
  | some view => (.ok view, cached, h)
  | none =>
    if !t.permits kind then (.error (capabilityError kind), none, h)
    else
      let (handle, h1) := allocateFor h kind
      let view : D3D12ResourceView := { m_resourceView := handle }
      (.ok view, some view,
       { h1 with views := h1.views ++ [(handle, t.m_texture, viewDesc t.m_info kind slice)] })

/-- The getters without argument. -/
def getView (t : D3D12Texture) (kind : ViewKind) (h : D3D12Descriptors) :
    Except LayerError D3D12ResourceView × D3D12Texture × D3D12Descriptors :=
  let (r, c, h1) := t.getViewInternal kind (t.cache.whole kind) 0 h
  (r, { t with cache := t.cache.setWhole kind c }, h1)

/-- The getters with a slice; indexing the vector past its end is reported as
`outOfRange`. -/
def getSliceView (t : D3D12Texture) (kind : ViewKind) (slice : Nat) (h : D3D12Descriptors) :
    Except LayerError D3D12ResourceView × D3D12Texture × D3D12Descriptors :=
  match (t.cache.sub kind)[slice]? with
  | none => (.error .outOfRange, t, h)
  | some cached =>
    let (r, c, h1) := t.getViewInternal kind cached slice h
    (r, { t with cache := t.cache.setSub kind slice c }, h1)

end D3D12Texture

/-- `D3D12Device::createTexture`: the resource flags derived from the usage flags. -/
def D3D12ResourceFlags (usageFlags : Nat) : Nat :=
  (if hasFlag usageFlags XR_SWAPCHAIN_USAGE_COLOR_ATTACHMENT_BIT then
    D3D12_RESOURCE_FLAG_ALLOW_RENDER_TARGET else 0) |||
  (if hasFlag usageFlags XR_SWAPCHAIN_USAGE_DEPTH_STENCIL_ATTACHMENT_BIT then
    D3D12_RESOURCE_FLAG_ALLOW_DEPTH_STENCIL else 0) |||
  (if !hasFlag usageFlags XR_SWAPCHAIN_USAGE_SAMPLED_BIT then
    D3D12_RESOURCE_FLAG_DENY_SHADER_RESOURCE else 0) |||
  (if hasFlag usageFlags XR_SWAPCHAIN_USAGE_UNORDERED_ACCESS_BIT then
    D3D12_RESOURCE_FLAG_ALLOW_UNORDERED_ACCESS else 0)

/-- `D3D12Device::createTexture(info, ...)` as far as the wrapper goes. -/
def D3D12CreateTexture (info : XrSwapchainCreateInfo) (texture : Nat) : D3D12Texture :=
  D3D12Texture.create info (D3D12ResourceFlags info.usageFlags) info.arraySize texture

end graphics

/-! ## Reference descriptions used to state the properties -/

namespace OpenXrLayer

/-- The debug name given to the wrapped runtime image `i`. -/
def runtimeName (i : Nat) : String := "Runtime swapchain " ++ toString i ++ " TEX2D"

/-- The chain that the three stage blocks of `xrCreateSwapchain` leave for image `i`, front
to back, when they start from the single wrapped runtime texture `r` and the device has
so far created `dev.texturesCreated` textures. -/
def expectedChain (s : OpenXrLayer) (ci cinfo : XrSwapchainCreateInfo) (i : Nat)
    (dev : IDevice) (r : ITexture) : List ITexture :=
  let n0 := dev.texturesCreated
  let n1 := n0 + (if s.m_preProcessor.isSome then 1 else 0)
  let n2 := n1 + (if s.m_upscaler.isSome then 1 else 0)
  (if s.m_preProcessor.isSome then
    [{ info := preProcessorInputCreateInfo ci s.m_upscaler.isSome, native := .created n0,
       debugName := "Postprocess input swapchain " ++ toString i ++ " TEX2D" }] else []) ++
  (if s.m_upscaler.isSome then
    [{ info := upscalerInputCreateInfo ci, native := .created n1,
       debugName := "App swapchain " ++ toString i ++ " TEX2D" }] else []) ++
  (if s.m_postProcessor.isSome then
    [{ info := intermediateCreateInfo cinfo s.m_upscaler.isSome, native := .created n2,
       debugName := "Postprocess input swapchain " ++ toString i ++ " TEX2D" }] else []) ++ [r]

end OpenXrLayer

/-! ## A concrete session used to exercise the properties -/

namespace Scenario

/-- Scaling by FSR at 150%, everything else at its default. -/
def fsr150 : ConfigManager :=
  { SettingScalingType := .FSR, SettingScaling := 150, SettingFOV := 100,
    SettingPredictionDampen := 100 }

/-- No scaling (the defaults set by `xrGetSystem`). -/
def noScaling : ConfigManager :=
  { SettingScalingType := .None, SettingScaling := 100, SettingFOV := 100,
    SettingPredictionDampen := 100 }

/-- The layer after `xrGetSystem` stored system 1 and a 2000x2000 display. -/
def afterGetSystem (cfg : ConfigManager) : OpenXrLayer :=
  { OpenXrLayer.fresh cfg with m_vrSystemId := 1, m_displayWidth := 2000,
                               m_displayHeight := 2000 }

/-- The layer after a successful `xrCreateSession` with a D3D11 binding, session handle 5. -/
def afterCreateSession (cfg : ConfigManager) : OpenXrLayer :=
  match (afterGetSystem cfg).xrCreateSession 1
      [.otherStructure, .XR_TYPE_GRAPHICS_BINDING_D3D11_KHR] XR_SUCCESS 5 with
  | .ok (s, _) => s
  | .error _ => afterGetSystem cfg

/-- A colour swapchain request at `width` x `height` (sRGB, one slice). -/
def colorSwapchain (width height : Nat) : XrSwapchainCreateInfo :=
  { createFlags := 0, usageFlags := XR_SWAPCHAIN_USAGE_COLOR_ATTACHMENT_BIT,
    format := DXGI_FORMAT_R8G8B8A8_UNORM_SRGB, sampleCount := 1, width := width,
    height := height, faceCount := 1, arraySize := 1, mipCount := 1 }

/-- A runtime that creates swapchain 42 with the two images 100 and 101. -/
def runtime (_ : XrSwapchainCreateInfo) : RuntimeSwapchain :=
  { result := XR_SUCCESS, swapchain := 42, images := [100, 101] }

end Scenario

namespace Scenario

/-- The session with FSR at 150% on a 2000x2000 display. -/
def session150 : OpenXrLayer := afterCreateSession fsr150

/-- The session without scaling on a 2000x2000 display. -/
def sessionNoScaling : OpenXrLayer := afterCreateSession noScaling

/-- The application asks for a 1334x1334 colour swapchain in `session150`. -/
def created150 : OpenXrLayer.CreateSwapchainOutcome :=
  session150.xrCreateSwapchain 5 (colorSwapchain 1334 1334) runtime

/-- A colour swapchain request with two array slices. -/
def colorSwapchainArray : XrSwapchainCreateInfo :=
  { colorSwapchain 1334 1334 with arraySize := 2 }

/-- The application asks for a 1334x1334 colour swapchain with two slices in `session150`. -/
def createdArray150 : OpenXrLayer.CreateSwapchainOutcome :=
  session150.xrCreateSwapchain 5 colorSwapchainArray runtime

/-- The application asks for a 2000x2000 colour swapchain in `sessionNoScaling`. -/
def createdNoScaling : OpenXrLayer.CreateSwapchainOutcome :=
  sessionNoScaling.xrCreateSwapchain 5 (colorSwapchain 2000 2000) runtime

/-- The state registered for swapchain 42 (empty when there is none). -/
def registered (s : OpenXrLayer) : SwapchainState :=
  match s.findSwapchain 42 with
  | some st => st
  | none => { images := [], acquiredImageIndex := 0 }

/-- The first image of swapchain 42. -/
def image0 (s : OpenXrLayer) : SwapchainImages :=
  match (registered s).images with
  | im :: _ => im
  | [] => SwapchainImages.empty

/-- A projection view onto `swapchain`, 1334x1334 at the origin. -/
def view (swapchain : Nat) : XrCompositionLayerProjectionView :=
  { pose := 0,
    fov := { angleLeft := .given 0, angleRight := .given 1, angleUp := .given 2,
             angleDown := .given 3 },
    subImage := { swapchain := swapchain,
                  imageRect := { offset := { x := 0, y := 0 },
                                 extent := { width := 1334, height := 1334 } },
                  imageArrayIndex := 0 } }

end Scenario

namespace Scenario

/-- A two-slice depth texture request (D32_FLOAT, depth-stencil and sampled usage). -/
def depthArray : XrSwapchainCreateInfo :=
  { createFlags := 0,
    usageFlags := XR_SWAPCHAIN_USAGE_DEPTH_STENCIL_ATTACHMENT_BIT ||| XR_SWAPCHAIN_USAGE_SAMPLED_BIT,
    format := 40, sampleCount := 1, width := 2000, height := 2000, faceCount := 1,
    arraySize := 2, mipCount := 1 }

/-- A two-slice colour texture request (colour attachment and sampled usage). -/
def colorArray : XrSwapchainCreateInfo :=
  { createFlags := 0,
    usageFlags := XR_SWAPCHAIN_USAGE_COLOR_ATTACHMENT_BIT ||| XR_SWAPCHAIN_USAGE_SAMPLED_BIT,
    format := DXGI_FORMAT_R8G8B8A8_UNORM_SRGB, sampleCount := 1, width := 2000, height := 2000,
    faceCount := 1, arraySize := 2, mipCount := 1 }

/-- A D3D11 device that has created no view yet. -/
def d3d11 : ID3D11Device := { views := [] }

/-- The heaps of a D3D12 device right after `initialize`, no view created yet. -/
def d3d12 : D3D12Descriptors :=
  { m_rtvHeap := D3D12Heap.init 0x1000 0 32, m_dsvHeap := D3D12Heap.init 0x2000 0 8,
    m_rvHeap := D3D12Heap.init 0x3000 0x9000 32, views := [] }

end Scenario

/-! ## Double-precision arithmetic (the C++ `double` of the GPU timers) -/

namespace binary64

/-- The binary64 value nearest to `num / den` (round to nearest, ties to even), held like
the binary32 values as a multiple of `2^-128`: the quotient is rounded to a multiple of
`ulp = 2^(e - 52)` where `2^e <= num / den < 2^(e+1)`, which leaves 53 significant bits.
Every binary64 value from `2^-76` up is such a multiple, which covers the quotients of two
64-bit counters and their product with `1e6`. -/
def round (num den : Nat) : Nat :=
  let n := num * binary32.scale
  let ulp := 2 ^ (binary32.floorLog2 (n / den) - 52)
  let k := n / (den * ulp)
  let r := n % (den * ulp)
  if 2 * r > den * ulp ∨ (2 * r = den * ulp ∧ k % 2 = 1) then (k + 1) * ulp else k * ulp

/-- Conversion of a `UINT64` to `double`. -/
def ofNat (n : Nat) : Nat := round n 1

/-- `a / b` in `double`. -/
def div (a b : Nat) : Nat := round a b

/-- `a * b` in `double`. -/
def mul (a b : Nat) : Nat := round (a * b) (binary32.scale * binary32.scale)

/-- `(uint64_t)` of a `double`: the integer part when it is below `2^64`; the conversion
of a larger value is undefined in C++ and gives `none`. -/
def toUInt64 (a : Nat) : Option Nat :=
  if a / binary32.scale < 2 ^ 64 then some (a / binary32.scale) else none

end binary64

/-! ## GPU timers (d3d11.cpp, d3d12.cpp) -/

namespace graphics

/-- The calls made on an `ID3D11DeviceContext`, in the order they are issued.  Native
objects (queries, views, shaders, buffers, states) are named by a number; a `none` in a
view or buffer array is a null pointer. -/
inductive D3D11Command
  | Begin (query : Nat)
  | End (query : Nat)
  | Map (resource : Nat)
  | memcpy (resource : Nat) (data : List Nat) (count : Nat)
  | Unmap (resource : Nat)
  | OMSetBlendState
  | OMSetDepthStencilState
  | IASetIndexBuffer
  | IASetVertexBuffers
  | IASetInputLayout
  | IASetPrimitiveTopology
  | VSSetShader (shader : Nat)
  | PSSetSamplers (StartSlot : Nat) (samplers : List Nat)
  | PSSetShader (shader : Nat)
  | CSSetSamplers (StartSlot : Nat) (samplers : List Nat)
  | CSSetShader (shader : Nat)
  | PSSetShaderResources (StartSlot : Nat) (views : List (Option Nat))
  | CSSetShaderResources (StartSlot : Nat) (views : List (Option Nat))
  | PSSetConstantBuffers (StartSlot : Nat) (buffers : List (Option Nat))
  | CSSetConstantBuffers (StartSlot : Nat) (buffers : List (Option Nat))
  | CSSetUnorderedAccessViews (StartSlot : Nat) (views : List (Option Nat))
  | OMSetRenderTargets (views : List (Option Nat)) (depthStencil : Option Nat)
  | RSSetViewports (width height : Nat)
  | RSSetState (state : Nat)
  | Draw (VertexCount StartVertexLocation : Nat)
  | Dispatch (x y z : Nat)
deriving DecidableEq, Repr

/-- What `ID3D11DeviceContext::GetData` reports for the three queries of a timer when
`query` asks: whether each call returns `S_OK`, and the data it fills in. -/
structure D3D11TimestampData where
  disjointOk : Bool
  Disjoint : Bool
  Frequency : Nat
  startOk : Bool
  startime : Nat
  endOk : Bool
  endtime : Nat
deriving DecidableEq, Repr

/-- `(uint64_t)((endtime - startime) / double(disData.Frequency) * 1e6)`: the difference
of the two `UINT64` counters (modulo `2^64`), converted to `double`, divided, multiplied
and truncated.  A zero frequency makes the quotient infinite or NaN, whose conversion is
undefined like that of a value of `2^64` or more. -/
def elapsedMicroseconds (startime endtime Frequency : Nat) : Option Nat :=
  if Frequency % 2 ^ 64 = 0 then none
  else
    let ticks := (endtime % 2 ^ 64 + 2 ^ 64 - startime % 2 ^ 64) % 2 ^ 64
    binary64.toUInt64
      (binary64.mul (binary64.div (binary64.ofNat ticks) (binary64.ofNat (Frequency % 2 ^ 64)))
        (binary64.ofNat 1000000))

/-- A `D3D11GpuTimer`: its three query objects and `m_valid`. -/
structure D3D11GpuTimer where
  m_timeStampDis : Nat
  m_timeStampStart : Nat
  m_timeStampEnd : Nat
  m_valid : Bool
deriving DecidableEq, Repr

namespace D3D11GpuTimer

/-- The constructor: the three queries `CreateQuery` returned, `m_valid{false}`. -/
def create (timeStampDis timeStampStart timeStampEnd : Nat) : D3D11GpuTimer :=
  { m_timeStampDis := timeStampDis, m_timeStampStart := timeStampStart,
    m_timeStampEnd := timeStampEnd, m_valid := false }

/-- `D3D11GpuTimer::start`.  `assert(!m_valid)` aborts the process in a build without
`NDEBUG` when `m_valid` is set (the result `none`) and is no code in a build with
`NDEBUG`.  Otherwise the two calls are issued on `context`. -/
def start (t : D3D11GpuTimer) (NDEBUG : Bool) (context : List D3D11Command) :
    Option (D3D11GpuTimer × List D3D11Command) :=
  if !NDEBUG && t.m_valid then none
  else some (t, context ++ [.Begin t.m_timeStampDis, .End t.m_timeStampStart])

/-- `D3D11GpuTimer::stop`, with the same assertion; sets `m_valid`. -/
def stop (t : D3D11GpuTimer) (NDEBUG : Bool) (context : List D3D11Command) :
    Option (D3D11GpuTimer × List D3D11Command) :=
  if !NDEBUG && t.m_valid then none
  else some ({ t with m_valid := true },
             context ++ [.End t.m_timeStampEnd, .End t.m_timeStampDis])

/-- `D3D11GpuTimer::query(reset)`: the duration (0 unless `m_valid` and all three
`GetData` calls return `S_OK` with `Disjoint` clear), and the timer with
`m_valid = !reset`. -/
def query (t : D3D11GpuTimer) (reset : Bool) (gpu : D3D11TimestampData) :
    Option Nat × D3D11GpuTimer :=
  let duration :=
    if t.m_valid && gpu.disjointOk && gpu.startOk && gpu.endOk && !gpu.Disjoint then
      elapsedMicroseconds gpu.startime gpu.endtime gpu.Frequency
    else some 0
  (duration, { t with m_valid := !reset })

end D3D11GpuTimer

/-- A `D3D12GpuTimer`: it has no member besides the device. -/
structure D3D12GpuTimer where
  serial : Nat
deriving DecidableEq, Repr

namespace D3D12GpuTimer

/-- `D3D12GpuTimer::start` (empty body). -/
def start (t : D3D12GpuTimer) : D3D12GpuTimer := t

/-- `D3D12GpuTimer::stop` (empty body). -/
def stop (t : D3D12GpuTimer) : D3D12GpuTimer := t

/-- `D3D12GpuTimer::query(reset)`: `return 0`. -/
def query (t : D3D12GpuTimer) (_reset : Bool) : Nat × D3D12GpuTimer := (0, t)

end D3D12GpuTimer

end graphics

/-! ## Constant buffers (d3d11.cpp, d3d12.cpp) -/

namespace graphics

def D3D11_USAGE_IMMUTABLE : Nat := 1
def D3D11_USAGE_DYNAMIC : Nat := 2
def D3D11_BIND_CONSTANT_BUFFER : Nat := 0x4
def D3D11_CPU_ACCESS_WRITE : Nat := 0x10000

structure D3D11_BUFFER_DESC where
  ByteWidth : Nat
  Usage : Nat
  BindFlags : Nat
  CPUAccessFlags : Nat
deriving DecidableEq, Repr

/-- A `D3D11Buffer`: `m_bufferDesc` and the native buffer. -/
structure D3D11Buffer where
  m_bufferDesc : D3D11_BUFFER_DESC
  m_buffer : Nat
deriving DecidableEq, Repr

/-- The description `D3D11Device::createBuffer` fills in; `initialData` tells whether the
pointer is non-null. -/
def D3D11BufferDesc (size : Nat) (initialData immutable : Bool) : D3D11_BUFFER_DESC :=
  { ByteWidth := size % 2 ^ 32,
    Usage := if initialData && immutable then D3D11_USAGE_IMMUTABLE else D3D11_USAGE_DYNAMIC,
    BindFlags := D3D11_BIND_CONSTANT_BUFFER,
    CPUAccessFlags := if immutable then 0 else D3D11_CPU_ACCESS_WRITE }

/-- `D3D11Device::createBuffer(size, debugName, initialData, immutable)`; `buffer` is the
native buffer `ID3D11Device::CreateBuffer` returned. -/
def D3D11CreateBuffer (size : Nat) (initialData : Option (List Nat)) (immutable : Bool)
    (buffer : Nat) : D3D11Buffer :=
  { m_bufferDesc := D3D11BufferDesc size initialData.isSome immutable, m_buffer := buffer }

/-- Whether Direct3D 11 accepts `Map(.., D3D11_MAP_WRITE_DISCARD, ..)` on a resource of
this description at all: the resource must have been created with `D3D11_USAGE_DYNAMIC`
and `D3D11_CPU_ACCESS_WRITE` (the call returns `E_INVALIDARG` otherwise). -/
def D3D11_BUFFER_DESC.mapWriteDiscardAllowed (desc : D3D11_BUFFER_DESC) : Bool :=
  desc.Usage == D3D11_USAGE_DYNAMIC && hasFlag desc.CPUAccessFlags D3D11_CPU_ACCESS_WRITE

/-- `D3D11Buffer::uploadData(buffer, count)` on the context `context`.  `mapSucceeds`
is whether `Map(m_buffer, 0, D3D11_MAP_WRITE_DISCARD, 0, ..)` returns a success code on a
resource for which Direct3D 11 accepts the call; the wrapper itself tests the size only. -/
def D3D11Buffer.uploadData (b : D3D11Buffer) (data : List Nat) (count : Nat)
    (mapSucceeds : Bool) (context : List D3D11Command) :
    Except LayerError Unit × List D3D11Command :=
  if b.m_bufferDesc.ByteWidth != count then
    (.error (.runtimeError "Upload size mismatch"), context)
  else if !(b.m_bufferDesc.mapWriteDiscardAllowed && mapSucceeds) then
    (.error (.hresult "context->Map(m_buffer.Get(), 0, D3D11_MAP_WRITE_DISCARD, 0, &mappedResources)"),
     context)
  else
    (.ok (), context ++ [.Map b.m_buffer, .memcpy b.m_buffer data count, .Unmap b.m_buffer])

end graphics

/-! ## The D3D11 device: shader binding and dispatch (d3d11.cpp) -/

namespace graphics

/-- A `D3D11QuadShader`: the native pixel shader. -/
structure D3D11QuadShader where
  m_pixelShader : Nat
deriving DecidableEq, Repr

/-- A `D3D11ComputeShader`: the native compute shader and `m_threadGroups`. -/
structure D3D11ComputeShader where
  m_computeShader : Nat
  m_threadGroups : Nat × Nat × Nat
deriving DecidableEq, Repr

/-- The members of `D3D11Device` used by the shader functions.  `m_currentContext` is the
stream of calls issued on the current context; the shading resources are native objects
made by `initializeShadingResources`. -/
structure D3D11Device where
  m_device : ID3D11Device
  m_currentContext : List D3D11Command
  m_linearClampSamplerPS : Nat
  m_linearClampSamplerCS : Nat
  m_quadRasterizer : Nat
  m_quadRasterizerMSAA : Nat
  m_quadVertexShader : Nat
  m_currentDrawRenderTarget : Option Nat
  m_currentDrawRenderTargetSlice : Int
  m_currentDrawDepthBuffer : Option Nat
  m_currentDrawDepthBufferSlice : Int
  m_currentQuadShader : Option D3D11QuadShader
  m_currentComputeShader : Option D3D11ComputeShader
  m_currentShaderHighestSRV : Nat
  m_currentShaderHighestUAV : Nat
  m_currentShaderHighestRTV : Nat
deriving DecidableEq, Repr

/-- A `uint32_t slice` parameter receiving an `int32_t`. -/
def sliceIndex (slice : Int) : Nat := (slice % 2 ^ 32).toNat

namespace D3D11Device

/-- The device as its constructor leaves it: no current shader, nothing issued.  The
three `m_currentShaderHighest*` members and the two slice members have no initialiser;
`highest` and `slices` are the values they happen to hold. -/
def create (highest : Nat × Nat × Nat) (slices : Int × Int) : D3D11Device :=
  { m_device := { views := [] }, m_currentContext := [],
    m_linearClampSamplerPS := 1, m_linearClampSamplerCS := 2, m_quadRasterizer := 3,
    m_quadRasterizerMSAA := 4, m_quadVertexShader := 5,
    m_currentDrawRenderTarget := none, m_currentDrawRenderTargetSlice := slices.1,
    m_currentDrawDepthBuffer := none, m_currentDrawDepthBufferSlice := slices.2,
    m_currentQuadShader := none, m_currentComputeShader := none,
    m_currentShaderHighestSRV := highest.1, m_currentShaderHighestUAV := highest.2.1,
    m_currentShaderHighestRTV := highest.2.2 }

/-- Issue calls on the current context. -/
def issue (d : D3D11Device) (calls : List D3D11Command) : D3D11Device :=
  { d with m_currentContext := d.m_currentContext ++ calls }

/-- `setShader(std::shared_ptr<IQuadShader>)`. -/
def setShaderQuad (d : D3D11Device) (shader : D3D11QuadShader) : D3D11Device :=
  let d1 := { d with m_currentQuadShader := none, m_currentComputeShader := none,
                     m_currentShaderHighestSRV := 0, m_currentShaderHighestUAV := 0,
                     m_currentShaderHighestRTV := 0 }
  let d2 := d1.issue [.OMSetBlendState, .OMSetDepthStencilState, .IASetIndexBuffer,
    .IASetVertexBuffers, .IASetInputLayout, .IASetPrimitiveTopology,
    .VSSetShader d1.m_quadVertexShader, .PSSetSamplers 0 [d1.m_linearClampSamplerPS],
    .PSSetShader shader.m_pixelShader]
  { d2 with m_currentQuadShader := some shader }

/-- `setShader(std::shared_ptr<IComputeShader>)`. -/
def setShaderCompute (d : D3D11Device) (shader : D3D11ComputeShader) : D3D11Device :=
  let d1 := { d with m_currentQuadShader := none, m_currentComputeShader := none,
                     m_currentShaderHighestSRV := 0, m_currentShaderHighestUAV := 0,
                     m_currentShaderHighestRTV := 0 }
  let d2 := d1.issue [.CSSetSamplers 0 [d1.m_linearClampSamplerCS],
    .CSSetShader shader.m_computeShader]
  { d2 with m_currentComputeShader := some shader }

/-- `setRenderTargets` for one render target and no depth buffer, as `setShaderOutput`
calls it: `setRenderTargets({output}, nullptr)` when `slice == -1` (the depth slice is
then -1) and `setRenderTargets({std::make_pair(output, slice)}, {})` otherwise (the depth
slice is then 0). -/
def setRenderTarget (d : D3D11Device) (renderTarget : D3D11Texture) (slice : Int) :
    Except LayerError Unit × D3D11Device × D3D11Texture :=
  let (r, renderTarget1, device1) :=
    if slice == -1 then renderTarget.getView .renderTarget d.m_device
    else renderTarget.getSliceView .renderTarget (sliceIndex slice) d.m_device
  let d1 := { d with m_device := device1 }
  match r with
  | .error e => (.error e, d1, renderTarget1)
  | .ok view =>
    let d2 := d1.issue [.OMSetRenderTargets [some view.native] none]
    let d3 := { d2 with m_currentDrawRenderTarget := some renderTarget.m_texture,
                        m_currentDrawRenderTargetSlice := slice,
                        m_currentDrawDepthBuffer := none,
                        m_currentDrawDepthBufferSlice := if slice == -1 then -1 else 0 }
    (.ok (), d3.issue [.RSSetViewports renderTarget.m_info.width renderTarget.m_info.height],
     renderTarget1)

end D3D11Device

end graphics

namespace graphics

namespace D3D11Device

/-- The exception of the shader functions when neither shader member is set. -/
def noShaderIsSet : LayerError := .runtimeError "No shader is set"

/-- `setShaderInput(slot, std::shared_ptr<ITexture> input, slice)`.  The array `srvs` is
initialised from the input view before the shader members are looked at. -/
def setShaderInput (d : D3D11Device) (slot : Nat) (input : D3D11Texture) (slice : Int) :
    Except LayerError Unit × D3D11Device × D3D11Texture :=
  let (r, input1, device1) :=
    if slice == -1 then input.getView .shaderInput d.m_device
    else input.getSliceView .shaderInput (sliceIndex slice) d.m_device
  let d1 := { d with m_device := device1 }
  match r with
  | .error e => (.error e, d1, input1)
  | .ok view =>
    let srvs := [some view.native]
    if d1.m_currentQuadShader.isSome then
      (.ok (), { d1.issue [.PSSetShaderResources slot srvs] with
        m_currentShaderHighestSRV := max d1.m_currentShaderHighestSRV slot }, input1)
    else if d1.m_currentComputeShader.isSome then
      (.ok (), { d1.issue [.CSSetShaderResources slot srvs] with
        m_currentShaderHighestSRV := max d1.m_currentShaderHighestSRV slot }, input1)
    else (.error noShaderIsSet, d1, input1)

/-- `setShaderInput(slot, std::shared_ptr<IShaderBuffer> input)`. -/
def setShaderInputBuffer (d : D3D11Device) (slot : Nat) (input : D3D11Buffer) :
    Except LayerError Unit × D3D11Device :=
  let cbs := [some input.m_buffer]
  if d.m_currentQuadShader.isSome then (.ok (), d.issue [.PSSetConstantBuffers slot cbs])
  else if d.m_currentComputeShader.isSome then
    (.ok (), d.issue [.CSSetConstantBuffers slot cbs])
  else (.error noShaderIsSet, d)

/-- `setShaderOutput(slot, output, slice)`. -/
def setShaderOutput (d : D3D11Device) (slot : Nat) (output : D3D11Texture) (slice : Int) :
    Except LayerError Unit × D3D11Device × D3D11Texture :=
  if d.m_currentQuadShader.isSome then
    if slot != 0 then (.error (.runtimeError "Only use slot 0 for IQuadShader"), d, output)
    else
      match d.setRenderTarget output slice with
      | (.error e, d1, output1) => (.error e, d1, output1)
      | (.ok _, d1, output1) =>
        let d2 := d1.issue [.RSSetState (if output.m_info.sampleCount > 1
          then d1.m_quadRasterizerMSAA else d1.m_quadRasterizer)]
        (.ok (), { d2 with m_currentShaderHighestRTV := max d2.m_currentShaderHighestRTV slot },
         output1)
  else if d.m_currentComputeShader.isSome then
    let (r, output1, device1) :=
      if slice == -1 then output.getView .computeShaderOutput d.m_device
      else output.getSliceView .computeShaderOutput (sliceIndex slice) d.m_device
    let d1 := { d with m_device := device1 }
    match r with
    | .error e => (.error e, d1, output1)
    | .ok view =>
      (.ok (), { d1.issue [.CSSetUnorderedAccessViews slot [some view.native]] with
        m_currentShaderHighestUAV := max d1.m_currentShaderHighestUAV slot }, output1)
  else (.error noShaderIsSet, d, output)

/-- The part of `dispatchShader` under `if (!doNotClear)`.  Each vector of null pointers
has `highest + 1` entries, computed in `unsigned int`; the bound of the third loop is
`m_currentShaderHighestRTV + 1`, read after that member was set to 0. -/
def unbindAll (d : D3D11Device) : D3D11Device :=
  let rtvs : List (Option Nat) :=
    List.replicate ((d.m_currentShaderHighestRTV + 1) % 2 ^ 32) none
  let d1 := { d.issue [.OMSetRenderTargets rtvs none] with m_currentShaderHighestRTV := 0 }
  let srvs : List (Option Nat) :=
    List.replicate ((d1.m_currentShaderHighestSRV + 1) % 2 ^ 32) none
  let d2 := { (if d1.m_currentQuadShader.isSome then d1.issue [.PSSetShaderResources 0 srvs]
               else d1.issue [.CSSetShaderResources 0 srvs]) with
              m_currentShaderHighestSRV := 0 }
  let uavs : List (Option Nat) :=
    List.replicate ((d2.m_currentShaderHighestRTV + 1) % 2 ^ 32) none
  let d3 := { d2.issue [.CSSetUnorderedAccessViews 0 uavs] with m_currentShaderHighestUAV := 0 }
  { d3 with m_currentQuadShader := none, m_currentComputeShader := none }

/-- `dispatchShader(doNotClear)`. -/
def dispatchShader (d : D3D11Device) (doNotClear : Bool) : Except LayerError Unit × D3D11Device :=
  match d.m_currentQuadShader, d.m_currentComputeShader with
  | some _, _ =>
    let d1 := d.issue [.Draw 3 0]
    (.ok (), if !doNotClear then d1.unbindAll else d1)
  | none, some shader =>
    let d1 := d.issue [.Dispatch shader.m_threadGroups.1 shader.m_threadGroups.2.1
      shader.m_threadGroups.2.2]
    (.ok (), if !doNotClear then d1.unbindAll else d1)
  | none, none => (.error noShaderIsSet, d)

end D3D11Device

/-- What the calls of a stream bind, as `ID3D11DeviceContext` defines it: a `Set` call
with `StartSlot` and an array of `n` entries replaces slots `StartSlot .. StartSlot+n-1`
and leaves the others.  `array? call` is the start slot and array when `call` is the
kind of call looked at. -/
def boundAt (array? : D3D11Command → Option (Nat × List (Option Nat)))
    (context : List D3D11Command) (slot : Nat) : Option Nat :=
  context.foldl (fun bound call =>
    match array? call with
    | some (start, views) =>
      if start ≤ slot ∧ slot < start + views.length then (views[slot - start]?).join else bound
    | none => bound) none

/-- The unordered access view bound to compute slot `slot` after `context`. -/
def boundUnorderedAccessView (context : List D3D11Command) (slot : Nat) : Option Nat :=
  boundAt (fun call => match call with
    | .CSSetUnorderedAccessViews start views => some (start, views)
    | _ => none) context slot

/-- The shader resource view bound to pixel shader slot `slot` after `context`. -/
def boundPSShaderResource (context : List D3D11Command) (slot : Nat) : Option Nat :=
  boundAt (fun call => match call with
    | .PSSetShaderResources start views => some (start, views)
    | _ => none) context slot

/-- The shader resource view bound to compute shader slot `slot` after `context`. -/
def boundCSShaderResource (context : List D3D11Command) (slot : Nat) : Option Nat :=
  boundAt (fun call => match call with
    | .CSSetShaderResources start views => some (start, views)
    | _ => none) context slot

/-- The render target bound to output slot `slot` after `context`: `OMSetRenderTargets`
sets the slots of its array and clears all others. -/
def boundRenderTarget (context : List D3D11Command) (slot : Nat) : Option Nat :=
  context.foldl (fun bound call =>
    match call with
    | .OMSetRenderTargets views _ => (views[slot]?).join
    | _ => bound) none

end graphics

/-! ## The D3D12 device: deferred shader resolution, binding and dispatch (d3d12.cpp) -/

namespace graphics

inductive D3D12_DESCRIPTOR_RANGE_TYPE
  | SRV
  | UAV
  | CBV
  | SAMPLER
deriving DecidableEq, Repr

/-- `CD3DX12_DESCRIPTOR_RANGE(rangeType, 1, slot)`. -/
structure CD3DX12_DESCRIPTOR_RANGE where
  RangeType : D3D12_DESCRIPTOR_RANGE_TYPE
  NumDescriptors : Nat
  BaseShaderRegister : Nat
deriving DecidableEq, Repr

/-- A root signature made by `ID3D12Device::CreateRootSignature`: the native object and
the descriptor tables (one per range) it was serialised from. -/
structure ID3D12RootSignature where
  native : Nat
  parameters : List CD3DX12_DESCRIPTOR_RANGE
deriving DecidableEq, Repr

/-- The fields of `m_psoDesc` that `resolve` writes. -/
structure D3D12_PIPELINE_STATE_DESC where
  RTVFormat : Int
  NumRenderTargets : Nat
  SampleCount : Nat
  SampleQuality : Nat
  MultisampleEnable : Bool
  pRootSignature : Option Nat
deriving DecidableEq, Repr

/-- A pipeline state made by `CreateGraphicsPipelineState` or
`CreateComputePipelineState`: the native object and the description it was made from. -/
structure ID3D12PipelineState where
  native : Nat
  desc : D3D12_PIPELINE_STATE_DESC
deriving DecidableEq, Repr

/-- The calls recorded on an `ID3D12GraphicsCommandList`, in order. -/
inductive D3D12Command
  | SetDescriptorHeaps
  | SetGraphicsRootSignature (rootSignature : Nat)
  | SetComputeRootSignature (rootSignature : Nat)
  | SetPipelineState (pipelineState : Nat)
  | IASetIndexBuffer
  | IASetVertexBuffers
  | IASetPrimitiveTopology
  | SetGraphicsRootDescriptorTable (RootParameterIndex BaseDescriptor : Nat)
  | SetComputeRootDescriptorTable (RootParameterIndex BaseDescriptor : Nat)
  | OMSetRenderTargets (renderTargets : List Nat) (depthStencil : Option Nat)
  | RSSetViewports (width height : Nat)
  | RSSetScissorRects (width height : Nat)
  | DrawInstanced (VertexCountPerInstance InstanceCount : Nat)
  | Dispatch (x y z : Nat)
  | ResourceBarrier (resource stateBefore stateAfter : Nat)
  | UpdateSubresources (destination : Nat) (intermediate : Option Nat) (data : List Nat)
      (count : Nat)
deriving DecidableEq, Repr

/-- Whether the native calls made by `resolve` succeed, and the quality level count
`CheckFeatureSupport` reports. -/
structure D3D12ResolveResults where
  D3D12SerializeRootSignature : Bool
  CreateRootSignature : Bool
  CheckFeatureSupport : Bool
  NumQualityLevels : Nat
  CreatePipelineState : Bool
deriving DecidableEq, Repr

/-- A `D3D12QuadShader` (`compute = false`) or `D3D12ComputeShader` (`compute = true`):
the members of the base class `D3D12Shader`, `m_psoDesc` and `m_threadGroups`. -/
structure D3D12Shader where
  compute : Bool
  m_rootSignature : Option ID3D12RootSignature
  m_pipelineState : Option ID3D12PipelineState
  m_outputInfo : XrSwapchainCreateInfo
  m_parametersDescriptorRanges : List CD3DX12_DESCRIPTOR_RANGE
  m_parametersForFirstCall : List (Nat × Nat)
  m_psoDesc : D3D12_PIPELINE_STATE_DESC
  m_threadGroups : Nat × Nat × Nat
deriving DecidableEq, Repr

namespace D3D12Shader

/-- The constructors: empty `ComPtr` members, `m_outputInfo{}`, nothing recorded. -/
def create (compute : Bool) (threadGroups : Nat × Nat × Nat) : D3D12Shader :=
  { compute := compute, m_rootSignature := none, m_pipelineState := none,
    m_outputInfo := { createFlags := 0, usageFlags := 0, format := 0, sampleCount := 0,
                      width := 0, height := 0, faceCount := 0, arraySize := 0, mipCount := 0 },
    m_parametersDescriptorRanges := [], m_parametersForFirstCall := [],
    m_psoDesc := { RTVFormat := 0, NumRenderTargets := 0, SampleCount := 0, SampleQuality := 0,
                   MultisampleEnable := false, pRootSignature := none },
    m_threadGroups := threadGroups }

/-- `needsResolve()`: `return !m_pipelineState`. -/
def needsResolve (s : D3D12Shader) : Bool := s.m_pipelineState.isNone

/-- `setOutputFormat`. -/
def setOutputFormat (s : D3D12Shader) (info : XrSwapchainCreateInfo) : D3D12Shader :=
  { s with m_outputInfo := info }

/-- The body shared by `registerSamplerParameter`, `registerCBVParameter`,
`registerSRVParameter` and `registerUAVParameter`. -/
def registerParameter (s : D3D12Shader) (rangeType : D3D12_DESCRIPTOR_RANGE_TYPE) (slot : Nat)
    (handle : Nat) : D3D12Shader :=
  { s with
    m_parametersDescriptorRanges := s.m_parametersDescriptorRanges ++
      [{ RangeType := rangeType, NumDescriptors := 1, BaseShaderRegister := slot }],
    m_parametersForFirstCall := s.m_parametersForFirstCall ++
      [(s.m_parametersForFirstCall.length % 2 ^ 32, handle)] }

end D3D12Shader

end graphics

namespace graphics

namespace D3D12Shader

/-- `D3D12Shader::resolve()` of the base class: the root signature is built from the
recorded ranges, which are then cleared.  `objects` counts the native objects created so
far and numbers the new one.  `IID_PPV_ARGS(&m_rootSignature)` releases the member before
the call, so a failed creation leaves it empty.  The answer carries the new root
signature, the shader and the object count. -/
def resolveRootSignature (s : D3D12Shader) (native : D3D12ResolveResults) (objects : Nat) :
    Except LayerError ID3D12RootSignature × D3D12Shader × Nat :=
  if !native.D3D12SerializeRootSignature then
    (.error (.hresult "Failed to serialize root signature"), s, objects)
  else if !native.CreateRootSignature then
    (.error (.hresult "device->CreateRootSignature"), { s with m_rootSignature := none }, objects)
  else
    let rootSignature : ID3D12RootSignature :=
      { native := objects, parameters := s.m_parametersDescriptorRanges }
    (.ok rootSignature,
     { s with m_rootSignature := some rootSignature, m_parametersDescriptorRanges := [] },
     objects + 1)

/-- `D3D12QuadShader::resolve()`.  The last component is the list of calls issued on the
device context. -/
def resolveQuad (s : D3D12Shader) (native : D3D12ResolveResults) (objects : Nat) :
    Except LayerError Unit × D3D12Shader × Nat × List D3D12Command :=
  match s.resolveRootSignature native objects with
  | (.error e, s1, n1) => (.error e, s1, n1, [])
  | (.ok rootSignature, s1, n1) =>
    let desc1 := { s1.m_psoDesc with RTVFormat := s1.m_outputInfo.format, NumRenderTargets := 1,
                                     SampleCount := s1.m_outputInfo.sampleCount }
    if desc1.SampleCount > 1 ∧ !native.CheckFeatureSupport then
      (.error (.hresult "CheckFeatureSupport"), { s1 with m_psoDesc := desc1 }, n1, [])
    else
      let desc2 :=
        if desc1.SampleCount > 1 then
          { desc1 with SampleQuality := (native.NumQualityLevels + 2 ^ 32 - 1) % 2 ^ 32,
                       MultisampleEnable := true }
        else desc1
      let desc3 := { desc2 with pRootSignature := some rootSignature.native }
      if !native.CreatePipelineState then
        (.error (.hresult "device->CreateGraphicsPipelineState"),
         { s1 with m_psoDesc := desc3, m_pipelineState := none }, n1, [])
      else
        let pipelineState : ID3D12PipelineState := { native := n1, desc := desc3 }
        let calls : List D3D12Command :=
          [.SetGraphicsRootSignature rootSignature.native, .SetPipelineState pipelineState.native,
           .IASetIndexBuffer, .IASetVertexBuffers, .IASetPrimitiveTopology] ++
          s1.m_parametersForFirstCall.map
            (fun parameter => .SetGraphicsRootDescriptorTable parameter.1 parameter.2)
        (.ok (), { s1 with m_psoDesc := desc3, m_pipelineState := some pipelineState,
                           m_parametersForFirstCall := [] }, n1 + 1, calls)

/-- `D3D12ComputeShader::resolve()`. -/
def resolveCompute (s : D3D12Shader) (native : D3D12ResolveResults) (objects : Nat) :
    Except LayerError Unit × D3D12Shader × Nat × List D3D12Command :=
  match s.resolveRootSignature native objects with
  | (.error e, s1, n1) => (.error e, s1, n1, [])
  | (.ok rootSignature, s1, n1) =>
    let desc := { s1.m_psoDesc with pRootSignature := some rootSignature.native }
    if !native.CreatePipelineState then
      (.error (.hresult "device->CreateComputePipelineState"),
       { s1 with m_psoDesc := desc, m_pipelineState := none }, n1, [])
    else
      let pipelineState : ID3D12PipelineState := { native := n1, desc := desc }
      let calls : List D3D12Command :=
        [.SetComputeRootSignature rootSignature.native, .SetPipelineState pipelineState.native] ++
        s1.m_parametersForFirstCall.map
          (fun parameter => .SetComputeRootDescriptorTable parameter.1 parameter.2)
      (.ok (), { s1 with m_psoDesc := desc, m_pipelineState := some pipelineState,
                         m_parametersForFirstCall := [] }, n1 + 1, calls)

/-- The virtual `resolve()`. -/
def resolve (s : D3D12Shader) (native : D3D12ResolveResults) (objects : Nat) :
    Except LayerError Unit × D3D12Shader × Nat × List D3D12Command :=
  if s.compute then s.resolveCompute native objects else s.resolveQuad native objects

end D3D12Shader

/-- A `D3D12Buffer`: the width of `m_bufferDesc`, the native buffer, `m_uploadBuffer` and
the cached constant buffer view. -/
structure D3D12Buffer where
  Width : Nat
  m_buffer : Nat
  m_uploadBuffer : Option Nat
  m_constantBufferView : Option Nat
deriving DecidableEq, Repr

def D3D12_RESOURCE_STATE_COMMON : Nat := 0
def D3D12_RESOURCE_STATE_COPY_DEST : Nat := 0x400
def D3D12_RESOURCE_STATE_GENERIC_READ : Nat := 0xAC3

namespace D3D12Buffer

/-- `uploadData(buffer, count, uploadBuffer)`: the calls recorded on the context. -/
def uploadDataThrough (b : D3D12Buffer) (data : List Nat) (count : Nat)
    (uploadBuffer : Option Nat) : List D3D12Command :=
  [.ResourceBarrier b.m_buffer D3D12_RESOURCE_STATE_COMMON D3D12_RESOURCE_STATE_COPY_DEST,
   .UpdateSubresources b.m_buffer uploadBuffer data count,
   .ResourceBarrier b.m_buffer D3D12_RESOURCE_STATE_COPY_DEST D3D12_RESOURCE_STATE_GENERIC_READ]

/-- The exception of `uploadData` on a buffer without upload buffer. -/
def immutableError : LayerError := .runtimeError "Texture is immutable"

/-- `uploadData(buffer, count)` on the context `context`. -/
def uploadData (b : D3D12Buffer) (data : List Nat) (count : Nat)
    (context : List D3D12Command) : Except LayerError Unit × List D3D12Command :=
  match b.m_uploadBuffer with
  | none => (.error immutableError, context)
  | some uploadBuffer => (.ok (), context ++ b.uploadDataThrough data count (some uploadBuffer))

/-- `getConstantBufferView()`: allocated from the resource view heap on first use. -/
def getConstantBufferView (b : D3D12Buffer) (h : D3D12Descriptors) :
    Nat × D3D12Buffer × D3D12Descriptors :=
  match b.m_constantBufferView with
  | some handle => (handle, b, h)
  | none =>
    let (handle, heap) := h.m_rvHeap.allocate
    (handle, { b with m_constantBufferView := some handle }, { h with m_rvHeap := heap })

end D3D12Buffer

end graphics

namespace graphics

/-- The members of `D3D12Device` used by the shader and buffer functions.  `m_context` is
the list of calls recorded on the open command list, `executed` the lists handed to
`ExecuteCommandLists`.  `shaders` holds the shader objects made by this device; a
`std::shared_ptr` to one of them is its position in that list.  `objects` counts the native
objects created so far. -/
structure D3D12Device where
  descriptors : D3D12Descriptors
  m_samplerHeap : D3D12Heap
  m_linearClampSamplerPS : Nat
  m_linearClampSamplerCS : Nat
  objects : Nat
  m_context : List D3D12Command
  executed : List (List D3D12Command)
  m_currentContext : Nat
  m_fenceValue : Nat
  shaders : List D3D12Shader
  m_currentDrawRenderTarget : Option Nat
  m_currentDrawRenderTargetSlice : Int
  m_currentDrawDepthBuffer : Option Nat
  m_currentDrawDepthBufferSlice : Int
  m_currentQuadShader : Option Nat
  m_currentComputeShader : Option Nat
  m_currentRootSlot : Nat
deriving DecidableEq, Repr

namespace D3D12Device

/-- Command lists kept in flight. -/
def NumInflightContexts : Nat := 4

/-- The device as its constructor leaves it: the four heaps initialised, the two samplers
allocated from the sampler heap, no shader current.  `m_currentRootSlot` and the slice
members have no initialiser; `rootSlot` and `slices` are the values they happen to hold. -/
def create (rootSlot : Nat) (slices : Int × Int) : D3D12Device :=
  let samplerHeap := D3D12Heap.init 0x4000 0xA000 16
  let (samplerPS, samplerHeap1) := samplerHeap.allocate
  let (samplerCS, samplerHeap2) := samplerHeap1.allocate
  { descriptors := { m_rtvHeap := D3D12Heap.init 0x1000 0 32, m_dsvHeap := D3D12Heap.init 0x2000 0 8,
                     m_rvHeap := D3D12Heap.init 0x3000 0x9000 32, views := [] },
    m_samplerHeap := samplerHeap2, m_linearClampSamplerPS := samplerPS,
    m_linearClampSamplerCS := samplerCS, objects := 0, m_context := [], executed := [],
    m_currentContext := 0, m_fenceValue := 0, shaders := [],
    m_currentDrawRenderTarget := none, m_currentDrawRenderTargetSlice := slices.1,
    m_currentDrawDepthBuffer := none, m_currentDrawDepthBufferSlice := slices.2,
    m_currentQuadShader := none, m_currentComputeShader := none, m_currentRootSlot := rootSlot }

/-- Record calls on the open command list. -/
def issue (d : D3D12Device) (calls : List D3D12Command) : D3D12Device :=
  { d with m_context := d.m_context ++ calls }

/-- `createQuadShader`: a new `D3D12QuadShader`; the answer is the pointer to it. -/
def createQuadShader (d : D3D12Device) : Nat × D3D12Device :=
  (d.shaders.length, { d with shaders := d.shaders ++ [D3D12Shader.create false (0, 0, 0)] })

/-- `createComputeShader(.., threadGroups, ..)`: a new `D3D12ComputeShader`. -/
def createComputeShader (d : D3D12Device) (threadGroups : Nat × Nat × Nat) : Nat × D3D12Device :=
  (d.shaders.length, { d with shaders := d.shaders ++ [D3D12Shader.create true threadGroups] })

/-- The shader the functions below work on:
`m_currentComputeShader ? m_currentComputeShader : m_currentQuadShader`. -/
def currentShader (d : D3D12Device) : Option Nat :=
  match d.m_currentComputeShader with
  | some shader => some shader
  | none => d.m_currentQuadShader

/-- Apply a member function to the shader object `shader`. -/
def updateShader (d : D3D12Device) (shader : Nat) (f : D3D12Shader → D3D12Shader) :
    D3D12Device :=
  match d.shaders[shader]? with
  | some s => { d with shaders := d.shaders.set shader (f s) }
  | none => d

/-- `needsResolve()` of the shader object `shader`. -/
def needsResolve (d : D3D12Device) (shader : Nat) : Option Bool :=
  (d.shaders[shader]?).map D3D12Shader.needsResolve

/-- `flushContext(blocking)`; the native calls are taken to succeed. -/
def flushContext (d : D3D12Device) (blocking : Bool) : D3D12Device :=
  { d with executed := d.executed ++ [d.m_context], m_context := [],
           m_fenceValue := if blocking then d.m_fenceValue + 1 else d.m_fenceValue,
           m_currentContext :=
             if d.m_currentContext + 1 == NumInflightContexts then 0 else d.m_currentContext + 1 }

/-- `createBuffer(size, debugName, initialData, immutable)`; the resources made by
`CreateCommittedResource` are numbered from `objects`. -/
def createBuffer (d : D3D12Device) (size : Nat) (initialData : Option (List Nat))
    (immutable : Bool) : D3D12Buffer × D3D12Device :=
  let buffer := d.objects
  let d1 := { d with objects := d.objects + 1 }
  let (uploadBuffer, d2) : Option Nat × D3D12Device :=
    if initialData.isSome || !immutable then
      (some d1.objects, { d1 with objects := d1.objects + 1 })
    else (none, d1)
  let result : D3D12Buffer :=
    { Width := size, m_buffer := buffer,
      m_uploadBuffer := if !immutable then uploadBuffer else none,
      m_constantBufferView := none }
  match initialData with
  | some data => (result, (d2.issue (result.uploadDataThrough data size uploadBuffer)).flushContext true)
  | none => (result, d2)

end D3D12Device

end graphics

namespace graphics

namespace D3D12Device

/-- The exception of the shader functions when neither shader member is set. -/
def noShaderIsSet : LayerError := .runtimeError "No shader is set"

/-- `m_currentRootSlot++`. -/
def nextRootSlot (d : D3D12Device) : D3D12Device :=
  { d with m_currentRootSlot := (d.m_currentRootSlot + 1) % 2 ^ 32 }

/-- Both overloads of `setShader`; `compute` tells which one, `shader` is the pointer
passed.  A pointer to no shader object of the kind of the overload is answered with
`nullPointer` (the overloads cannot be called that way). -/
def setShader (d : D3D12Device) (compute : Bool) (shader : Nat) :
    Except LayerError Unit × D3D12Device :=
  match d.shaders[shader]? with
  | none => (.error .nullPointer, d)
  | some s =>
    if s.compute != compute then (.error .nullPointer, d)
    else
      let d1 := ({ d with m_currentQuadShader := none, m_currentComputeShader := none,
                          m_currentRootSlot := 0 }).issue [.SetDescriptorHeaps]
      let sampler := d1.m_samplerHeap.getGPUHandle
        (if compute then d1.m_linearClampSamplerCS else d1.m_linearClampSamplerPS)
      let d2 :=
        if !s.needsResolve then
          let rootSignature := ((s.m_rootSignature.map (fun r => r.native)).getD 0)
          let pipelineState := ((s.m_pipelineState.map (fun p => p.native)).getD 0)
          if compute then
            (d1.issue [.SetComputeRootSignature rootSignature, .SetPipelineState pipelineState,
              .SetComputeRootDescriptorTable d1.m_currentRootSlot sampler]).nextRootSlot
          else
            (d1.issue [.SetGraphicsRootSignature rootSignature, .SetPipelineState pipelineState,
              .IASetIndexBuffer, .IASetVertexBuffers, .IASetPrimitiveTopology,
              .SetGraphicsRootDescriptorTable d1.m_currentRootSlot sampler]).nextRootSlot
        else d1.updateShader shader (fun sh => sh.registerParameter .SAMPLER 0 sampler)
      (.ok (), if compute then { d2 with m_currentComputeShader := some shader }
               else { d2 with m_currentQuadShader := some shader })

/-- The tail shared by the input and output functions once the descriptor `handle` of
the resource is known: bind it directly when the current shader is resolved, record it
with the shader otherwise. -/
def bindOrRegister (d : D3D12Device) (shader : Nat) (rangeType : D3D12_DESCRIPTOR_RANGE_TYPE)
    (slot handle : Nat) : Except LayerError Unit × D3D12Device :=
  match d.shaders[shader]? with
  | none => (.error .nullPointer, d)
  | some s =>
    let gpuHandle := d.descriptors.m_rvHeap.getGPUHandle handle
    if !s.needsResolve then
      if d.m_currentComputeShader.isSome then
        (.ok (), (d.issue [.SetComputeRootDescriptorTable d.m_currentRootSlot gpuHandle]).nextRootSlot)
      else
        (.ok (), (d.issue [.SetGraphicsRootDescriptorTable d.m_currentRootSlot gpuHandle]).nextRootSlot)
    else (.ok (), d.updateShader shader (fun sh => sh.registerParameter rangeType slot gpuHandle))

/-- `setShaderInput(slot, std::shared_ptr<ITexture> input, slice)`. -/
def setShaderInput (d : D3D12Device) (slot : Nat) (input : D3D12Texture) (slice : Int) :
    Except LayerError Unit × D3D12Device × D3D12Texture :=
  match d.currentShader with
  | none => (.error noShaderIsSet, d, input)
  | some shader =>
    let (r, input1, descriptors1) :=
      if slice == -1 then input.getView .shaderInput d.descriptors
      else input.getSliceView .shaderInput (sliceIndex slice) d.descriptors
    let d1 := { d with descriptors := descriptors1 }
    match r with
    | .error e => (.error e, d1, input1)
    | .ok view =>
      let (r1, d2) := d1.bindOrRegister shader .SRV slot view.m_resourceView
      (r1, d2, input1)

/-- `setShaderInput(slot, std::shared_ptr<IShaderBuffer> input)`. -/
def setShaderInputBuffer (d : D3D12Device) (slot : Nat) (input : D3D12Buffer) :
    Except LayerError Unit × D3D12Device × D3D12Buffer :=
  match d.currentShader with
  | none => (.error noShaderIsSet, d, input)
  | some shader =>
    let (handle, input1, descriptors1) := input.getConstantBufferView d.descriptors
    let (r1, d2) := ({ d with descriptors := descriptors1 }).bindOrRegister shader .CBV slot handle
    (r1, d2, input1)

end D3D12Device

end graphics

namespace graphics

namespace D3D12Device

/-- `setRenderTargets` for one render target and no depth buffer, as `setShaderOutput`
calls it (see the D3D11 function of the same name for the two call forms). -/
def setRenderTarget (d : D3D12Device) (renderTarget : D3D12Texture) (slice : Int) :
    Except LayerError Unit × D3D12Device × D3D12Texture :=
  let (r, renderTarget1, descriptors1) :=
    if slice == -1 then renderTarget.getView .renderTarget d.descriptors
    else renderTarget.getSliceView .renderTarget (sliceIndex slice) d.descriptors
  let d1 := { d with descriptors := descriptors1 }
  match r with
  | .error e => (.error e, d1, renderTarget1)
  | .ok view =>
    let d2 := d1.issue [.OMSetRenderTargets [view.m_resourceView] none]
    let d3 := { d2 with m_currentDrawRenderTarget := some renderTarget.m_texture,
                        m_currentDrawRenderTargetSlice := slice,
                        m_currentDrawDepthBuffer := none,
                        m_currentDrawDepthBufferSlice := if slice == -1 then -1 else 0 }
    (.ok (), d3.issue [.RSSetViewports renderTarget.m_info.width renderTarget.m_info.height,
                       .RSSetScissorRects renderTarget.m_info.width renderTarget.m_info.height],
     renderTarget1)

/-- `setShaderOutput(slot, output, slice)`. -/
def setShaderOutput (d : D3D12Device) (slot : Nat) (output : D3D12Texture) (slice : Int) :
    Except LayerError Unit × D3D12Device × D3D12Texture :=
  match d.m_currentQuadShader, d.m_currentComputeShader with
  | some shader, _ =>
    if slot != 0 then (.error (.runtimeError "Only use slot 0 for IQuadShader"), d, output)
    else
      match d.setRenderTarget output slice with
      | (.error e, d1, output1) => (.error e, d1, output1)
      | (.ok _, d1, output1) =>
        match d1.shaders[shader]? with
        | none => (.error .nullPointer, d1, output1)
        | some s =>
          (.ok (), if s.needsResolve then
                     d1.updateShader shader (fun sh => sh.setOutputFormat output.m_info)
                   else d1, output1)
  | none, some shader =>
    let (r, output1, descriptors1) :=
      if slice == -1 then output.getView .computeShaderOutput d.descriptors
      else output.getSliceView .computeShaderOutput (sliceIndex slice) d.descriptors
    let d1 := { d with descriptors := descriptors1 }
    match r with
    | .error e => (.error e, d1, output1)
    | .ok view =>
      let (r1, d2) := d1.bindOrRegister shader .UAV slot view.m_resourceView
      (r1, d2, output1)
  | none, none => (.error noShaderIsSet, d, output)

/-- The first block of `dispatchShader`: `if (d3d12Shader->needsResolve())
d3d12Shader->resolve()` on the current shader `s`, the object `shader`. -/
def resolveIfNeeded (d : D3D12Device) (shader : Nat) (s : D3D12Shader)
    (native : D3D12ResolveResults) : Except LayerError Unit × D3D12Device :=
  if s.needsResolve then
    match s.resolve native d.objects with
    | (r, s1, objects1, calls) =>
      (r, ({ d with shaders := d.shaders.set shader s1, objects := objects1 }).issue calls)
  else (.ok (), d)

/-- The draw of `dispatchShader`: a triangle for a quad shader, the thread groups of the
compute shader `s` otherwise. -/
def drawCall (d : D3D12Device) (s : D3D12Shader) : D3D12Command :=
  if d.m_currentQuadShader.isSome then .DrawInstanced 3 1
  else .Dispatch s.m_threadGroups.1 s.m_threadGroups.2.1 s.m_threadGroups.2.2

/-- `dispatchShader(doNotClear)`; `native` tells how the native calls of a `resolve()`
made by this dispatch turn out. -/
def dispatchShader (d : D3D12Device) (doNotClear : Bool) (native : D3D12ResolveResults) :
    Except LayerError Unit × D3D12Device :=
  match d.currentShader with
  | none => (.error noShaderIsSet, d)
  | some shader =>
    match d.shaders[shader]? with
    | none => (.error .nullPointer, d)
    | some s =>
      match d.resolveIfNeeded shader s native with
      | (.error e, d1) => (.error e, d1)
      | (.ok _, d1) =>
        let d2 := d1.issue [d1.drawCall s]
        (.ok (), if !doNotClear then
                   { d2 with m_currentQuadShader := none, m_currentComputeShader := none }
                 else d2)

/-- The device operations on shaders, with their arguments. -/
inductive Operation
  | setShader (compute : Bool) (shader : Nat)
  | setShaderInput (slot : Nat) (input : D3D12Texture) (slice : Int)
  | setShaderInputBuffer (slot : Nat) (input : D3D12Buffer)
  | setShaderOutput (slot : Nat) (output : D3D12Texture) (slice : Int)
  | dispatchShader (doNotClear : Bool) (native : D3D12ResolveResults)
  | flushContext (blocking : Bool)
deriving DecidableEq, Repr

/-- One operation: whether it returned or threw, and the device afterwards. -/
def step (d : D3D12Device) : Operation → Except LayerError Unit × D3D12Device
  | .setShader compute shader => d.setShader compute shader
  | .setShaderInput slot input slice =>
    let (r, d1, _) := d.setShaderInput slot input slice
    (r, d1)
  | .setShaderInputBuffer slot input =>
    let (r, d1, _) := d.setShaderInputBuffer slot input
    (r, d1)
  | .setShaderOutput slot output slice =>
    let (r, d1, _) := d.setShaderOutput slot output slice
    (r, d1)
  | .dispatchShader doNotClear native => d.dispatchShader doNotClear native
  | .flushContext blocking => (.ok (), d.flushContext blocking)

/-- A sequence of operations, each on the device the previous one left (an exception is
caught by the caller, who goes on). -/
def run (d : D3D12Device) (operations : List Operation) : D3D12Device :=
  operations.foldl (fun device operation => (device.step operation).2) d

end D3D12Device

end graphics

namespace Scenario

/-- A D3D11 timer over the queries 10, 11 and 12, as constructed. -/
def timer : D3D11GpuTimer := D3D11GpuTimer.create 10 11 12

/-- The timer after `start()` and `stop()` in a build with assertions (it is unchanged
should a call abort). -/
def stoppedTimer : D3D11GpuTimer :=
  match timer.start false [] with
  | none => timer
  | some (t1, c1) =>
    match t1.stop false c1 with
    | none => timer
    | some (t2, _) => t2

/-- Results that are available: 10000 ticks at 10 MHz, not disjoint. -/
def sample : D3D11TimestampData :=
  { disjointOk := true, Disjoint := false, Frequency := 10000000, startOk := true,
    startime := 1000, endOk := true, endtime := 11000 }

/-- Results that are available for an interval of 5 ticks at 10 MHz. -/
def shortSample : D3D11TimestampData :=
  { sample with startime := 1000, endtime := 1005 }

end Scenario

namespace Scenario

/-- A D3D11 device as constructed. -/
def device11 : D3D11Device := D3D11Device.create (0, 0, 0) (0, 0)

/-- A D3D12 device as constructed. -/
def device12 : D3D12Device := D3D12Device.create 0 (0, 0)

/-- A 2000x2000 texture request with the given usage flags. -/
def textureInfo (usageFlags : Nat) : XrSwapchainCreateInfo :=
  { colorSwapchain 2000 2000 with usageFlags := usageFlags }

/-- A D3D11 texture that can be rendered to but not sampled. -/
def renderOnly11 : D3D11Texture :=
  D3D11CreateTexture (textureInfo XR_SWAPCHAIN_USAGE_COLOR_ATTACHMENT_BIT) 7

/-- A D3D12 texture that can be rendered to but not sampled. -/
def renderOnly12 : D3D12Texture :=
  D3D12CreateTexture (textureInfo XR_SWAPCHAIN_USAGE_COLOR_ATTACHMENT_BIT) 7

/-- A D3D11 texture for compute output and sampling over the native texture `texture`. -/
def storage11 (texture : Nat) : D3D11Texture :=
  D3D11CreateTexture
    (textureInfo (XR_SWAPCHAIN_USAGE_UNORDERED_ACCESS_BIT ||| XR_SWAPCHAIN_USAGE_SAMPLED_BIT))
    texture

/-- A D3D11 compute shader with 8x8x1 thread groups. -/
def computeShader11 : D3D11ComputeShader := { m_computeShader := 20, m_threadGroups := (8, 8, 1) }

/-- The D3D11 device after `setShader(computeShader11)` and `setShaderOutput` on slots 0
and 1. -/
def outputsBound11 : D3D11Device :=
  (((device11.setShaderCompute computeShader11).setShaderOutput 0 (storage11 30) (-1)).2.1.setShaderOutput
    1 (storage11 31) (-1)).2.1

end Scenario

namespace graphics

/-- The draw `D3D11Device::dispatchShader` issues for the current shader: three vertices
for a quad shader, the thread groups for a compute shader (without a current shader
nothing is drawn; the value is then not used). -/
def D3D11Device.drawCall (d : D3D11Device) : D3D11Command :=
  match d.m_currentQuadShader, d.m_currentComputeShader with
  | some _, _ => .Draw 3 0
  | none, some shader =>
    .Dispatch shader.m_threadGroups.1 shader.m_threadGroups.2.1 shader.m_threadGroups.2.2
  | none, none => .Draw 0 0

end graphics

namespace Scenario

/-- The layer after a successful `xrCreateSession` whose `next` chain holds no D3D11 or
D3D12 binding (FSR at 150% configured, session handle 5). -/
def sessionWithoutDevice : OpenXrLayer :=
  match (afterGetSystem fsr150).xrCreateSession 1 [.otherStructure] XR_SUCCESS 5 with
  | .ok (s, _) => s
  | .error _ => afterGetSystem fsr150

/-- A frame with a layer of another type and a projection layer whose two views show
swapchain 42 at 1334x1334 (array index 0 in both views). -/
def frame : XrFrameEndInfo :=
  { displayTime := 1000, environmentBlendMode := 1,
    layers := [.other 3 9, .projection 0 0 2 [view 42, view 42]] }

/-- What `xrEndFrame` answers for `frame` in `session150` after the two-slice 1334x1334
swapchain was created (an empty frame stands for an exception). -/
def endFrame150 : EndFrameOutcome :=
  match createdArray150.layer.xrEndFrame 5 frame (fun _ => XR_SUCCESS) with
  | .ok out => out
  | .error _ =>
    { layer := createdArray150.layer, forwarded := { frame with layers := [] }, result := -1,
      calls := [], textureForOverlay := [] }

end Scenario

namespace Scenario

/-- A D3D12 texture for compute output and sampling over the native texture `texture`. -/
def storage12 (texture : Nat) : D3D12Texture :=
  D3D12CreateTexture
    (textureInfo (XR_SWAPCHAIN_USAGE_UNORDERED_ACCESS_BIT ||| XR_SWAPCHAIN_USAGE_SAMPLED_BIT))
    texture

/-- Native calls that all succeed. -/
def nativeOk : D3D12ResolveResults :=
  { D3D12SerializeRootSignature := true, CreateRootSignature := true,
    CheckFeatureSupport := true, NumQualityLevels := 1, CreatePipelineState := true }

/-- The D3D12 device after `createComputeShader`, `setShader` with the new shader (object
0), `setShaderInput(0, ..)` and `setShaderOutput(0, ..)`. -/
def computeBound12 : D3D12Device :=
  (((device12.createComputeShader (8, 8, 1)).2.setShader true 0).2.setShaderInput 0
    (storage12 30) (-1)).2.1.setShaderOutput 0 (storage12 31) (-1) |>.2.1

/-- The device after the first `dispatchShader(true)`. -/
def dispatched12 : D3D12Device := (computeBound12.dispatchShader true nativeOk).2

end Scenario

/-! ## xrDestroySession, xrWaitFrame (layer.cpp) -/

/-- A value of `XrTime` (`int64_t`) arithmetic, wrapped into the 64-bit range (signed
overflow is undefined in C++; the properties below stay within the range). -/
def toInt64 (x : Int) : Int := (x + 2 ^ 63) % 2 ^ 64 - 2 ^ 63

namespace OpenXrLayer

/-- `OpenXrLayer::xrDestroySession`; `result` is what `OpenXrApi::xrDestroySession`
returned.  `flushContext` is called under `if (m_graphicsDevice)`, `shutdown()` is called
through the pointer without a test.  The performance counters are left out. -/
def xrDestroySession (s : OpenXrLayer) (session : Nat) (result : Int) :
    Except LayerError (OpenXrLayer × Int) :=
  if XR_SUCCEEDED result && s.isVrSession session then
    let s1 := { s with m_upscaler := none, m_preProcessor := none, m_postProcessor := none,
                       m_swapchains := [], m_menuHandler := false }
    match s1.m_graphicsDevice with
    | none => throw .nullPointer
    | some _ => pure ({ s1 with m_graphicsDevice := none, m_vrSession := XR_NULL_HANDLE }, result)
  else pure (s, result)

/-- What `xrWaitFrame` answers: the layer, the result and `frameState->predictedDisplayTime`
as the application reads it. -/
structure WaitFrameOutcome where
  layer : OpenXrLayer
  result : Int
  predictedDisplayTime : Int
deriving DecidableEq, Repr

/-- `OpenXrLayer::xrWaitFrame`.  `result` and `predictedDisplayTime` are what the runtime
returned; `convertResult` and `xrTimeNow` are what
`xrConvertWin32PerformanceCounterToTimeKHR` answers for the current counter value, should
it be called.  `CHECK_XRCMD` throws for a failed result.  The statistics are left out. -/
def xrWaitFrame (s : OpenXrLayer) (session : Nat) (result : Int) (predictedDisplayTime : Int)
    (convertResult : Int) (xrTimeNow : Int) : Except LayerError WaitFrameOutcome :=
  if XR_SUCCEEDED result && s.isVrSession session then do
    let predictionDampen := s.m_configManager.SettingPredictionDampen
    let dampened ←
      if s.xrConvertWin32PerformanceCounterToTimeKHR && predictionDampen != 100 then
        if !XR_SUCCEEDED convertResult then
          throw (.hresult
            "xrConvertWin32PerformanceCounterToTimeKHR(GetXrInstance(), &qpcTimeNow, &xrTimeNow)")
        else
          let predictionAmount := toInt64 (predictedDisplayTime - xrTimeNow)
          if predictionAmount > 0 then
            pure (toInt64 (xrTimeNow +
              Int.tdiv (toInt64 (predictionDampen * predictionAmount)) 100))
          else pure predictedDisplayTime
      else pure predictedDisplayTime
    pure { layer := { s with m_waitedFrameTime := dampened }, result := result,
           predictedDisplayTime := dampened }
  else
    pure { layer := s, result := result, predictedDisplayTime := predictedDisplayTime }

end OpenXrLayer

/-! ## Reference descriptions used to state the heap and binding properties -/

namespace graphics

/-- The heap after `count` calls of `allocate`. -/
def D3D12Heap.allocateTimes (h : D3D12Heap) : Nat → D3D12Heap
  | 0 => h
  | count + 1 => (h.allocateTimes count).allocate.2

namespace D3D12Device

end D3D12Device

end graphics

namespace Scenario

/-- The heaps after `getShaderInputView()` on `count` new textures. -/
def afterViews : Nat → D3D12Descriptors
  | 0 => d3d12
  | count + 1 => ((storage12 count).getView .shaderInput (afterViews count)).2.2

/-- The layer of `session150` with time conversion available and the prediction
dampening set to `dampen`. -/
def sessionDampen (dampen : Int) : OpenXrLayer :=
  { session150 with
    m_configManager := { session150.m_configManager with SettingPredictionDampen := dampen },
    xrConvertWin32PerformanceCounterToTimeKHR := true }

end Scenario

/-! # Properties -/

namespace OpenXrLayer

/-! ## Chain construction -/

theorem createStageTimers_texturesCreated (dev : IDevice) (n : Nat)
    (timers : List (Option IGpuTimer)) :
    (createStageTimers dev n timers).2.texturesCreated = dev.texturesCreated := by
  simp only [createStageTimers, IDevice.createTimer]
  split <;> rfl

theorem buildImageChain_chain (s : OpenXrLayer) (ci cinfo : XrSwapchainCreateInfo) (i : Nat)
    (im : SwapchainImages) (dev : IDevice) (r : ITexture) (h : im.chain = [r]) :
    (buildImageChain s ci cinfo i im dev).1.chain = expectedChain s ci cinfo i dev r := by
  cases hp : s.m_preProcessor.isSome <;> cases hu : s.m_upscaler.isSome <;>
    cases hq : s.m_postProcessor.isSome <;>
    simp [buildImageChain, addPreProcessorTexture, addUpscalerTexture, addPostProcessorTexture,
      createStageTimers_texturesCreated, IDevice.createTexture, expectedChain, hp, hu, hq, h,
      insertBeforeLast]

theorem buildChains_length (s : OpenXrLayer) (ci cinfo : XrSwapchainCreateInfo) :
    ∀ (l : List SwapchainImages) (i : Nat) (dev : IDevice),
      (buildChains s ci cinfo i l dev).1.length = l.length
  | [], _, _ => rfl
  | im :: rest, i, dev => by
    simp [buildChains, buildChains_length s ci cinfo rest]

theorem buildChains_getElem? (s : OpenXrLayer) (ci cinfo : XrSwapchainCreateInfo) :
    ∀ (l : List SwapchainImages) (i : Nat) (dev : IDevice) (j : Nat) (im : SwapchainImages),
      (buildChains s ci cinfo i l dev).1[j]? = some im →
        ∃ im0 d, l[j]? = some im0 ∧ im = (buildImageChain s ci cinfo (i + j) im0 d).1
  | [], _, _, _, _ => by simp [buildChains]
  | im0 :: rest, i, dev, 0, im => by
    intro h
    simp only [buildChains, List.getElem?_cons_zero, Option.some.injEq] at h
    exact ⟨im0, dev, by simp, by simpa using h.symm⟩
  | im0 :: rest, i, dev, j + 1, im => by
    intro h
    simp only [buildChains, List.getElem?_cons_succ] at h
    obtain ⟨im1, d, h1, h2⟩ := buildChains_getElem? s ci cinfo rest (i + 1) _ j im h
    exact ⟨im1, d, by simpa using h1, by rw [h2]; congr 2; omega⟩

theorem wrapRuntimeImages_getElem? (cinfo : XrSwapchainCreateInfo) (natives : List Nat)
    (j : Nat) :
    (wrapRuntimeImages cinfo natives)[j]? =
      (natives[j]?).map fun texture =>
        { SwapchainImages.empty with chain := [WrapTexture cinfo texture (runtimeName j)] } := by
  simp [wrapRuntimeImages, runtimeName, List.getElem?_enum]
  cases natives[j]? <;> simp

theorem findSwapchain_insert (s : OpenXrLayer) (d : Option IDevice) (key : Nat)
    (st : SwapchainState) :
    ({ s with m_graphicsDevice := d,
              m_swapchains := insert_or_assign s.m_swapchains key st } :
        OpenXrLayer).findSwapchain key = some st := by
  simp [findSwapchain, insert_or_assign, List.find?]

/-- A successful `xrCreateSwapchain` of a colour swapchain on the VR session registers the
returned handle with one entry per runtime image, and the chain of image `j` is the
expected chain around the wrapped runtime image `j`. -/
theorem xrCreateSwapchain_registered (s : OpenXrLayer) (dev : IDevice) (session : Nat)
    (ci : XrSwapchainCreateInfo) (runtime : XrSwapchainCreateInfo → RuntimeSwapchain)
    (hdev : s.m_graphicsDevice = some dev) (hvr : s.isVrSession session = true)
    (hcolor : hasFlag ci.usageFlags XR_SWAPCHAIN_USAGE_COLOR_ATTACHMENT_BIT = true)
    (hok : XR_SUCCEEDED (runtime (s.chainCreateInfo ci)).result = true) :
    ∃ st : SwapchainState,
      (s.xrCreateSwapchain session ci runtime).layer.findSwapchain
          (runtime (s.chainCreateInfo ci)).swapchain = some st ∧
      st.acquiredImageIndex = 0 ∧
      st.images.length = (runtime (s.chainCreateInfo ci)).images.length ∧
      ∀ j im, st.images[j]? = some im →
        ∃ d texture, (runtime (s.chainCreateInfo ci)).images[j]? = some texture ∧
          im.chain = expectedChain s ci (s.chainCreateInfo ci) j d
            (WrapTexture (s.chainCreateInfo ci) texture (runtimeName j)) := by
  simp only [xrCreateSwapchain, hdev, hvr, hcolor, hok, Bool.not_true, Bool.false_eq_true,
    if_false, Bool.and_self, if_true]
  refine ⟨_, findSwapchain_insert _ _ _ _, rfl, ?_, ?_⟩
  · simp [buildChains_length, wrapRuntimeImages]
  · intro j im h
    obtain ⟨im0, d, h0, h1⟩ := buildChains_getElem? _ _ _ _ _ _ _ _ h
    rw [wrapRuntimeImages_getElem?] at h0
    cases hn : (runtime (s.chainCreateInfo ci)).images[j]? with
    | none => simp [hn] at h0
    | some texture =>
      simp only [hn, Option.map_some', Option.some.injEq] at h0
      refine ⟨d, texture, rfl, ?_⟩
      rw [h1, Nat.zero_add]
      exact buildImageChain_chain _ _ _ _ _ _ _ (by rw [← h0])

theorem expectedChain_length (s : OpenXrLayer) (ci cinfo : XrSwapchainCreateInfo) (i : Nat)
    (dev : IDevice) (r : ITexture) :
    (expectedChain s ci cinfo i dev r).length = 1 + s.enabledStageCount := by
  cases hp : s.m_preProcessor.isSome <;> cases hu : s.m_upscaler.isSome <;>
    cases hq : s.m_postProcessor.isSome <;>
    simp [expectedChain, enabledStageCount, hp, hu, hq]

end OpenXrLayer

namespace OpenXrLayer

/-! ## The per-eye walk -/

theorem walkChain_nextImage (s : OpenXrLayer) (im : SwapchainImages) (useVPRT : Bool)
    (eye : Nat) : (s.walkChain im useVPRT eye).nextImage = s.enabledStageCount := by
  cases hp : s.m_preProcessor.isSome <;> cases hu : s.m_upscaler.isSome <;>
    cases hq : s.m_postProcessor.isSome <;>
    cases hc : (s.m_configManager.SettingScalingType != config.ScalingType.None) <;>
    simp [walkChain, enabledStageCount, hp, hu, hq, hc]

theorem enabledStageCount_le (s : OpenXrLayer) : s.enabledStageCount ≤ 3 := by
  unfold enabledStageCount
  split <;> split <;> split <;> omega

theorem enabledStageCount_congr (s frame : OpenXrLayer)
    (hpre : frame.m_preProcessor.isSome = s.m_preProcessor.isSome)
    (hup : frame.m_upscaler.isSome = s.m_upscaler.isSome)
    (hpost : frame.m_postProcessor.isSome = s.m_postProcessor.isSome) :
    frame.enabledStageCount = s.enabledStageCount := by
  simp [enabledStageCount, hpre, hup, hpost]

theorem chainSizeMinusOne_eq (chain : List ITexture) (n : Nat) (h : chain.length = 1 + n)
    (hn : n < 2 ^ 64) : chainSizeMinusOne chain = n := by
  unfold chainSizeMinusOne
  rw [h]
  omega

/-- In a walk over a chain with one more texture than there are enabled stages, every
stage reads and writes inside the chain. -/
theorem walkChain_inRange (s : OpenXrLayer) (im : SwapchainImages) (useVPRT : Bool)
    (eye : Nat) (h : im.chain.length = 1 + s.enabledStageCount) :
    ∀ c ∈ (s.walkChain im useVPRT eye).calls,
      c.input.isSome = true ∧ c.output.isSome = true := by
  intro c hc
  have key : ∀ k, k ≤ s.enabledStageCount → (im.chain[k]?).isSome = true := by
    intro k hk
    have hlt : k < im.chain.length := by omega
    simp [List.getElem?_eq_getElem hlt]
  cases hp : s.m_preProcessor.isSome <;> cases hu : s.m_upscaler.isSome <;>
    cases hq : s.m_postProcessor.isSome <;>
    cases hcfg : (s.m_configManager.SettingScalingType != config.ScalingType.None) <;>
    simp [walkChain, hp, hu, hq, hcfg] at hc <;>
    simp only [enabledStageCount, hp, hu, hq] at key <;>
    (first
      | (subst hc; exact ⟨key _ (by simp), key _ (by simp)⟩)
      | (rcases hc with hc | hc <;> subst hc <;> exact ⟨key _ (by simp), key _ (by simp)⟩)
      | (rcases hc with hc | hc | hc <;> subst hc <;>
          exact ⟨key _ (by simp), key _ (by simp)⟩))

end OpenXrLayer

open OpenXrLayer

/-! ## C3: chain length -/

/-- C3, as stated, fails: in the session with FSR at 150% (upscaler and post-processor
enabled) a 1334x1334 swapchain on the 2000x2000 display gets chains of 3 textures, while
`1 + enabledStageCount + 1` (resolution differs) is 4. -/
theorem C3_counterexample :
    (Scenario.registered Scenario.created150.layer).images.map (fun im => im.chain.length)
      = [3, 3] ∧
    1 + Scenario.session150.enabledStageCount +
      (if (Scenario.colorSwapchain 1334 1334).width ≠ Scenario.session150.m_displayWidth ∨
          (Scenario.colorSwapchain 1334 1334).height ≠ Scenario.session150.m_displayHeight
        then 1 else 0) = 4 := by
  decide

/-- C3, amended: every chain built by a successful `xrCreateSwapchain` of a colour
swapchain on the VR session has length `1 + enabledStageCount`, whether or not the
application resolution differs from the display resolution; there is one chain per
runtime image. -/
theorem C3_chain_length (s : OpenXrLayer) (dev : IDevice) (session : Nat)
    (ci : XrSwapchainCreateInfo) (runtime : XrSwapchainCreateInfo → RuntimeSwapchain)
    (hdev : s.m_graphicsDevice = some dev) (hvr : s.isVrSession session = true)
    (hcolor : hasFlag ci.usageFlags XR_SWAPCHAIN_USAGE_COLOR_ATTACHMENT_BIT = true)
    (hok : XR_SUCCEEDED (runtime (s.chainCreateInfo ci)).result = true) :
    ∃ st : SwapchainState,
      (s.xrCreateSwapchain session ci runtime).layer.findSwapchain
          (runtime (s.chainCreateInfo ci)).swapchain = some st ∧
      st.images.length = (runtime (s.chainCreateInfo ci)).images.length ∧
      ∀ im ∈ st.images, im.chain.length = 1 + s.enabledStageCount := by
  obtain ⟨st, hst, _, hlen, hch⟩ :=
    xrCreateSwapchain_registered s dev session ci runtime hdev hvr hcolor hok
  refine ⟨st, hst, hlen, ?_⟩
  intro im him
  obtain ⟨j, hj⟩ := List.getElem?_of_mem him
  obtain ⟨d, texture, _, hc⟩ := hch j im hj
  rw [hc, expectedChain_length]

/-- C3 at the FSR 150% session: the hypotheses hold there and both chains have length 3. -/
theorem C3_chain_length_witness :
    Scenario.session150.m_graphicsDevice = some (WrapDevice .D3D11) ∧
    Scenario.session150.isVrSession 5 = true ∧
    hasFlag (Scenario.colorSwapchain 1334 1334).usageFlags
      XR_SWAPCHAIN_USAGE_COLOR_ATTACHMENT_BIT = true ∧
    XR_SUCCEEDED (Scenario.runtime
      (Scenario.session150.chainCreateInfo (Scenario.colorSwapchain 1334 1334))).result = true ∧
    ∃ st : SwapchainState,
      (Scenario.session150.xrCreateSwapchain 5 (Scenario.colorSwapchain 1334 1334)
          Scenario.runtime).layer.findSwapchain
          (Scenario.runtime (Scenario.session150.chainCreateInfo
            (Scenario.colorSwapchain 1334 1334))).swapchain = some st ∧
      st.images.length = (Scenario.runtime (Scenario.session150.chainCreateInfo
            (Scenario.colorSwapchain 1334 1334))).images.length ∧
      ∀ im ∈ st.images, im.chain.length = 1 + Scenario.session150.enabledStageCount :=
  ⟨by decide, by decide, by decide, by decide,
   C3_chain_length Scenario.session150 (WrapDevice .D3D11) 5 (Scenario.colorSwapchain 1334 1334)
     Scenario.runtime (by decide) (by decide) (by decide) (by decide)⟩

namespace OpenXrLayer

/-! ## The completeness check -/

/-- No stage invocation faults exactly when each has its timer and both textures. -/
theorem firstFault_eq_none (calls : List StageCall) :
    firstFault calls = none ↔
      ∀ c ∈ calls, c.timer.isSome = true ∧ c.input.isSome = true ∧ c.output.isSome = true := by
  induction calls with
  | nil => simp [firstFault]
  | cons c rest ih =>
    cases ht : c.timer <;> cases hi : c.input <;> cases ho : c.output <;>
      simp [firstFault, StageCall.fault, ht, hi, ho, ih]

/-- A fault is an empty timer pointer or an index past the end of the chain. -/
theorem firstFault_cases (calls : List StageCall) :
    firstFault calls = none ∨ firstFault calls = some .nullPointer ∨
      firstFault calls = some .outOfRange := by
  induction calls with
  | nil => exact Or.inl rfl
  | cons c rest ih =>
    cases ht : c.timer <;> cases hi : c.input <;> cases ho : c.output <;>
      simp [firstFault, StageCall.fault, ht, hi, ho, ih]

/-- With every texture in range the only fault left is an empty timer pointer. -/
theorem firstFault_inRange (calls : List StageCall)
    (h : ∀ c ∈ calls, c.input.isSome = true ∧ c.output.isSome = true) :
    firstFault calls = none ∨ firstFault calls = some .nullPointer := by
  induction calls with
  | nil => exact Or.inl rfl
  | cons c rest ih =>
    have hc := h c (List.mem_cons_self _ _)
    have hrest := ih (fun x hx => h x (List.mem_cons_of_mem _ hx))
    cases ht : c.timer <;> cases hi : c.input <;> cases ho : c.output <;>
      simp [firstFault, StageCall.fault, ht, hi, ho, hrest] <;> simp [hi, ho] at hc

theorem processEye_fault (s : OpenXrLayer) (view : XrCompositionLayerProjectionView)
    (useVPRT : Bool) (eye : Nat) (st : SwapchainState) (im : SwapchainImages)
    (hfind : s.findSwapchain view.subImage.swapchain = some st)
    (hacq : st.images[st.acquiredImageIndex]? = some im) (e : LayerError)
    (hfault : firstFault (s.walkChain im useVPRT eye).calls = some e) :
    s.processEye view useVPRT eye = .error e := by
  simp [processEye, hfind, hacq, hfault]
  rfl

theorem processEye_complete (frame : OpenXrLayer) (view : XrCompositionLayerProjectionView)
    (useVPRT : Bool) (eye : Nat) (st : SwapchainState) (im : SwapchainImages)
    (hfind : frame.findSwapchain view.subImage.swapchain = some st)
    (hacq : st.images[st.acquiredImageIndex]? = some im)
    (hlen : im.chain.length = 1 + frame.enabledStageCount)
    (hfault : firstFault (frame.walkChain im useVPRT eye).calls = none) :
    ∃ back, im.chain.getLast? = some back ∧
      frame.processEye view useVPRT eye =
        .ok (frame.patchView view, back, (frame.walkChain im useVPRT eye).calls) := by
  have hne : im.chain ≠ [] := by
    intro h
    rw [h] at hlen
    simp at hlen
    omega
  refine ⟨im.chain.getLast hne, List.getLast?_eq_getLast _ hne, ?_⟩
  have hchk : (frame.walkChain im useVPRT eye).nextImage = chainSizeMinusOne im.chain := by
    rw [walkChain_nextImage, chainSizeMinusOne_eq _ _ hlen]
    have := enabledStageCount_le frame
    omega
  simp [processEye, hfind, hacq, hfault, hchk, List.getLast?_eq_getLast _ hne]
  rfl

/-- The completeness check is reached only when no stage invocation faulted, and then
raises exactly when the number of stages set differs from `chain.size() - 1`. -/
theorem processEye_incomplete_iff (s : OpenXrLayer) (view : XrCompositionLayerProjectionView)
    (useVPRT : Bool) (eye : Nat) (st : SwapchainState) (im : SwapchainImages)
    (hfind : s.findSwapchain view.subImage.swapchain = some st)
    (hacq : st.images[st.acquiredImageIndex]? = some im)
    (hsize : im.chain.length < 2 ^ 64) :
    s.processEye view useVPRT eye = .error chainIncomplete ↔
      (firstFault (s.walkChain im useVPRT eye).calls = none ∧
        (s.enabledStageCount : Int) ≠ (im.chain.length : Int) - 1) := by
  have hle := enabledStageCount_le s
  have hn := walkChain_nextImage s im useVPRT eye
  rcases firstFault_cases (s.walkChain im useVPRT eye).calls with hf | hf | hf
  · by_cases hc : (s.enabledStageCount : Int) = (im.chain.length : Int) - 1
    · have hlen : im.chain.length = 1 + s.enabledStageCount := by omega
      obtain ⟨back, _, hok⟩ := processEye_complete s view useVPRT eye st im hfind hacq hlen hf
      simp [hok, hc]
    · have hchk : (s.walkChain im useVPRT eye).nextImage ≠ chainSizeMinusOne im.chain := by
        rw [hn]
        unfold chainSizeMinusOne
        intro h
        apply hc
        omega
      simp [processEye, hfind, hacq, hf, hchk, hc]
      rfl
  · rw [processEye_fault s view useVPRT eye st im hfind hacq _ hf, hf]
    simp [chainIncomplete]
  · rw [processEye_fault s view useVPRT eye st im hfind hacq _ hf, hf]
    simp [chainIncomplete]

end OpenXrLayer

/-! ## The timers registered for a chain -/

namespace OpenXrLayer

theorem createStageTimers_timerAt (dev : IDevice) (n : Nat) :
    (timerAt (createStageTimers dev n (List.replicate ViewCount none)).1 0).isSome = true ∧
    (timerAt (createStageTimers dev n (List.replicate ViewCount none)).1 1).isSome =
      decide (n > 1) := by
  by_cases h : n > 1 <;> simp [createStageTimers, IDevice.createTimer, timerAt, ViewCount, h]

/-- The timers `buildImageChain` leaves for a stage that is set: slot 0 holds a timer,
slot 1 holds one exactly when `arraySize > 1`. -/
theorem buildImageChain_timers (s : OpenXrLayer) (ci cinfo : XrSwapchainCreateInfo) (i : Nat)
    (r : ITexture) (dev : IDevice) :
    (s.m_preProcessor.isSome = true →
      (timerAt (buildImageChain s ci cinfo i { SwapchainImages.empty with chain := [r] }
        dev).1.preProcessorGpuTimer 0).isSome = true ∧
      (timerAt (buildImageChain s ci cinfo i { SwapchainImages.empty with chain := [r] }
        dev).1.preProcessorGpuTimer 1).isSome = decide (ci.arraySize > 1)) ∧
    (s.m_upscaler.isSome = true →
      (timerAt (buildImageChain s ci cinfo i { SwapchainImages.empty with chain := [r] }
        dev).1.upscalerGpuTimer 0).isSome = true ∧
      (timerAt (buildImageChain s ci cinfo i { SwapchainImages.empty with chain := [r] }
        dev).1.upscalerGpuTimer 1).isSome = decide (ci.arraySize > 1)) ∧
    (s.m_postProcessor.isSome = true →
      (timerAt (buildImageChain s ci cinfo i { SwapchainImages.empty with chain := [r] }
        dev).1.postProcessorGpuTimer 0).isSome = true ∧
      (timerAt (buildImageChain s ci cinfo i { SwapchainImages.empty with chain := [r] }
        dev).1.postProcessorGpuTimer 1).isSome = decide (ci.arraySize > 1)) := by
  cases hp : s.m_preProcessor.isSome <;> cases hu : s.m_upscaler.isSome <;>
    cases hq : s.m_postProcessor.isSome <;>
    simp [buildImageChain, addPreProcessorTexture, addUpscalerTexture, addPostProcessorTexture,
      SwapchainImages.empty, createStageTimers_timerAt, hp, hu, hq]

/-- The timers registered by a successful `xrCreateSwapchain`. -/
theorem xrCreateSwapchain_timers (s : OpenXrLayer) (dev : IDevice) (session : Nat)
    (ci : XrSwapchainCreateInfo) (runtime : XrSwapchainCreateInfo → RuntimeSwapchain)
    (hdev : s.m_graphicsDevice = some dev) (hvr : s.isVrSession session = true)
    (hcolor : hasFlag ci.usageFlags XR_SWAPCHAIN_USAGE_COLOR_ATTACHMENT_BIT = true)
    (hok : XR_SUCCEEDED (runtime (s.chainCreateInfo ci)).result = true)
    (st : SwapchainState)
    (hst : (s.xrCreateSwapchain session ci runtime).layer.findSwapchain
          (runtime (s.chainCreateInfo ci)).swapchain = some st)
    (im : SwapchainImages) (him : im ∈ st.images) :
    (s.m_preProcessor.isSome = true →
      (timerAt im.preProcessorGpuTimer 0).isSome = true ∧
      (timerAt im.preProcessorGpuTimer 1).isSome = decide (ci.arraySize > 1)) ∧
    (s.m_upscaler.isSome = true →
      (timerAt im.upscalerGpuTimer 0).isSome = true ∧
      (timerAt im.upscalerGpuTimer 1).isSome = decide (ci.arraySize > 1)) ∧
    (s.m_postProcessor.isSome = true →
      (timerAt im.postProcessorGpuTimer 0).isSome = true ∧
      (timerAt im.postProcessorGpuTimer 1).isSome = decide (ci.arraySize > 1)) := by
  simp only [xrCreateSwapchain, hdev, hvr, hcolor, hok, Bool.not_true, Bool.false_eq_true,
    if_false, Bool.and_self, if_true] at hst
  rw [findSwapchain_insert] at hst
  cases hst
  obtain ⟨j, hj⟩ := List.getElem?_of_mem him
  obtain ⟨im0, d, h0, h1⟩ := buildChains_getElem? _ _ _ _ _ _ _ _ hj
  rw [wrapRuntimeImages_getElem?] at h0
  cases hn : (runtime (s.chainCreateInfo ci)).images[j]? with
  | none => simp [hn] at h0
  | some texture =>
    simp only [hn, Option.map_some', Option.some.injEq] at h0
    subst h0
    rw [h1]
    exact buildImageChain_timers s ci _ _ _ d

/-- Every stage call of the walk over a registered chain has a timer when the eye uses
slot 0 (separate swapchains, or eye 0) or the swapchain has more than one slice. -/
theorem walkChain_timer_created (s : OpenXrLayer) (dev : IDevice) (session : Nat)
    (ci : XrSwapchainCreateInfo) (runtime : XrSwapchainCreateInfo → RuntimeSwapchain)
    (hdev : s.m_graphicsDevice = some dev) (hvr : s.isVrSession session = true)
    (hcolor : hasFlag ci.usageFlags XR_SWAPCHAIN_USAGE_COLOR_ATTACHMENT_BIT = true)
    (hok : XR_SUCCEEDED (runtime (s.chainCreateInfo ci)).result = true)
    (st : SwapchainState)
    (hst : (s.xrCreateSwapchain session ci runtime).layer.findSwapchain
          (runtime (s.chainCreateInfo ci)).swapchain = some st)
    (im : SwapchainImages) (him : im ∈ st.images)
    (frame : OpenXrLayer)
    (hpre : frame.m_preProcessor.isSome = s.m_preProcessor.isSome)
    (hup : frame.m_upscaler.isSome = s.m_upscaler.isSome)
    (hpost : frame.m_postProcessor.isSome = s.m_postProcessor.isSome)
    (useVPRT : Bool) (eye : Nat) (heye : eye < ViewCount)
    (hslot : useVPRT = false ∨ eye = 0 ∨ ci.arraySize > 1) :
    ∀ c ∈ (frame.walkChain im useVPRT eye).calls, c.timer.isSome = true := by
  obtain ⟨h1, h2, h3⟩ :=
    xrCreateSwapchain_timers s dev session ci runtime hdev hvr hcolor hok st hst im him
  have hidx : ∀ timers : List (Option IGpuTimer), (timerAt timers 0).isSome = true →
      (timerAt timers 1).isSome = decide (ci.arraySize > 1) →
      (timerAt timers (if useVPRT = true then eye else 0)).isSome = true := by
    intro timers ht0 ht1
    cases useVPRT with
    | false => simpa using ht0
    | true =>
      have : eye = 0 ∨ eye = 1 := by unfold ViewCount at heye; omega
      rcases this with he | he
      · subst he; simpa using ht0
      · subst he
        rcases hslot with h | h | h
        · cases h
        · cases h
        · simpa [h] using ht1
  cases hp : s.m_preProcessor.isSome <;> cases hu : s.m_upscaler.isSome <;>
    cases hq : s.m_postProcessor.isSome <;>
    by_cases hb : frame.m_configManager.SettingScalingType = .None <;>
    simp only [hp, hu, hq, true_implies] at h1 h2 h3 <;>
    simp [walkChain, hpre, hup, hpost, hp, hu, hq, hb] <;>
    first
      | exact hidx _ h1.1 h1.2
      | exact hidx _ h2.1 h2.2
      | exact hidx _ h3.1 h3.2
      | exact ⟨hidx _ h1.1 h1.2, hidx _ h2.1 h2.2⟩
      | exact ⟨hidx _ h1.1 h1.2, hidx _ h3.1 h3.2⟩
      | exact ⟨hidx _ h2.1 h2.2, hidx _ h3.1 h3.2⟩
      | exact ⟨hidx _ h1.1 h1.2, hidx _ h2.1 h2.2, hidx _ h3.1 h3.2⟩

end OpenXrLayer

/-! ## C1: the walk over a chain built by xrCreateSwapchain is complete -/

/-- C1: for a chain built by a successful `xrCreateSwapchain` (any of the 8 stage
combinations) and a frame-time layer with the same stages set (any configuration, so
also with the upscaler bypassed by scaling type None), the per-eye walk ends with
`nextImage == chain.size() - 1`, every stage reads and writes inside the chain, and the
iteration for the eye never raises "Processing chain incomplete!".  It returns whenever
the timer slot selected for the eye was created (separate swapchains, eye 0, or more than
one array slice); the only other outcome is the call through the empty timer pointer of
slot 1. -/
theorem C1_walk_complete (s : OpenXrLayer) (dev : IDevice) (session : Nat)
    (ci : XrSwapchainCreateInfo) (runtime : XrSwapchainCreateInfo → RuntimeSwapchain)
    (hdev : s.m_graphicsDevice = some dev) (hvr : s.isVrSession session = true)
    (hcolor : hasFlag ci.usageFlags XR_SWAPCHAIN_USAGE_COLOR_ATTACHMENT_BIT = true)
    (hok : XR_SUCCEEDED (runtime (s.chainCreateInfo ci)).result = true)
    (st : SwapchainState)
    (hst : (s.xrCreateSwapchain session ci runtime).layer.findSwapchain
          (runtime (s.chainCreateInfo ci)).swapchain = some st)
    (im : SwapchainImages) (him : im ∈ st.images)
    (frame : OpenXrLayer)
    (hpre : frame.m_preProcessor.isSome = s.m_preProcessor.isSome)
    (hup : frame.m_upscaler.isSome = s.m_upscaler.isSome)
    (hpost : frame.m_postProcessor.isSome = s.m_postProcessor.isSome)
    (useVPRT : Bool) (eye : Nat) :
    (frame.walkChain im useVPRT eye).nextImage + 1 = im.chain.length ∧
    (frame.walkChain im useVPRT eye).nextImage = chainSizeMinusOne im.chain ∧
    (∀ c ∈ (frame.walkChain im useVPRT eye).calls,
      c.input.isSome = true ∧ c.output.isSome = true) ∧
    ∀ (view : XrCompositionLayerProjectionView) (st2 : SwapchainState),
      frame.findSwapchain view.subImage.swapchain = some st2 →
      st2.images[st2.acquiredImageIndex]? = some im →
      frame.processEye view useVPRT eye ≠ .error chainIncomplete ∧
      (eye < ViewCount → (useVPRT = false ∨ eye = 0 ∨ ci.arraySize > 1) →
        ∃ back, im.chain.getLast? = some back ∧
          frame.processEye view useVPRT eye =
            .ok (frame.patchView view, back, (frame.walkChain im useVPRT eye).calls)) ∧
      ((∃ back, im.chain.getLast? = some back ∧
          frame.processEye view useVPRT eye =
            .ok (frame.patchView view, back, (frame.walkChain im useVPRT eye).calls)) ∨
        frame.processEye view useVPRT eye = .error .nullPointer) := by
  obtain ⟨st0, hst0, _, _, hch⟩ :=
    xrCreateSwapchain_registered s dev session ci runtime hdev hvr hcolor hok
  rw [hst] at hst0
  cases hst0
  obtain ⟨j, hj⟩ := List.getElem?_of_mem him
  obtain ⟨d, texture, _, hc⟩ := hch j im hj
  have hlen : im.chain.length = 1 + frame.enabledStageCount := by
    rw [hc, expectedChain_length, enabledStageCount_congr s frame hpre hup hpost]
  have hle := enabledStageCount_le frame
  have hin := walkChain_inRange frame im useVPRT eye hlen
  refine ⟨?_, ?_, hin, ?_⟩
  · rw [walkChain_nextImage, hlen]; omega
  · rw [walkChain_nextImage, chainSizeMinusOne_eq _ _ hlen (by omega)]
  · intro view st2 hfind hacq
    have hiff := processEye_incomplete_iff frame view useVPRT eye st2 im hfind hacq (by omega)
    refine ⟨?_, ?_, ?_⟩
    · intro herr
      have := (hiff.mp herr).2
      omega
    · intro heye hslot
      have htimers := walkChain_timer_created s dev session ci runtime hdev hvr hcolor hok st
        hst im him frame hpre hup hpost useVPRT eye heye hslot
      have hnone : firstFault (frame.walkChain im useVPRT eye).calls = none :=
        (firstFault_eq_none _).mpr fun c hcm => ⟨htimers c hcm, hin c hcm⟩
      exact processEye_complete frame view useVPRT eye st2 im hfind hacq hlen hnone
    · rcases firstFault_inRange _ hin with hf | hf
      · exact Or.inl (processEye_complete frame view useVPRT eye st2 im hfind hacq hlen hf)
      · exact Or.inr (processEye_fault frame view useVPRT eye st2 im hfind hacq _ hf)

/-- C1 at the FSR 150% session, with the scaling type switched to None at frame time
(upscaler bypassed): the hypotheses hold, the walk ends on the runtime texture and the
iteration for eye 0 returns. -/
theorem C1_walk_complete_witness :
    Scenario.session150.m_graphicsDevice = some (WrapDevice .D3D11) ∧
    Scenario.session150.isVrSession 5 = true ∧
    hasFlag (Scenario.colorSwapchain 1334 1334).usageFlags
      XR_SWAPCHAIN_USAGE_COLOR_ATTACHMENT_BIT = true ∧
    XR_SUCCEEDED (Scenario.runtime
      (Scenario.session150.chainCreateInfo (Scenario.colorSwapchain 1334 1334))).result = true ∧
    Scenario.created150.layer.findSwapchain 42 =
      some (Scenario.registered Scenario.created150.layer) ∧
    Scenario.image0 Scenario.created150.layer ∈
      (Scenario.registered Scenario.created150.layer).images ∧
    ({ Scenario.created150.layer with m_configManager := Scenario.noScaling }.walkChain
        (Scenario.image0 Scenario.created150.layer) false 0).nextImage + 1 =
      (Scenario.image0 Scenario.created150.layer).chain.length ∧
    ∃ back,
      (Scenario.image0 Scenario.created150.layer).chain.getLast? = some back ∧
      ({ Scenario.created150.layer with m_configManager := Scenario.noScaling } :
          OpenXrLayer).processEye (Scenario.view 42) false 0 =
        .ok (({ Scenario.created150.layer with m_configManager := Scenario.noScaling } :
                OpenXrLayer).patchView (Scenario.view 42), back,
             ({ Scenario.created150.layer with m_configManager := Scenario.noScaling }.walkChain
               (Scenario.image0 Scenario.created150.layer) false 0).calls) :=
  have h := C1_walk_complete Scenario.session150 (WrapDevice .D3D11) 5
    (Scenario.colorSwapchain 1334 1334) Scenario.runtime (by decide) (by decide)
    (by decide) (by decide) (Scenario.registered Scenario.created150.layer) (by decide)
    (Scenario.image0 Scenario.created150.layer) (by decide)
    { Scenario.created150.layer with m_configManager := Scenario.noScaling }
    (by decide) (by decide) (by decide) false 0
  ⟨by decide, by decide, by decide, by decide, by decide, by decide, h.1,
   (h.2.2.2 (Scenario.view 42) (Scenario.registered Scenario.created150.layer) (by decide)
      (by decide)).2.1 (by decide) (Or.inl rfl)⟩

/-! ## C2: when the completeness check fires -/

theorem hasFlag_two_pow (x k : Nat) : hasFlag x (2 ^ k) = x.testBit k := by
  unfold hasFlag
  cases h : x.testBit k
  · have : x &&& 2 ^ k = 0 := by
      apply Nat.eq_of_testBit_eq
      intro i
      simp only [Nat.testBit_and, Nat.testBit_two_pow, Nat.zero_testBit]
      by_cases hi : k = i
      · subst hi; simp [h]
      · simp [hi]
    simp [this]
  · have : x &&& 2 ^ k ≠ 0 := by
      intro h0
      have := congrArg (fun n => Nat.testBit n k) h0
      simp [h] at this
    simpa using this

theorem hasFlag_color (x : Nat) :
    hasFlag x XR_SWAPCHAIN_USAGE_COLOR_ATTACHMENT_BIT = x.testBit 0 := hasFlag_two_pow x 0

theorem hasFlag_unorderedAccess (x : Nat) :
    hasFlag x XR_SWAPCHAIN_USAGE_UNORDERED_ACCESS_BIT = x.testBit 2 := hasFlag_two_pow x 2

theorem hasFlag_sampled (x : Nat) :
    hasFlag x XR_SWAPCHAIN_USAGE_SAMPLED_BIT = x.testBit 5 := hasFlag_two_pow x 5

theorem testBit_color (i : Nat) :
    XR_SWAPCHAIN_USAGE_COLOR_ATTACHMENT_BIT.testBit i = decide (0 = i) :=
  Nat.testBit_two_pow (n := 0)

theorem testBit_unorderedAccess (i : Nat) :
    XR_SWAPCHAIN_USAGE_UNORDERED_ACCESS_BIT.testBit i = decide (2 = i) :=
  Nat.testBit_two_pow (n := 2)

theorem testBit_sampled (i : Nat) :
    XR_SWAPCHAIN_USAGE_SAMPLED_BIT.testBit i = decide (5 = i) :=
  Nat.testBit_two_pow (n := 5)

theorem testBit_flagsNot (bit i : Nat) :
    (flagsNot bit).testBit i = (decide (i < 64) != bit.testBit i) := by
  unfold flagsNot
  rw [Nat.testBit_xor]
  congr 1
  exact Nat.testBit_two_pow_sub_one 64 i

namespace OpenXrLayer

/-! ## First and last texture of a chain -/

theorem expectedChain_ends (s : OpenXrLayer) (ci : XrSwapchainCreateInfo) (j : Nat)
    (d : IDevice) (texture : Nat) (name : String)
    (hcolor : hasFlag ci.usageFlags XR_SWAPCHAIN_USAGE_COLOR_ATTACHMENT_BIT = true) :
    (expectedChain s ci (s.chainCreateInfo ci) j d
        (WrapTexture (s.chainCreateInfo ci) texture name)).getLast? =
      some (WrapTexture (s.chainCreateInfo ci) texture name) ∧
    ∃ first,
      (expectedChain s ci (s.chainCreateInfo ci) j d
        (WrapTexture (s.chainCreateInfo ci) texture name)).head? = some first ∧
      first.info.width = ci.width ∧ first.info.height = ci.height ∧
      hasFlag first.info.usageFlags XR_SWAPCHAIN_USAGE_COLOR_ATTACHMENT_BIT = true ∧
      (0 < s.enabledStageCount → ∃ n, first.native = .created n) ∧
      ∀ k t, 0 < k →
        (expectedChain s ci (s.chainCreateInfo ci) j d
          (WrapTexture (s.chainCreateInfo ci) texture name))[k]? = some t →
        t.native ≠ first.native := by
  have hc := hcolor
  simp only [hasFlag_color] at hc
  cases hp : s.m_preProcessor.isSome <;> cases hu : s.m_upscaler.isSome <;>
    cases hq : s.m_postProcessor.isSome <;>
    simp only [expectedChain, chainCreateInfo, enabledStageCount, hp, hu, hq, hcolor,
      preProcessorInputCreateInfo, upscalerInputCreateInfo, intermediateCreateInfo,
      WrapTexture, if_true, if_false, Bool.false_eq_true, List.nil_append, List.singleton_append,
      List.cons_append, List.head?_cons, Option.some.injEq, exists_eq_left'] <;>
    refine ⟨by simp, ?_, ?_, ?_, ?_, ?_⟩
  all_goals first
    | trivial
    | (simp only [hasFlag_color, Nat.testBit_or, Nat.testBit_and, testBit_color, testBit_sampled,
        testBit_unorderedAccess, testBit_flagsNot, hc]; done)
    | (simp only [hasFlag_color, Nat.testBit_or, Nat.testBit_and, testBit_color, testBit_sampled,
        testBit_unorderedAccess, testBit_flagsNot, hc]; decide)
    | (intro _; exact ⟨_, rfl⟩)
    | (intro h; simp at h)
    | (intro k t hk hkt
       rcases k with _ | _ | _ | _ | k <;> simp at hk hkt <;> (try subst hkt) <;>
         (first | (simp; done) | (simp; omega)))


theorem applicationImages_spec (images : List SwapchainImages)
    (hne : ∀ im ∈ images, im.chain ≠ []) :
    ∀ (count start : Nat), start + count ≤ images.length →
      ∃ out, applicationImages images start count = .ok out ∧ out.length = count ∧
        ∀ k im, images[start + k]? = some im → k < count →
          ∃ first, im.chain.head? = some first ∧ out[k]? = some first.native
  | 0, start, _ => ⟨[], rfl, rfl, by intro k im _ hk; omega⟩
  | count + 1, start, hle => by
    have hlt : start < images.length := by omega
    obtain ⟨out, hout, hlen, hall⟩ := applicationImages_spec images hne count (start + 1) (by omega)
    have him : images[start] ∈ images := List.getElem_mem hlt
    have hch := hne _ him
    obtain ⟨first, rest, hfr⟩ := List.exists_cons_of_ne_nil hch
    refine ⟨first.native :: out, ?_, by simp [hlen], ?_⟩
    · simp [applicationImages, List.getElem?_eq_getElem hlt, hfr, hout, bind, Except.bind, pure, Except.pure]
    · intro k im hk hkc
      cases k with
      | zero =>
        simp [List.getElem?_eq_getElem hlt] at hk
        subst hk
        exact ⟨first, by simp [hfr], by simp⟩
      | succ k =>
        have := hall k im (by rw [← hk]; congr 1; omega) (by omega)
        simpa using this


theorem xrCreateSwapchain_device (s : OpenXrLayer) (dev : IDevice) (session : Nat)
    (ci : XrSwapchainCreateInfo) (runtime : XrSwapchainCreateInfo → RuntimeSwapchain)
    (hdev : s.m_graphicsDevice = some dev) :
    ∃ d, (s.xrCreateSwapchain session ci runtime).layer.m_graphicsDevice = some d := by
  simp only [xrCreateSwapchain, hdev]
  split
  · exact ⟨dev, hdev⟩
  · split
    · exact ⟨_, rfl⟩
    · exact ⟨dev, hdev⟩

theorem expectedChain_ne_nil (s : OpenXrLayer) (ci cinfo : XrSwapchainCreateInfo) (i : Nat)
    (dev : IDevice) (r : ITexture) : expectedChain s ci cinfo i dev r ≠ [] := by
  simp [expectedChain]

end OpenXrLayer

/-! ## C4: runtime texture last, application texture first -/

/-- C4: after a successful `xrCreateSwapchain` of a colour swapchain (any of the 8 stage
combinations), for every runtime image `j`: the last element of chain `j` is the wrapped
runtime image `j`; the first element has the width and height the application asked for
and the COLOR_ATTACHMENT usage; `xrEnumerateSwapchainImages` hands the application the
native texture of that first element; it is a texture created by the layer as soon as a
stage is enabled, and no later element of the chain (intermediate or runtime texture)
has the same native texture. -/
theorem C4_chain_ends (s : OpenXrLayer) (dev : IDevice) (session : Nat)
    (ci : XrSwapchainCreateInfo) (runtime : XrSwapchainCreateInfo → RuntimeSwapchain)
    (hdev : s.m_graphicsDevice = some dev) (hvr : s.isVrSession session = true)
    (hcolor : hasFlag ci.usageFlags XR_SWAPCHAIN_USAGE_COLOR_ATTACHMENT_BIT = true)
    (hok : XR_SUCCEEDED (runtime (s.chainCreateInfo ci)).result = true)
    (result : Int) (hres : XR_SUCCEEDED result = true) :
    ∃ st out,
      (s.xrCreateSwapchain session ci runtime).layer.findSwapchain
          (runtime (s.chainCreateInfo ci)).swapchain = some st ∧
      (s.xrCreateSwapchain session ci runtime).layer.xrEnumerateSwapchainImages
          (runtime (s.chainCreateInfo ci)).swapchain result
          (some (runtime (s.chainCreateInfo ci)).images) = .ok (some out) ∧
      ∀ j texture, (runtime (s.chainCreateInfo ci)).images[j]? = some texture →
        ∃ im first, st.images[j]? = some im ∧
          im.chain.getLast? =
            some (WrapTexture (s.chainCreateInfo ci) texture (runtimeName j)) ∧
          im.chain.head? = some first ∧
          out[j]? = some first.native ∧
          first.info.width = ci.width ∧ first.info.height = ci.height ∧
          hasFlag first.info.usageFlags XR_SWAPCHAIN_USAGE_COLOR_ATTACHMENT_BIT = true ∧
          (0 < s.enabledStageCount → ∃ n, first.native = .created n) ∧
          ∀ k t, 0 < k → im.chain[k]? = some t → t.native ≠ first.native := by
  obtain ⟨st, hst, _, hlen, hch⟩ :=
    xrCreateSwapchain_registered s dev session ci runtime hdev hvr hcolor hok
  obtain ⟨d1, hd1⟩ := xrCreateSwapchain_device s dev session ci runtime hdev
  have hne : ∀ im ∈ st.images, im.chain ≠ [] := by
    intro im him
    obtain ⟨j, hj⟩ := List.getElem?_of_mem him
    obtain ⟨d, texture, _, hc⟩ := hch j im hj
    rw [hc]
    exact expectedChain_ne_nil _ _ _ _ _ _
  obtain ⟨out, hout, _, hall⟩ :=
    applicationImages_spec st.images hne (runtime (s.chainCreateInfo ci)).images.length 0
      (by omega)
  refine ⟨st, out, hst, ?_, ?_⟩
  · simp [xrEnumerateSwapchainImages, hres, hst, hd1, hout, bind, Except.bind, pure, Except.pure]
  · intro j texture hj
    have hjlt : j < (runtime (s.chainCreateInfo ci)).images.length := by
      by_contra hcon
      rw [List.getElem?_eq_none (by omega)] at hj
      cases hj
    have hjst : j < st.images.length := by omega
    have him : st.images[j]? = some st.images[j] := List.getElem?_eq_getElem hjst
    obtain ⟨d, texture2, ht2, hc⟩ := hch j _ him
    rw [hj] at ht2
    cases ht2
    obtain ⟨hlast, first, hhead, hw, hh, hcol, hcr, hdist⟩ :=
      expectedChain_ends s ci j d texture (runtimeName j) hcolor
    obtain ⟨first2, hhead2, hout2⟩ := hall j _ (by rw [Nat.zero_add]; exact him) hjlt
    rw [hc, hhead] at hhead2
    cases hhead2
    refine ⟨st.images[j], first, him, ?_, ?_, hout2, hw, hh, hcol, hcr, ?_⟩
    · rw [hc]; exact hlast
    · rw [hc]; exact hhead
    · rw [hc]; exact hdist

/-- C4 at the FSR 150% session: the hypotheses hold, and the application is handed the
created textures 0 and 2 (the fronts of the two chains). -/
theorem C4_chain_ends_witness :
    Scenario.session150.m_graphicsDevice = some (WrapDevice .D3D11) ∧
    Scenario.session150.isVrSession 5 = true ∧
    hasFlag (Scenario.colorSwapchain 1334 1334).usageFlags
      XR_SWAPCHAIN_USAGE_COLOR_ATTACHMENT_BIT = true ∧
    XR_SUCCEEDED (Scenario.runtime
      (Scenario.session150.chainCreateInfo (Scenario.colorSwapchain 1334 1334))).result = true ∧
    XR_SUCCEEDED XR_SUCCESS = true ∧
    Scenario.created150.layer.xrEnumerateSwapchainImages 42 XR_SUCCESS (some [100, 101]) =
      .ok (some [.created 0, .created 2]) ∧
    ∃ st out,
      (Scenario.session150.xrCreateSwapchain 5 (Scenario.colorSwapchain 1334 1334)
          Scenario.runtime).layer.findSwapchain
          (Scenario.runtime (Scenario.session150.chainCreateInfo
            (Scenario.colorSwapchain 1334 1334))).swapchain = some st ∧
      (Scenario.session150.xrCreateSwapchain 5 (Scenario.colorSwapchain 1334 1334)
          Scenario.runtime).layer.xrEnumerateSwapchainImages
          (Scenario.runtime (Scenario.session150.chainCreateInfo
            (Scenario.colorSwapchain 1334 1334))).swapchain XR_SUCCESS
          (some (Scenario.runtime (Scenario.session150.chainCreateInfo
            (Scenario.colorSwapchain 1334 1334))).images) = .ok (some out) :=
  ⟨by decide, by decide, by decide, by decide, by decide, by rfl,
   (C4_chain_ends Scenario.session150 (WrapDevice .D3D11) 5 (Scenario.colorSwapchain 1334 1334)
      Scenario.runtime (by decide) (by decide) (by decide) (by decide) XR_SUCCESS
      (by decide)).imp fun _ h => h.imp fun _ h2 => ⟨h2.1, h2.2.1⟩⟩

namespace OpenXrLayer

/-! ## Session creation and the forwarded create info -/

/-- What a successful `xrCreateSession` on the VR system with a D3D binding leaves: the
device, the post-processor, and the upscaler when the scaling type is FSR or NIS. -/
theorem xrCreateSession_spec (s0 s1 : OpenXrLayer) (systemId : Nat)
    (next : List XrSessionCreateNext) (result r : Int) (session : Nat) (api : Api)
    (hres : XR_SUCCEEDED result = true) (hsys : s0.isVrSystem systemId = true)
    (hbind : findGraphicsBinding next = some api)
    (hs : s0.xrCreateSession systemId next result session = .ok (s1, r)) :
    r = result ∧ s1.m_vrSession = session ∧ s1.m_graphicsDevice = some (WrapDevice api) ∧
    s1.m_displayWidth = s0.m_displayWidth ∧ s1.m_displayHeight = s0.m_displayHeight ∧
    s1.m_preProcessor = s0.m_preProcessor ∧ s1.m_postProcessor.isSome = true ∧
    s1.m_upscaler.isSome =
      (s0.m_upscaler.isSome || decide (s0.m_configManager.SettingScalingType = .FSR) ||
        decide (s0.m_configManager.SettingScalingType = .NIS)) ∧
    (s0.m_configManager.SettingScalingType ≠ .None →
      s1.m_upscalingFactor = s0.m_configManager.SettingScaling) := by
  cases hm : s0.m_configManager.SettingScalingType <;>
    simp [xrCreateSession, hres, hsys, hbind, hm, bind, Except.bind, pure, Except.pure,
      throw, throwThe, MonadExceptOf.throw] at hs <;>
    obtain ⟨h1, h2⟩ := hs <;> subst h1 <;> subst h2 <;> simp [hm]


theorem chainCreateInfo_fields (s : OpenXrLayer) (ci : XrSwapchainCreateInfo) :
    (s.chainCreateInfo ci).format = ci.format ∧ (s.chainCreateInfo ci).arraySize = ci.arraySize ∧
    (s.chainCreateInfo ci).mipCount = ci.mipCount ∧
    (s.chainCreateInfo ci).sampleCount = ci.sampleCount ∧
    (s.chainCreateInfo ci).faceCount = ci.faceCount ∧
    (s.chainCreateInfo ci).createFlags = ci.createFlags := by
  unfold chainCreateInfo
  split
  · cases s.m_preProcessor.isSome <;> cases s.m_upscaler.isSome <;>
      cases s.m_postProcessor.isSome <;> simp
  · simp

theorem chainCreateInfo_size (s : OpenXrLayer) (ci : XrSwapchainCreateInfo)
    (hcolor : hasFlag ci.usageFlags XR_SWAPCHAIN_USAGE_COLOR_ATTACHMENT_BIT = true) :
    (s.chainCreateInfo ci).width = (if s.m_upscaler.isSome then s.m_displayWidth else ci.width) ∧
    (s.chainCreateInfo ci).height =
      (if s.m_upscaler.isSome then s.m_displayHeight else ci.height) := by
  unfold chainCreateInfo
  rw [if_pos hcolor]
  cases s.m_preProcessor.isSome <;> cases s.m_upscaler.isSome <;>
    cases s.m_postProcessor.isSome <;> simp

theorem xrCreateSwapchain_forwarded (s : OpenXrLayer) (dev : IDevice) (session : Nat)
    (ci : XrSwapchainCreateInfo) (runtime : XrSwapchainCreateInfo → RuntimeSwapchain)
    (hdev : s.m_graphicsDevice = some dev) (hvr : s.isVrSession session = true) :
    (s.xrCreateSwapchain session ci runtime).forwarded = s.chainCreateInfo ci := by
  simp only [xrCreateSwapchain, hdev, hvr]
  simp only [Bool.not_true, Bool.false_eq_true, if_false]
  split <;> rfl

/-- The chain for upscaler and post-processor without pre-processor. -/
theorem expectedChain_upscaler_post (s : OpenXrLayer) (ci cinfo : XrSwapchainCreateInfo) (i : Nat)
    (d : IDevice) (r : ITexture) (hp : s.m_preProcessor.isSome = false)
    (hu : s.m_upscaler.isSome = true) (hq : s.m_postProcessor.isSome = true) :
    expectedChain s ci cinfo i d r =
      [{ info := upscalerInputCreateInfo ci, native := .created d.texturesCreated,
         debugName := "App swapchain " ++ toString i ++ " TEX2D" },
       { info := intermediateCreateInfo cinfo true, native := .created (d.texturesCreated + 1),
         debugName := "Postprocess input swapchain " ++ toString i ++ " TEX2D" }, r] := by
  simp [expectedChain, hp, hu, hq]

/-- The chain for the post-processor alone. -/
theorem expectedChain_post (s : OpenXrLayer) (ci cinfo : XrSwapchainCreateInfo) (i : Nat)
    (d : IDevice) (r : ITexture) (hp : s.m_preProcessor.isSome = false)
    (hu : s.m_upscaler.isSome = false) (hq : s.m_postProcessor.isSome = true) :
    expectedChain s ci cinfo i d r =
      [{ info := intermediateCreateInfo cinfo false, native := .created d.texturesCreated,
         debugName := "Postprocess input swapchain " ++ toString i ++ " TEX2D" }, r] := by
  simp [expectedChain, hp, hu, hq]

theorem intermediateCreateInfo_size (cinfo : XrSwapchainCreateInfo) (up : Bool) :
    (intermediateCreateInfo cinfo up).width = cinfo.width ∧
    (intermediateCreateInfo cinfo up).height = cinfo.height := by
  unfold intermediateCreateInfo
  cases up <;> simp
  split <;> simp

theorem expectedChain_head_upscaler (s : OpenXrLayer) (ci cinfo : XrSwapchainCreateInfo) (i : Nat)
    (d : IDevice) (r : ITexture) (hu : s.m_upscaler.isSome = true) :
    ∃ first n, (expectedChain s ci cinfo i d r).head? = some first ∧
      first.native = .created n ∧
      first.info.width = ci.width ∧ first.info.height = ci.height ∧
      first.info.format = ci.format ∧ first.info.arraySize = ci.arraySize ∧
      first.info.mipCount = ci.mipCount ∧ first.info.sampleCount = ci.sampleCount := by
  cases hp : s.m_preProcessor.isSome <;> cases hq : s.m_postProcessor.isSome <;>
    simp [expectedChain, hp, hu, hq, preProcessorInputCreateInfo, upscalerInputCreateInfo]

end OpenXrLayer

/-! ## C5: the chain at 150% -/

/-- C5, as stated, fails: in the FSR 150% session on a 2000x2000 display, the chains of a
1334x1334 swapchain hold three textures, not two: the post-processor that
`xrCreateSession` always creates puts its input texture between the application texture
and the runtime texture. -/
theorem C5_counterexample :
    Scenario.session150.m_upscalingFactor = 150 ∧
    (Scenario.registered Scenario.created150.layer).images.map
        (fun im => im.chain.map fun t => (t.info.width, t.info.height, t.native)) =
      [[(1334, 1334, .created 0), (2000, 2000, .created 1), (2000, 2000, .runtime 100)],
       [(1334, 1334, .created 2), (2000, 2000, .created 3), (2000, 2000, .runtime 101)]] ∧
    ¬ (Scenario.image0 Scenario.created150.layer).chain.length = 2 := by
  decide

/-- C5, amended: in a session created by `xrCreateSession` (D3D11 or D3D12 binding) with
scaling by FSR or NIS at 150% and a 2000x2000 display, no pre-processor being set, a
colour swapchain created at 1334x1334 gets for every runtime image a chain of exactly
three textures: the application texture at 1334x1334, the post-processor input texture
at 2000x2000 (both created by the layer), and the runtime texture at 2000x2000. -/
theorem C5_chain_at_150 (s0 s1 : OpenXrLayer) (systemId : Nat)
    (next : List XrSessionCreateNext) (result r : Int) (session : Nat) (api : Api)
    (ci : XrSwapchainCreateInfo) (runtime : XrSwapchainCreateInfo → RuntimeSwapchain)
    (hres : XR_SUCCEEDED result = true) (hsys : s0.isVrSystem systemId = true)
    (hbind : findGraphicsBinding next = some api)
    (hmode : s0.m_configManager.SettingScalingType = .FSR ∨
      s0.m_configManager.SettingScalingType = .NIS)
    (hscale : s0.m_configManager.SettingScaling = 150)
    (hdw : s0.m_displayWidth = 2000) (hdh : s0.m_displayHeight = 2000)
    (hpre : s0.m_preProcessor = none)
    (hs : s0.xrCreateSession systemId next result session = .ok (s1, r))
    (hcw : ci.width = 1334) (hch : ci.height = 1334)
    (hcolor : hasFlag ci.usageFlags XR_SWAPCHAIN_USAGE_COLOR_ATTACHMENT_BIT = true)
    (hok : XR_SUCCEEDED (runtime (s1.chainCreateInfo ci)).result = true) :
    s1.m_upscalingFactor = 150 ∧
    ∃ st : SwapchainState,
      (s1.xrCreateSwapchain session ci runtime).layer.findSwapchain
          (runtime (s1.chainCreateInfo ci)).swapchain = some st ∧
      st.images.length = (runtime (s1.chainCreateInfo ci)).images.length ∧
      ∀ im ∈ st.images, ∃ app mid rt : ITexture, im.chain = [app, mid, rt] ∧
        app.info.width = 1334 ∧ app.info.height = 1334 ∧ (∃ n, app.native = .created n) ∧
        mid.info.width = 2000 ∧ mid.info.height = 2000 ∧ (∃ n, mid.native = .created n) ∧
        rt.info.width = 2000 ∧ rt.info.height = 2000 ∧
        ∃ h, rt.native = .runtime h ∧ h ∈ (runtime (s1.chainCreateInfo ci)).images := by
  obtain ⟨_, hsess, hdev, hw1, hh1, hpre1, hpost1, hup1, hfac⟩ :=
    xrCreateSession_spec s0 s1 systemId next result r session api hres hsys hbind hs
  have hup : s1.m_upscaler.isSome = true := by
    rw [hup1]; rcases hmode with h | h <;> simp [h]
  have hp : s1.m_preProcessor.isSome = false := by rw [hpre1, hpre]; rfl
  have hvr : s1.isVrSession session = true := by simp [isVrSession, hsess]
  refine ⟨?_, ?_⟩
  · rw [hfac (by rcases hmode with h | h <;> simp [h]), hscale]
  · obtain ⟨st, hst, _, hlen, hchain⟩ :=
      xrCreateSwapchain_registered s1 _ session ci runtime hdev hvr hcolor hok
    refine ⟨st, hst, hlen, ?_⟩
    intro im him
    obtain ⟨j, hj⟩ := List.getElem?_of_mem him
    obtain ⟨d, texture, htex, hc⟩ := hchain j im hj
    rw [expectedChain_upscaler_post s1 ci _ j d _ hp hup hpost1] at hc
    have hsize := chainCreateInfo_size s1 ci hcolor
    rw [if_pos hup, if_pos hup, hw1, hh1, hdw, hdh] at hsize
    have hmid := intermediateCreateInfo_size (s1.chainCreateInfo ci) true
    refine ⟨_, _, _, hc, ?_, ?_, ⟨_, rfl⟩, ?_, ?_, ⟨_, rfl⟩, ?_, ?_, texture, rfl, ?_⟩
    · simpa [upscalerInputCreateInfo] using hcw
    · simpa [upscalerInputCreateInfo] using hch
    · rw [hmid.1, hsize.1]
    · rw [hmid.2, hsize.2]
    · exact hsize.1
    · exact hsize.2
    · exact List.getElem?_mem htex

/-- C5 amended, at the concrete FSR 150% session. -/
theorem C5_chain_at_150_witness :
    XR_SUCCEEDED XR_SUCCESS = true ∧
    (Scenario.afterGetSystem Scenario.fsr150).isVrSystem 1 = true ∧
    findGraphicsBinding [.otherStructure, .XR_TYPE_GRAPHICS_BINDING_D3D11_KHR]
      = some .D3D11 ∧
    (Scenario.afterGetSystem Scenario.fsr150).m_configManager.SettingScaling = 150 ∧
    (Scenario.afterGetSystem Scenario.fsr150).m_displayWidth = 2000 ∧
    (Scenario.afterGetSystem Scenario.fsr150).m_displayHeight = 2000 ∧
    (Scenario.afterGetSystem Scenario.fsr150).m_preProcessor = none ∧
    (Scenario.afterGetSystem Scenario.fsr150).xrCreateSession 1
      [.otherStructure, .XR_TYPE_GRAPHICS_BINDING_D3D11_KHR] XR_SUCCESS 5
      = .ok (Scenario.session150, XR_SUCCESS) ∧
    Scenario.session150.m_upscalingFactor = 150 :=
  ⟨by decide, by decide, by decide, by decide, by decide, by decide, by decide, by rfl,
   (C5_chain_at_150 (Scenario.afterGetSystem Scenario.fsr150) Scenario.session150 1
      [.otherStructure, .XR_TYPE_GRAPHICS_BINDING_D3D11_KHR] XR_SUCCESS XR_SUCCESS 5 .D3D11
      (Scenario.colorSwapchain 1334 1334) Scenario.runtime (by decide) (by decide)
      (by decide) (Or.inl (by decide)) (by decide) (by decide) (by decide) (by decide)
      (by rfl) (by decide) (by decide) (by decide) (by decide)).1⟩

/-! ## C6: the chain without scaling -/

/-- C6, as stated, fails: in the session without scaling the chains of a colour swapchain
hold two textures, the post-processor input texture and the runtime texture. -/
theorem C6_counterexample :
    Scenario.sessionNoScaling.m_upscaleMode = .None ∧
    Scenario.sessionNoScaling.m_upscaler = none ∧
    (Scenario.registered Scenario.createdNoScaling.layer).images.map
        (fun im => im.chain.map fun t => (t.info.width, t.info.height, t.native)) =
      [[(2000, 2000, .created 0), (2000, 2000, .runtime 100)],
       [(2000, 2000, .created 1), (2000, 2000, .runtime 101)]] ∧
    ¬ (Scenario.image0 Scenario.createdNoScaling.layer).chain.length = 1 := by
  decide

/-- C6, amended: in a session created by `xrCreateSession` with scaling type None (no
upscaler or pre-processor left over), every chain of a colour swapchain has length 2: the
post-processor input texture, created by the layer at the size the application asked
for, followed by the runtime texture. -/
theorem C6_chain_without_scaling (s0 s1 : OpenXrLayer) (systemId : Nat)
    (next : List XrSessionCreateNext) (result r : Int) (session : Nat) (api : Api)
    (ci : XrSwapchainCreateInfo) (runtime : XrSwapchainCreateInfo → RuntimeSwapchain)
    (hres : XR_SUCCEEDED result = true) (hsys : s0.isVrSystem systemId = true)
    (hbind : findGraphicsBinding next = some api)
    (hmode : s0.m_configManager.SettingScalingType = .None)
    (hup0 : s0.m_upscaler = none) (hpre : s0.m_preProcessor = none)
    (hs : s0.xrCreateSession systemId next result session = .ok (s1, r))
    (hcolor : hasFlag ci.usageFlags XR_SWAPCHAIN_USAGE_COLOR_ATTACHMENT_BIT = true)
    (hok : XR_SUCCEEDED (runtime (s1.chainCreateInfo ci)).result = true) :
    ∃ st : SwapchainState,
      (s1.xrCreateSwapchain session ci runtime).layer.findSwapchain
          (runtime (s1.chainCreateInfo ci)).swapchain = some st ∧
      st.images.length = (runtime (s1.chainCreateInfo ci)).images.length ∧
      ∀ im ∈ st.images, ∃ mid rt : ITexture, im.chain = [mid, rt] ∧
        (∃ n, mid.native = .created n) ∧
        mid.info.width = ci.width ∧ mid.info.height = ci.height ∧
        rt.info.width = ci.width ∧ rt.info.height = ci.height ∧
        ∃ h, rt.native = .runtime h ∧ h ∈ (runtime (s1.chainCreateInfo ci)).images := by
  obtain ⟨_, hsess, hdev, _, _, hpre1, hpost1, hup1, _⟩ :=
    xrCreateSession_spec s0 s1 systemId next result r session api hres hsys hbind hs
  have hup : s1.m_upscaler.isSome = false := by
    rw [hup1, hup0, hmode]; rfl
  have hp : s1.m_preProcessor.isSome = false := by rw [hpre1, hpre]; rfl
  have hvr : s1.isVrSession session = true := by simp [isVrSession, hsess]
  obtain ⟨st, hst, _, hlen, hchain⟩ :=
    xrCreateSwapchain_registered s1 _ session ci runtime hdev hvr hcolor hok
  refine ⟨st, hst, hlen, ?_⟩
  intro im him
  obtain ⟨j, hj⟩ := List.getElem?_of_mem him
  obtain ⟨d, texture, htex, hc⟩ := hchain j im hj
  rw [expectedChain_post s1 ci _ j d _ hp hup hpost1] at hc
  have hsize := chainCreateInfo_size s1 ci hcolor
  simp only [hup, Bool.false_eq_true, if_false] at hsize
  have hmid := intermediateCreateInfo_size (s1.chainCreateInfo ci) false
  refine ⟨_, _, hc, ⟨_, rfl⟩, ?_, ?_, hsize.1, hsize.2, texture, rfl, List.getElem?_mem htex⟩
  · rw [hmid.1, hsize.1]
  · rw [hmid.2, hsize.2]

/-- C6 amended, at the concrete session without scaling. -/
theorem C6_chain_without_scaling_witness :
    XR_SUCCEEDED XR_SUCCESS = true ∧
    (Scenario.afterGetSystem Scenario.noScaling).isVrSystem 1 = true ∧
    findGraphicsBinding [.otherStructure, .XR_TYPE_GRAPHICS_BINDING_D3D11_KHR]
      = some .D3D11 ∧
    (Scenario.afterGetSystem Scenario.noScaling).m_configManager.SettingScalingType = .None ∧
    (Scenario.afterGetSystem Scenario.noScaling).m_upscaler = none ∧
    (Scenario.afterGetSystem Scenario.noScaling).m_preProcessor = none ∧
    (Scenario.afterGetSystem Scenario.noScaling).xrCreateSession 1
      [.otherStructure, .XR_TYPE_GRAPHICS_BINDING_D3D11_KHR] XR_SUCCESS 5
      = .ok (Scenario.sessionNoScaling, XR_SUCCESS) ∧
    ∃ st : SwapchainState,
      (Scenario.sessionNoScaling.xrCreateSwapchain 5 (Scenario.colorSwapchain 2000 2000)
          Scenario.runtime).layer.findSwapchain
          (Scenario.runtime (Scenario.sessionNoScaling.chainCreateInfo
            (Scenario.colorSwapchain 2000 2000))).swapchain = some st ∧
      st.images.length = 2 :=
  ⟨by decide, by decide, by decide, by decide, by decide, by decide, by rfl,
   (C6_chain_without_scaling (Scenario.afterGetSystem Scenario.noScaling)
      Scenario.sessionNoScaling 1
      [.otherStructure, .XR_TYPE_GRAPHICS_BINDING_D3D11_KHR] XR_SUCCESS XR_SUCCESS 5 .D3D11
      (Scenario.colorSwapchain 2000 2000) Scenario.runtime (by decide) (by decide)
      (by decide) (by decide) (by decide) (by decide) (by rfl) (by decide)
      (by decide)).imp fun _ h => ⟨h.1, h.2.1⟩⟩

/-! ## C8: the create info handed to the runtime -/

/-- C8, as stated, fails: without an upscaler, a 1000x1000 swapchain on the 2000x2000
display is requested from the runtime at 1000x1000, not at the display resolution. -/
theorem C8_counterexample :
    (Scenario.colorSwapchain 1000 1000).width ≠ Scenario.sessionNoScaling.m_displayWidth ∧
    Scenario.sessionNoScaling.m_displayWidth = 2000 ∧
    Scenario.sessionNoScaling.m_displayHeight = 2000 ∧
    (Scenario.sessionNoScaling.xrCreateSwapchain 5 (Scenario.colorSwapchain 1000 1000)
      Scenario.runtime).forwarded.width = 1000 ∧
    (Scenario.sessionNoScaling.xrCreateSwapchain 5 (Scenario.colorSwapchain 1000 1000)
      Scenario.runtime).forwarded.height = 1000 := by
  decide

/-- C8, amended: for a colour swapchain created on the VR session, the create info handed
to the runtime keeps the application's format, arraySize, mipCount, sampleCount and
faceCount; when an upscaler is set its width and height are the display's, and every
chain starts with a texture the layer created with the application's width, height,
format, arraySize, mipCount and sampleCount; when no upscaler is set the width and height
handed to the runtime are the application's, whatever the display resolution. -/
theorem C8_forwarded_create_info (s : OpenXrLayer) (dev : IDevice) (session : Nat)
    (ci : XrSwapchainCreateInfo) (runtime : XrSwapchainCreateInfo → RuntimeSwapchain)
    (hdev : s.m_graphicsDevice = some dev) (hvr : s.isVrSession session = true)
    (hcolor : hasFlag ci.usageFlags XR_SWAPCHAIN_USAGE_COLOR_ATTACHMENT_BIT = true) :
    ((s.xrCreateSwapchain session ci runtime).forwarded.format = ci.format ∧
     (s.xrCreateSwapchain session ci runtime).forwarded.arraySize = ci.arraySize ∧
     (s.xrCreateSwapchain session ci runtime).forwarded.mipCount = ci.mipCount ∧
     (s.xrCreateSwapchain session ci runtime).forwarded.sampleCount = ci.sampleCount ∧
     (s.xrCreateSwapchain session ci runtime).forwarded.faceCount = ci.faceCount) ∧
    (s.m_upscaler.isSome = true →
      (s.xrCreateSwapchain session ci runtime).forwarded.width = s.m_displayWidth ∧
      (s.xrCreateSwapchain session ci runtime).forwarded.height = s.m_displayHeight ∧
      (XR_SUCCEEDED (runtime (s.chainCreateInfo ci)).result = true →
        ∃ st : SwapchainState,
          (s.xrCreateSwapchain session ci runtime).layer.findSwapchain
              (runtime (s.chainCreateInfo ci)).swapchain = some st ∧
          ∀ im ∈ st.images, ∃ first n, im.chain.head? = some first ∧
            first.native = .created n ∧
            first.info.width = ci.width ∧ first.info.height = ci.height ∧
            first.info.format = ci.format ∧ first.info.arraySize = ci.arraySize ∧
            first.info.mipCount = ci.mipCount ∧ first.info.sampleCount = ci.sampleCount)) ∧
    (s.m_upscaler.isSome = false →
      (s.xrCreateSwapchain session ci runtime).forwarded.width = ci.width ∧
      (s.xrCreateSwapchain session ci runtime).forwarded.height = ci.height) := by
  rw [xrCreateSwapchain_forwarded s dev session ci runtime hdev hvr]
  obtain ⟨hf, ha, hm, hsc, hfc, _⟩ := chainCreateInfo_fields s ci
  have hsize := chainCreateInfo_size s ci hcolor
  refine ⟨⟨hf, ha, hm, hsc, hfc⟩, ?_, ?_⟩
  · intro hup
    rw [if_pos hup, if_pos hup] at hsize
    refine ⟨hsize.1, hsize.2, ?_⟩
    intro hok
    obtain ⟨st, hst, _, _, hchain⟩ :=
      xrCreateSwapchain_registered s dev session ci runtime hdev hvr hcolor hok
    refine ⟨st, hst, ?_⟩
    intro im him
    obtain ⟨j, hj⟩ := List.getElem?_of_mem him
    obtain ⟨d, texture, _, hc⟩ := hchain j im hj
    rw [hc]
    exact expectedChain_head_upscaler s ci _ j d _ hup
  · intro hup
    simp only [hup, Bool.false_eq_true, if_false] at hsize
    exact hsize

/-- C8 amended, at the FSR 150% session: the runtime is asked for 2000x2000. -/
theorem C8_forwarded_create_info_witness :
    Scenario.session150.m_graphicsDevice = some (WrapDevice .D3D11) ∧
    Scenario.session150.isVrSession 5 = true ∧
    hasFlag (Scenario.colorSwapchain 1334 1334).usageFlags
      XR_SWAPCHAIN_USAGE_COLOR_ATTACHMENT_BIT = true ∧
    Scenario.session150.m_upscaler.isSome = true ∧
    (Scenario.session150.xrCreateSwapchain 5 (Scenario.colorSwapchain 1334 1334)
      Scenario.runtime).forwarded.width = Scenario.session150.m_displayWidth :=
  ⟨by decide, by decide, by decide, by decide,
   ((C8_forwarded_create_info Scenario.session150 (WrapDevice .D3D11) 5
      (Scenario.colorSwapchain 1334 1334) Scenario.runtime (by decide) (by decide)
      (by decide)).2.1 (by decide)).1⟩

/-! ## Texture view caches -/

namespace graphics

namespace ViewCache

theorem setWhole_whole {View : Type} (c : ViewCache View) (kind : ViewKind) :
    c.setWhole kind (c.whole kind) = c := by
  cases kind <;> rfl

theorem whole_setWhole {View : Type} (c : ViewCache View) (kind : ViewKind) (v : Option View) :
    (c.setWhole kind v).whole kind = v := by
  cases kind <;> rfl

theorem setWhole_setWhole {View : Type} (c : ViewCache View) (kind : ViewKind)
    (v w : Option View) : (c.setWhole kind v).setWhole kind w = c.setWhole kind w := by
  cases kind <;> rfl

theorem sub_setSub {View : Type} (c : ViewCache View) (kind : ViewKind) (slice : Nat)
    (v : Option View) : (c.setSub kind slice v).sub kind = (c.sub kind).set slice v := by
  cases kind <;> rfl

theorem setSub_same {View : Type} (c : ViewCache View) (kind : ViewKind) (slice : Nat)
    (v : Option View) (h : (c.sub kind)[slice]? = some v) : c.setSub kind slice v = c := by
  have hset : ∀ l : List (Option View), l[slice]? = some v → l.set slice v = l := by
    intro l hl
    apply List.ext_getElem?
    intro i
    by_cases hi : slice = i
    · subst hi
      have hlt : slice < l.length := by
        by_contra hcon
        rw [List.getElem?_eq_none (by omega)] at hl
        cases hl
      simp [List.getElem?_set_self, hlt, hl]
    · simp [List.getElem?_set_ne hi]
  cases kind <;> cases c <;> simp only [setSub, sub] at h ⊢ <;> rw [hset _ h]

end ViewCache

namespace D3D11Texture

theorem getView_cached (t : D3D11Texture) (kind : ViewKind) (dev : ID3D11Device)
    (v : D3D11View) (hc : t.cache.whole kind = some v) :
    t.getView kind dev = (.ok v, t, dev) := by
  simp only [getView, getViewInternal, hc]
  rw [← hc, ViewCache.setWhole_whole]

theorem getView_fresh (t : D3D11Texture) (kind : ViewKind) (dev : ID3D11Device)
    (hc : t.cache.whole kind = none) (hp : t.permits kind = true) :
    t.getView kind dev =
      (.ok { native := dev.views.length },
       { t with cache := t.cache.setWhole kind (some { native := dev.views.length }) },
       { views := dev.views ++ [(t.m_texture, viewDesc t.m_info kind 0)] }) := by
  simp [getView, getViewInternal, hc, hp]

theorem getView_refused (t : D3D11Texture) (kind : ViewKind) (dev : ID3D11Device)
    (hc : t.cache.whole kind = none) (hp : t.permits kind = false) :
    t.getView kind dev = (.error (capabilityError kind), t, dev) := by
  simp only [getView, getViewInternal, hc, hp]
  simp only [Bool.not_false, if_true]
  rw [← hc, ViewCache.setWhole_whole]

theorem getSliceView_cached (t : D3D11Texture) (kind : ViewKind) (slice : Nat)
    (dev : ID3D11Device) (v : D3D11View) (hc : (t.cache.sub kind)[slice]? = some (some v)) :
    t.getSliceView kind slice dev = (.ok v, t, dev) := by
  simp only [getSliceView, getViewInternal, hc]
  rw [ViewCache.setSub_same _ _ _ _ hc]

theorem getSliceView_fresh (t : D3D11Texture) (kind : ViewKind) (slice : Nat)
    (dev : ID3D11Device) (hc : (t.cache.sub kind)[slice]? = some none)
    (hp : t.permits kind = true) :
    t.getSliceView kind slice dev =
      (.ok { native := dev.views.length },
       { t with cache := t.cache.setSub kind slice (some { native := dev.views.length }) },
       { views := dev.views ++ [(t.m_texture, viewDesc t.m_info kind slice)] }) := by
  simp [getSliceView, getViewInternal, hc, hp]

theorem getSliceView_refused (t : D3D11Texture) (kind : ViewKind) (slice : Nat)
    (dev : ID3D11Device) (hc : (t.cache.sub kind)[slice]? = some none)
    (hp : t.permits kind = false) :
    t.getSliceView kind slice dev = (.error (capabilityError kind), t, dev) := by
  simp only [getSliceView, getViewInternal, hc, hp]
  simp only [Bool.not_false, if_true]
  rw [ViewCache.setSub_same _ _ _ _ hc]

theorem getSliceView_outOfRange (t : D3D11Texture) (kind : ViewKind) (slice : Nat)
    (dev : ID3D11Device) (hc : (t.cache.sub kind).length ≤ slice) :
    t.getSliceView kind slice dev = (.error .outOfRange, t, dev) := by
  simp only [getSliceView, List.getElem?_eq_none hc]

/-- Two successive whole-texture requests of a permitted (or already cached) kind return
the same view; the second changes neither the texture nor the device. -/
theorem getView_twice (t : D3D11Texture) (kind : ViewKind) (dev : ID3D11Device)
    (h : (t.cache.whole kind).isSome = true ∨ t.permits kind = true) :
    ∃ v t1 d1, t.getView kind dev = (.ok v, t1, d1) ∧ t1.getView kind d1 = (.ok v, t1, d1) := by
  cases hc : t.cache.whole kind with
  | some v =>
    exact ⟨v, t, dev, getView_cached t kind dev v hc, getView_cached t kind dev v hc⟩
  | none =>
    have hp : t.permits kind = true := by
      rcases h with h | h
      · rw [hc] at h; cases h
      · exact h
    exact ⟨_, _, _, getView_fresh t kind dev hc hp,
      getView_cached _ kind _ _ (ViewCache.whole_setWhole _ _ _)⟩

/-- The same for a slice inside the per-slice vector of the kind. -/
theorem getSliceView_twice (t : D3D11Texture) (kind : ViewKind) (slice : Nat)
    (dev : ID3D11Device) (hs : slice < (t.cache.sub kind).length)
    (h : ((t.cache.sub kind)[slice]?).join.isSome = true ∨ t.permits kind = true) :
    ∃ v t1 d1, t.getSliceView kind slice dev = (.ok v, t1, d1) ∧
      t1.getSliceView kind slice d1 = (.ok v, t1, d1) := by
  have hget : (t.cache.sub kind)[slice]? = some (t.cache.sub kind)[slice] :=
    List.getElem?_eq_getElem hs
  cases hc : (t.cache.sub kind)[slice] with
  | some v =>
    rw [hc] at hget
    exact ⟨v, t, dev, getSliceView_cached t kind slice dev v hget,
      getSliceView_cached t kind slice dev v hget⟩
  | none =>
    rw [hc] at hget
    have hp : t.permits kind = true := by
      rcases h with h | h
      · rw [hget] at h; cases h
      · exact h
    refine ⟨_, _, _, getSliceView_fresh t kind slice dev hget hp,
      getSliceView_cached _ kind slice _ _ ?_⟩
    simp [ViewCache.sub_setSub, List.getElem?_set_self, hs]

end D3D11Texture

namespace D3D12Texture

theorem getView_cached_d3d12 (t : D3D12Texture) (kind : ViewKind) (dev : D3D12Descriptors)
    (v : D3D12ResourceView) (hc : t.cache.whole kind = some v) :
    t.getView kind dev = (.ok v, t, dev) := by
  simp only [getView, getViewInternal, hc]
  rw [← hc, ViewCache.setWhole_whole]

theorem getView_fresh_d3d12 (t : D3D12Texture) (kind : ViewKind) (dev : D3D12Descriptors)
    (hc : t.cache.whole kind = none) (hp : t.permits kind = true) :
    t.getView kind dev =
      (.ok { m_resourceView := (allocateFor dev kind).1 },
       { t with cache :=
          t.cache.setWhole kind (some { m_resourceView := (allocateFor dev kind).1 }) },
       { (allocateFor dev kind).2 with
          views := (allocateFor dev kind).2.views ++
            [((allocateFor dev kind).1, t.m_texture, viewDesc t.m_info kind 0)] }) := by
  simp [getView, getViewInternal, hc, hp]

theorem getView_refused_d3d12 (t : D3D12Texture) (kind : ViewKind) (dev : D3D12Descriptors)
    (hc : t.cache.whole kind = none) (hp : t.permits kind = false) :
    t.getView kind dev = (.error (capabilityError kind), t, dev) := by
  simp only [getView, getViewInternal, hc, hp]
  simp only [Bool.not_false, if_true]
  rw [← hc, ViewCache.setWhole_whole]

theorem getSliceView_cached_d3d12 (t : D3D12Texture) (kind : ViewKind) (slice : Nat)
    (dev : D3D12Descriptors) (v : D3D12ResourceView) (hc : (t.cache.sub kind)[slice]? = some (some v)) :
    t.getSliceView kind slice dev = (.ok v, t, dev) := by
  simp only [getSliceView, getViewInternal, hc]
  rw [ViewCache.setSub_same _ _ _ _ hc]

theorem getSliceView_fresh_d3d12 (t : D3D12Texture) (kind : ViewKind) (slice : Nat)
    (dev : D3D12Descriptors) (hc : (t.cache.sub kind)[slice]? = some none)
    (hp : t.permits kind = true) :
    t.getSliceView kind slice dev =
      (.ok { m_resourceView := (allocateFor dev kind).1 },
       { t with cache :=
          t.cache.setSub kind slice (some { m_resourceView := (allocateFor dev kind).1 }) },
       { (allocateFor dev kind).2 with
          views := (allocateFor dev kind).2.views ++
            [((allocateFor dev kind).1, t.m_texture, viewDesc t.m_info kind slice)] }) := by
  simp [getSliceView, getViewInternal, hc, hp]

theorem getSliceView_refused_d3d12 (t : D3D12Texture) (kind : ViewKind) (slice : Nat)
    (dev : D3D12Descriptors) (hc : (t.cache.sub kind)[slice]? = some none)
    (hp : t.permits kind = false) :
    t.getSliceView kind slice dev = (.error (capabilityError kind), t, dev) := by
  simp only [getSliceView, getViewInternal, hc, hp]
  simp only [Bool.not_false, if_true]
  rw [ViewCache.setSub_same _ _ _ _ hc]

theorem getSliceView_outOfRange_d3d12 (t : D3D12Texture) (kind : ViewKind) (slice : Nat)
    (dev : D3D12Descriptors) (hc : (t.cache.sub kind).length ≤ slice) :
    t.getSliceView kind slice dev = (.error .outOfRange, t, dev) := by
  simp only [getSliceView, List.getElem?_eq_none hc]

/-- Two successive whole-texture requests of a permitted (or already cached) kind return
the same view; the second changes neither the texture nor the heaps (no descriptor is allocated). -/
theorem getView_twice_d3d12 (t : D3D12Texture) (kind : ViewKind) (dev : D3D12Descriptors)
    (h : (t.cache.whole kind).isSome = true ∨ t.permits kind = true) :
    ∃ v t1 d1, t.getView kind dev = (.ok v, t1, d1) ∧ t1.getView kind d1 = (.ok v, t1, d1) := by
  cases hc : t.cache.whole kind with
  | some v =>
    exact ⟨v, t, dev, getView_cached_d3d12 t kind dev v hc, getView_cached_d3d12 t kind dev v hc⟩
  | none =>
    have hp : t.permits kind = true := by
      rcases h with h | h
      · rw [hc] at h; cases h
      · exact h
    exact ⟨_, _, _, getView_fresh_d3d12 t kind dev hc hp,
      getView_cached_d3d12 _ kind _ _ (ViewCache.whole_setWhole _ _ _)⟩

/-- The same for a slice inside the per-slice vector of the kind. -/
theorem getSliceView_twice_d3d12 (t : D3D12Texture) (kind : ViewKind) (slice : Nat)
    (dev : D3D12Descriptors) (hs : slice < (t.cache.sub kind).length)
    (h : ((t.cache.sub kind)[slice]?).join.isSome = true ∨ t.permits kind = true) :
    ∃ v t1 d1, t.getSliceView kind slice dev = (.ok v, t1, d1) ∧
      t1.getSliceView kind slice d1 = (.ok v, t1, d1) := by
  have hget : (t.cache.sub kind)[slice]? = some (t.cache.sub kind)[slice] :=
    List.getElem?_eq_getElem hs
  cases hc : (t.cache.sub kind)[slice] with
  | some v =>
    rw [hc] at hget
    exact ⟨v, t, dev, getSliceView_cached_d3d12 t kind slice dev v hget,
      getSliceView_cached_d3d12 t kind slice dev v hget⟩
  | none =>
    rw [hc] at hget
    have hp : t.permits kind = true := by
      rcases h with h | h
      · rw [hget] at h; cases h
      · exact h
    refine ⟨_, _, _, getSliceView_fresh_d3d12 t kind slice dev hget hp,
      getSliceView_cached_d3d12 _ kind slice _ _ ?_⟩
    simp [ViewCache.sub_setSub, List.getElem?_set_self, hs]

end D3D12Texture

/-- The per-slice vectors after construction: `arraySize` entries for the shader-input,
compute-shader-output and render-target kinds, none for the depth-stencil kind. -/
theorem ViewCache.create_sub_length (View : Type) (arraySize : Nat) (kind : ViewKind) :
    ((ViewCache.create View arraySize).sub kind).length =
      if kind = .depthStencil then 0 else arraySize := by
  cases kind <;> simp [ViewCache.create, ViewCache.sub]

theorem ViewCache.create_sub_getElem? (View : Type) (arraySize : Nat) (kind : ViewKind)
    (slice : Nat) (hk : kind ≠ .depthStencil) (hs : slice < arraySize) :
    ((ViewCache.create View arraySize).sub kind)[slice]? = some none := by
  cases kind <;> simp [ViewCache.create, ViewCache.sub, List.getElem?_replicate, hs] at hk ⊢

theorem ViewCache.create_whole (View : Type) (arraySize : Nat) (kind : ViewKind) :
    (ViewCache.create View arraySize).whole kind = none := by
  cases kind <;> rfl

/-- On a freshly constructed D3D11 texture, a permitted view requested twice (whole
texture, or a slice below `arraySize` of any kind but depth-stencil) is created once and
returned both times. -/
theorem D3D11Texture.create_request_twice (info : XrSwapchainCreateInfo)
    (BindFlags ArraySize texture : Nat) (kind : ViewKind) (dev : ID3D11Device)
    (hp : (D3D11Texture.create info BindFlags ArraySize texture).permits kind = true) :
    (∃ v t1 d1,
      (D3D11Texture.create info BindFlags ArraySize texture).getView kind dev = (.ok v, t1, d1) ∧
      t1.getView kind d1 = (.ok v, t1, d1)) ∧
    ∀ slice, kind ≠ .depthStencil → slice < info.arraySize →
      ∃ v t1 d1,
        (D3D11Texture.create info BindFlags ArraySize texture).getSliceView kind slice dev =
          (.ok v, t1, d1) ∧
        t1.getSliceView kind slice d1 = (.ok v, t1, d1) := by
  refine ⟨D3D11Texture.getView_twice _ kind dev (Or.inr hp), ?_⟩
  intro slice hk hs
  refine D3D11Texture.getSliceView_twice _ kind slice dev ?_ (Or.inr hp)
  simp [D3D11Texture.create, ViewCache.create_sub_length, hk, hs]

/-- The same on a freshly constructed D3D12 texture; the second request leaves the heaps
as the first left them. -/
theorem D3D12Texture.create_request_twice_d3d12 (info : XrSwapchainCreateInfo)
    (Flags DepthOrArraySize texture : Nat) (kind : ViewKind) (dev : D3D12Descriptors)
    (hp : (D3D12Texture.create info Flags DepthOrArraySize texture).permits kind = true) :
    (∃ v t1 d1,
      (D3D12Texture.create info Flags DepthOrArraySize texture).getView kind dev =
        (.ok v, t1, d1) ∧
      t1.getView kind d1 = (.ok v, t1, d1)) ∧
    ∀ slice, kind ≠ .depthStencil → slice < info.arraySize →
      ∃ v t1 d1,
        (D3D12Texture.create info Flags DepthOrArraySize texture).getSliceView kind slice dev =
          (.ok v, t1, d1) ∧
        t1.getSliceView kind slice d1 = (.ok v, t1, d1) := by
  refine ⟨D3D12Texture.getView_twice_d3d12 _ kind dev (Or.inr hp), ?_⟩
  intro slice hk hs
  refine D3D12Texture.getSliceView_twice_d3d12 _ kind slice dev ?_ (Or.inr hp)
  simp [D3D12Texture.create, ViewCache.create_sub_length, hk, hs]

/-- On a freshly constructed D3D11 texture, a view kind the bind flags do not permit is
refused with the capability error and nothing changes, for the whole texture and for a
slice below `arraySize` of any kind but depth-stencil. -/
theorem D3D11Texture.create_request_refused (info : XrSwapchainCreateInfo)
    (BindFlags ArraySize texture : Nat) (kind : ViewKind) (dev : ID3D11Device)
    (hp : (D3D11Texture.create info BindFlags ArraySize texture).permits kind = false) :
    (D3D11Texture.create info BindFlags ArraySize texture).getView kind dev =
      (.error (D3D11Texture.capabilityError kind),
       D3D11Texture.create info BindFlags ArraySize texture, dev) ∧
    ∀ slice, kind ≠ .depthStencil → slice < info.arraySize →
      (D3D11Texture.create info BindFlags ArraySize texture).getSliceView kind slice dev =
        (.error (D3D11Texture.capabilityError kind),
         D3D11Texture.create info BindFlags ArraySize texture, dev) := by
  refine ⟨D3D11Texture.getView_refused _ kind dev (ViewCache.create_whole _ _ _) hp, ?_⟩
  intro slice hk hs
  exact D3D11Texture.getSliceView_refused _ kind slice dev
    (ViewCache.create_sub_getElem? _ _ kind slice hk hs) hp

/-- The same on a freshly constructed D3D12 texture: no descriptor is allocated. -/
theorem D3D12Texture.create_request_refused_d3d12 (info : XrSwapchainCreateInfo)
    (Flags DepthOrArraySize texture : Nat) (kind : ViewKind) (dev : D3D12Descriptors)
    (hp : (D3D12Texture.create info Flags DepthOrArraySize texture).permits kind = false) :
    (D3D12Texture.create info Flags DepthOrArraySize texture).getView kind dev =
      (.error (D3D12Texture.capabilityError kind),
       D3D12Texture.create info Flags DepthOrArraySize texture, dev) ∧
    ∀ slice, kind ≠ .depthStencil → slice < info.arraySize →
      (D3D12Texture.create info Flags DepthOrArraySize texture).getSliceView kind slice dev =
        (.error (D3D12Texture.capabilityError kind),
         D3D12Texture.create info Flags DepthOrArraySize texture, dev) := by
  refine ⟨D3D12Texture.getView_refused_d3d12 _ kind dev (ViewCache.create_whole _ _ _) hp, ?_⟩
  intro slice hk hs
  exact D3D12Texture.getSliceView_refused_d3d12 _ kind slice dev
    (ViewCache.create_sub_getElem? _ _ kind slice hk hs) hp

end graphics

/-! ## C9: view cache idempotence -/

/-- C9 fails on the code for per-slice depth-stencil views: on a two-slice depth texture
(depth-stencil usage, so the kind is permitted) the request for slice 1 indexes the empty
`m_depthStencilSubView` on both backends; no view is returned, let alone the same one
twice.  (`D3D11Texture.create_request_twice` and `D3D12Texture.create_request_twice_d3d12`
show the claim for every other kind and addressing.) -/
theorem C9_depth_stencil_slice_out_of_range :
    (D3D11CreateTexture Scenario.depthArray 7).permits .depthStencil = true ∧
    (D3D11CreateTexture Scenario.depthArray 7).m_info.arraySize = 2 ∧
    (D3D11CreateTexture Scenario.depthArray 7).getSliceView .depthStencil 1 Scenario.d3d11 =
      (.error .outOfRange, D3D11CreateTexture Scenario.depthArray 7, Scenario.d3d11) ∧
    (D3D12CreateTexture Scenario.depthArray 7).permits .depthStencil = true ∧
    (D3D12CreateTexture Scenario.depthArray 7).m_info.arraySize = 2 ∧
    (D3D12CreateTexture Scenario.depthArray 7).getSliceView .depthStencil 1 Scenario.d3d12 =
      (.error .outOfRange, D3D12CreateTexture Scenario.depthArray 7, Scenario.d3d12) :=
  ⟨by decide, by decide, by rfl, by decide, by decide, by rfl⟩

/-! ## C10: refused view kinds -/

/-- C10 fails on the code for per-slice depth-stencil views: on a two-slice colour texture
(no depth-stencil usage) the whole-texture request is refused with the capability error,
but the request for slice 0 indexes the empty `m_depthStencilSubView` before the flag is
looked at, on both backends.  (`D3D11Texture.create_request_refused` and
`D3D12Texture.create_request_refused_d3d12` show the claim for every other kind and
addressing.) -/
theorem C10_depth_stencil_slice_not_refused :
    (D3D11CreateTexture Scenario.colorArray 7).permits .depthStencil = false ∧
    (D3D11CreateTexture Scenario.colorArray 7).getView .depthStencil Scenario.d3d11 =
      (.error (D3D11Texture.capabilityError .depthStencil),
       D3D11CreateTexture Scenario.colorArray 7, Scenario.d3d11) ∧
    (D3D11CreateTexture Scenario.colorArray 7).getSliceView .depthStencil 0 Scenario.d3d11 =
      (.error .outOfRange, D3D11CreateTexture Scenario.colorArray 7, Scenario.d3d11) ∧
    LayerError.outOfRange ≠ D3D11Texture.capabilityError .depthStencil ∧
    (D3D12CreateTexture Scenario.colorArray 7).permits .depthStencil = false ∧
    (D3D12CreateTexture Scenario.colorArray 7).getSliceView .depthStencil 0 Scenario.d3d12 =
      (.error .outOfRange, D3D12CreateTexture Scenario.colorArray 7, Scenario.d3d12) ∧
    LayerError.outOfRange ≠ D3D12Texture.capabilityError .depthStencil :=
  ⟨by decide, by rfl, by rfl, by decide, by decide, by rfl, by decide⟩

/-! ## Single-precision rounding -/

namespace binary32

theorem floorLog2Aux_spec : ∀ (fuel n : Nat), 0 < n → n ≤ fuel →
    2 ^ floorLog2Aux fuel n ≤ n ∧ n < 2 ^ (floorLog2Aux fuel n + 1)
  | 0, n, hn, hf => by omega
  | fuel + 1, n, hn, hf => by
    unfold floorLog2Aux
    split
    · simp; omega
    · have ih := floorLog2Aux_spec fuel (n / 2) (by omega) (by omega)
      rw [pow_succ, pow_succ]
      omega

theorem floorLog2_spec (n : Nat) (hn : 0 < n) :
    2 ^ floorLog2 n ≤ n ∧ n < 2 ^ (floorLog2 n + 1) :=
  floorLog2Aux_spec n n hn (Nat.le_refl n)

/-- Rounding error: when `num / den` is at least `2^-105`, the rounded value differs from
`num / den` by at most the fraction `2^-24` of it. -/
theorem round_error (num den : Nat) (hden : 0 < den) (hq : 2 ^ 23 ≤ num * scale / den) :
    2 ^ 24 * (round num den * den) ≤ (2 ^ 24 + 1) * (num * scale) ∧
    (2 ^ 24 - 1) * (num * scale) ≤ 2 ^ 24 * (round num den * den) := by
  have hq0 : 0 < num * scale / den := by
    have : 0 < 2 ^ 23 := by norm_num
    omega
  obtain ⟨hlo, hhi⟩ := floorLog2_spec _ hq0
  have hL : 23 ≤ floorLog2 (num * scale / den) := by
    by_contra hcon
    have : floorLog2 (num * scale / den) + 1 ≤ 23 := by omega
    have := Nat.pow_le_pow_right (show 0 < 2 by norm_num) this
    omega
  have hu : 2 ^ 23 * 2 ^ (floorLog2 (num * scale / den) - 23) = 2 ^ floorLog2 (num * scale / den) := by
    rw [← pow_add]; congr 1; omega
  have hqd : den * (num * scale / den) ≤ num * scale := Nat.mul_div_le _ _
  unfold round
  simp only []
  generalize hN : num * scale = N at *
  generalize hU : 2 ^ (floorLog2 (N / den) - 23) = u at *
  have hM : 2 ^ 23 * (den * u) ≤ N := by
    calc 2 ^ 23 * (den * u) = den * (2 ^ 23 * u) := by ring
      _ = den * 2 ^ floorLog2 (N / den) := by rw [hu]
      _ ≤ den * (N / den) := Nat.mul_le_mul_left _ hlo
      _ ≤ N := hqd
  have hdm := Nat.div_add_mod N (den * u)
  have hupos : 0 < u := by rw [← hU]; positivity
  have hMpos : 0 < den * u := Nat.mul_pos hden hupos
  have hr := Nat.mod_lt N hMpos
  generalize hk : N / (den * u) = k at *
  generalize hrr : N % (den * u) = r at *
  generalize hMM : den * u = M at *
  split
  · rename_i hc
    have h2 : M ≤ 2 * r := by
      rcases hc with h | ⟨h, _⟩ <;> omega
    have he : (k + 1) * u * den = M * k + M := by rw [← hMM]; ring
    rw [he]
    omega
  · rename_i hc
    have h2 : 2 * r ≤ M := by
      by_contra hcon
      exact hc (Or.inl (by omega))
    have he : k * u * den = M * k := by rw [← hMM]; ring
    rw [he]
    omega


theorem ofNat_zero : ofNat 0 = 0 := by decide

/-- Integers below `2^24` convert to `float` exactly. -/
theorem ofNat_exact (n : Nat) (hn : 0 < n) (h24 : n < 2 ^ 24) : ofNat n = n * scale := by
  have hs : scale = 2 ^ 128 := rfl
  have hN0 : 0 < n * scale := Nat.mul_pos hn (by rw [hs]; positivity)
  obtain ⟨hlo, hhi⟩ := floorLog2_spec _ hN0
  have hL : floorLog2 (n * scale) ≤ 151 := by
    by_contra hcon
    have h1 : 152 ≤ floorLog2 (n * scale) := by omega
    have h2 := Nat.pow_le_pow_right (show 0 < 2 by norm_num) h1
    have h3 : n * scale < 2 ^ 152 := by
      rw [hs]
      calc n * 2 ^ 128 < 2 ^ 24 * 2 ^ 128 := by
            apply Nat.mul_lt_mul_of_pos_right h24; positivity
        _ = 2 ^ 152 := by norm_num
    omega
  have h128 : 2 ^ (floorLog2 (n * scale) - 23) ∣ 2 ^ 128 := Nat.pow_dvd_pow 2 (by omega)
  have hdvd : 2 ^ (floorLog2 (n * scale) - 23) ∣ n * scale := Dvd.dvd.mul_left h128 n
  have hupos : 0 < 2 ^ (floorLog2 (n * scale) - 23) := by positivity
  unfold ofNat round
  simp only [Nat.div_one, Nat.one_mul]
  rw [Nat.mod_eq_zero_of_dvd hdvd, if_neg, Nat.div_mul_cancel hdvd]
  rintro (h | ⟨h, _⟩) <;> omega


theorem round_zero (den : Nat) (hden : 0 < den) : round 0 den = 0 := by
  unfold round
  have h0 : floorLog2 0 = 0 := rfl
  simp only [Nat.zero_mul, Nat.zero_div, h0, Nat.zero_sub, pow_zero, Nat.mul_one, Nat.zero_mod,
    Nat.mul_zero]
  rw [if_neg]
  rintro (h | ⟨h, _⟩) <;> omega

/-- From `|p V - 100 d S| < S` to the integer part of `V / S`. -/
theorem trunc_of_bounds (S p d V T m r : Nat) (hp : 0 < p)
    (hup : p * V < 100 * d * S + S) (hlo : 100 * d * S < p * V + S)
    (hT1 : T * S ≤ V) (hT2 : V < (T + 1) * S)
    (hmod : p * m + r = 100 * d) (hr : r < p) :
    T = m ∨ (r = 0 ∧ T + 1 = m) := by
  have hTm : T ≤ m := by
    by_contra hcon
    have h5 : (m + 1) * S ≤ T * S := Nat.mul_le_mul_right _ (by omega)
    have h6 : p * ((m + 1) * S) ≤ p * V := Nat.mul_le_mul_left p (Nat.le_trans h5 hT1)
    have h7 : (100 * d + 1) * S ≤ (p * m + p) * S := Nat.mul_le_mul_right _ (by omega)
    have h8 : p * ((m + 1) * S) = (p * m + p) * S := by ring
    have h9 : (100 * d + 1) * S = 100 * d * S + S := by ring
    omega
  rcases Nat.eq_zero_or_pos r with hr0 | hrpos
  · have hge : m ≤ T + 1 := by
      by_contra hcon
      have h5 : (T + 1) * S + S ≤ m * S := by
        have : (T + 1 + 1) * S ≤ m * S := Nat.mul_le_mul_right _ (by omega)
        have h : (T + 1 + 1) * S = (T + 1) * S + S := by ring
        omega
      have h6 : p * V + p * S ≤ p * (m * S) := by
        have := Nat.mul_le_mul_left p (show V + S ≤ m * S by omega)
        have h : p * (V + S) = p * V + p * S := by ring
        omega
      have h7 : p * (m * S) = 100 * d * S := by
        have : p * m = 100 * d := by omega
        rw [← this]; ring
      have h8 : S ≤ p * S := Nat.le_mul_of_pos_left S hp
      omega
    rcases Nat.lt_or_ge T m with hlt | hge2
    · right; exact ⟨hr0, by omega⟩
    · left; omega
  · left
    have hge : m ≤ T := by
      by_contra hcon
      have h5 : (T + 1) * S ≤ m * S := Nat.mul_le_mul_right _ (by omega)
      have h6 : p * V < p * (m * S) :=
        Nat.mul_lt_mul_of_pos_left (Nat.lt_of_lt_of_le hT2 h5) hp
      have h7 : p * (m * S) + r * S = 100 * d * S := by
        rw [← hmod]; ring
      have h8 : S ≤ r * S := Nat.le_mul_of_pos_left S hrpos
      omega
    omega

/-- The integer part of the single-precision product `(100.0f / p) * d`, for a percentage
`p` between 100 and `2^24` and a dimension below `2^16`: it is `⌊100 d / p⌋`, or one less
when `p` divides `100 d`. -/
theorem toUInt32_scaled (p d : Nat) (hp : 100 < p) (hp24 : p < 2 ^ 24) (hd : d < 2 ^ 16) :
    toUInt32 (mul (div (ofNat 100) (ofNat p)) (ofNat d)) = 100 * d / p ∨
    (100 * d % p = 0 ∧
      toUInt32 (mul (div (ofNat 100) (ofNat p)) (ofNat d)) + 1 = 100 * d / p) := by
  have hs : scale = 2 ^ 128 := rfl
  have hSpos : 0 < scale := by rw [hs]; positivity
  rcases Nat.eq_zero_or_pos d with hd0 | hdpos
  · subst hd0
    left
    simp [ofNat_zero, mul, round_zero _ (Nat.mul_pos hSpos hSpos), toUInt32]
  rw [ofNat_exact 100 (by norm_num) (by norm_num), ofNat_exact p (by omega) hp24,
    ofNat_exact d hdpos (by omega)]
  unfold div mul toUInt32
  have hdenpos : 0 < p * scale := Nat.mul_pos (by omega) hSpos
  have hq1 : 2 ^ 23 ≤ 100 * scale * scale / (p * scale) := by
    rw [Nat.le_div_iff_mul_le hdenpos, hs]
    omega
  obtain ⟨e1u, e1l⟩ := round_error (100 * scale) (p * scale) hdenpos hq1
  generalize hQ : round (100 * scale) (p * scale) = Q at *
  have hQp : Q * p ≤ Q * 2 ^ 24 := Nat.mul_le_mul_left Q (by omega)
  have hQ23 : 2 ^ 23 ≤ Q := by
    rw [hs] at e1l
    have : 2 ^ 24 * (Q * (p * 2 ^ 128)) = 2 ^ 24 * 2 ^ 128 * (Q * p) := by ring
    rw [this] at e1l
    omega
  have hSSpos : 0 < scale * scale := Nat.mul_pos hSpos hSpos
  have hq2 : 2 ^ 23 ≤ Q * (d * scale) * scale / (scale * scale) := by
    rw [Nat.le_div_iff_mul_le hSSpos]
    have : Q * (d * scale) * scale = Q * d * (scale * scale) := by ring
    rw [this]
    apply Nat.mul_le_mul_right
    calc 2 ^ 23 ≤ Q := hQ23
      _ = Q * 1 := (Nat.mul_one Q).symm
      _ ≤ Q * d := Nat.mul_le_mul_left Q hdpos
  obtain ⟨e2u, e2l⟩ := round_error (Q * (d * scale)) (scale * scale) hSSpos hq2
  generalize hV : round (Q * (d * scale)) (scale * scale) = V at *
  -- bounds on p * V
  have h1 := Nat.mul_le_mul_left p e2u
  have h2 := Nat.mul_le_mul_left d e1u
  have h3 := Nat.mul_le_mul_left p e2l
  have h4 := Nat.mul_le_mul_left d e1l
  rw [hs] at h1 h2 h3 h4
  have hup : p * V < 100 * d * 2 ^ 128 + 2 ^ 128 := by
    norm_num at h1 h2 ⊢
    nlinarith [h1, h2]
  have hlo : 100 * d * 2 ^ 128 < p * V + 2 ^ 128 := by
    norm_num at h3 h4 ⊢
    nlinarith [h3, h4]
  have hmod := Nat.div_add_mod (100 * d) p
  have hr := Nat.mod_lt (100 * d) (show 0 < p by omega)
  have hT1 : V / scale * scale ≤ V := Nat.div_mul_le_self V _
  have hT2 : V < (V / scale + 1) * scale := by
    have := Nat.div_add_mod V scale
    have := Nat.mod_lt V hSpos
    have h : (V / scale + 1) * scale = scale * (V / scale) + scale := by ring
    omega
  rw [← hs] at hup hlo
  rcases trunc_of_bounds scale p d V (V / scale) (100 * d / p) (100 * d % p) (by omega)
    hup hlo hT1 hT2 hmod hr with h | ⟨h, h'⟩
  · exact Or.inl h
  · exact Or.inr ⟨h, h'⟩

end binary32

namespace graphics

/-- The `upscalingPercent > 100` branch for one dimension, for a percentage below `2^24`
and a dimension below `2^16`: the result is `t` rounded up to even, where `t` is
`⌊100 d / p⌋`, or one less when `p` divides `100 d`. -/
theorem scaledInputAbove100_spec (p : Int) (d : Nat) (hp : 100 < p) (hp24 : p < 2 ^ 24)
    (hd : d < 2 ^ 16) :
    ∃ t, scaledInputAbove100 p d = t + t % 2 ∧
      (t = 100 * d / p.toNat ∨ (100 * d % p.toNat = 0 ∧ t + 1 = 100 * d / p.toNat)) := by
  have hpn : 100 < p.toNat := by omega
  have hpn24 : p.toNat < 2 ^ 24 := by omega
  have key := binary32.toUInt32_scaled p.toNat d hpn hpn24 hd
  have hle : 100 * d / p.toNat ≤ d := by
    apply Nat.div_le_of_le_mul
    exact Nat.mul_le_mul_right d (by omega)
  refine ⟨_, ?_, key⟩
  unfold scaledInputAbove100
  simp only []
  generalize binary32.toUInt32 (binary32.mul (binary32.div (binary32.ofNat 100)
    (binary32.ofNat p.toNat)) (binary32.ofNat d)) = T at key ⊢
  have hT : T ≤ d := by rcases key with h | ⟨_, h⟩ <;> omega
  split <;> omega

end graphics

/-! ## C7: the input resolution above 100% -/

set_option maxRecDepth 10000 in
/-- C7, as stated, fails: at 144% an output dimension of 180 gives 124, while the integer
part of `(100/144) * 180 = 125` rounded up to even is 126 (the single-precision quotient
`100.0f / 144` lies below `100/144`, so the product falls just short of 125). -/
theorem C7_counterexample :
    GetFSRScaledResolution 144 180 180 = (124, 124) ∧
    100 * 180 / 144 = 125 ∧ 125 + 125 % 2 = 126 := by
  decide

/-- C7, amended: for a scaling percentage `100 < p < 2^24` and output dimensions below
`2^16`, `GetFSRScaledResolution` returns for each dimension `d` the number `t` rounded up
to the next even number, where `t` is the integer part of the single-precision product
`(100.0f / p) * d`: this is `⌊100 d / p⌋`, except that it can be one less when `p` divides
`100 d`. -/
theorem C7_scaled_resolution (p : Int) (w h : Nat) (hp : 100 < p) (hp24 : p < 2 ^ 24)
    (hw : w < 2 ^ 16) (hh : h < 2 ^ 16) :
    ∃ tw th, GetFSRScaledResolution p w h = (tw + tw % 2, th + th % 2) ∧
      (tw = 100 * w / p.toNat ∨ (100 * w % p.toNat = 0 ∧ tw + 1 = 100 * w / p.toNat)) ∧
      (th = 100 * h / p.toNat ∨ (100 * h % p.toNat = 0 ∧ th + 1 = 100 * h / p.toNat)) := by
  obtain ⟨tw, hw1, hw2⟩ := scaledInputAbove100_spec p w hp hp24 hw
  obtain ⟨th, hh1, hh2⟩ := scaledInputAbove100_spec p h hp hp24 hh
  refine ⟨tw, th, ?_, hw2, hh2⟩
  unfold GetFSRScaledResolution
  rw [if_pos hp, hw1, hh1]

/-- C7 amended at 150% and 2000x2000: `100 * 2000 / 150 = 1333` and 150 does not divide
200000, so the result is (1334, 1334). -/
theorem C7_scaled_resolution_witness :
    (100 : Int) < 150 ∧ (150 : Int) < 2 ^ 24 ∧ 2000 < 2 ^ 16 ∧
    GetFSRScaledResolution 150 2000 2000 = (1334, 1334) := by
  refine ⟨by decide, by decide, by decide, ?_⟩
  obtain ⟨tw, th, heq, hw, hh⟩ :=
    C7_scaled_resolution 150 2000 2000 (by decide) (by decide) (by decide) (by decide)
  have h1 : tw = 1333 := by
    rcases hw with h | ⟨h, _⟩
    · simpa using h
    · simp at h
  have h2 : th = 1333 := by
    rcases hh with h | ⟨h, _⟩
    · simpa using h
    · simp at h
  rw [heq, h1, h2]

/-! ## GPU timers -/

namespace graphics

namespace D3D11GpuTimer

/-- An invalid timer answers 0 whatever the GPU reports. -/
theorem query_invalid (t : D3D11GpuTimer) (reset : Bool) (gpu : D3D11TimestampData)
    (h : t.m_valid = false) : (t.query reset gpu).1 = some 0 := by
  simp [query, h]

/-- The first query after `query(true)` answers 0 whatever the GPU reports. -/
theorem query_after_reset (t : D3D11GpuTimer) (reset : Bool) (gpu gpu1 : D3D11TimestampData) :
    ((t.query true gpu).2.query reset gpu1).1 = some 0 := by
  simp [query]

/-- A query leaves the timer valid exactly when it was asked not to reset. -/
theorem query_valid (t : D3D11GpuTimer) (reset : Bool) (gpu : D3D11TimestampData) :
    (t.query reset gpu).2.m_valid = !reset := by
  simp [query]

/-- What a valid timer answers when all three results are available. -/
theorem query_available (t : D3D11GpuTimer) (reset : Bool) (gpu : D3D11TimestampData)
    (hv : t.m_valid = true) (hd : gpu.disjointOk = true) (hs : gpu.startOk = true)
    (he : gpu.endOk = true) :
    (t.query reset gpu).1 =
      if gpu.Disjoint then some 0
      else elapsedMicroseconds gpu.startime gpu.endtime gpu.Frequency := by
  cases hD : gpu.Disjoint <;> simp [query, hv, hd, hs, he, hD]

/-- After `stop()` the timer is valid. -/
theorem stop_valid (t t1 : D3D11GpuTimer) (NDEBUG : Bool) (c c1 : List D3D11Command)
    (h : t.stop NDEBUG c = some (t1, c1)) : t1.m_valid = true := by
  unfold stop at h
  split at h
  · cases h
  · cases h; rfl

end D3D11GpuTimer

end graphics

/-! ## C13: a timer that was never started -/

/-- C13: a timer that was never started answers 0.  The D3D11 timer as constructed
answers 0 to its first query whatever the reset flag and whatever `GetData` reports; any
D3D11 timer answers 0 when `GetData` has no result for the disjoint query (as for queries
that were never issued); the D3D12 timer answers 0 always. -/
theorem C13_never_started_query_zero :
    (∀ (dis start stop : Nat) (reset : Bool) (gpu : D3D11TimestampData),
      ((D3D11GpuTimer.create dis start stop).query reset gpu).1 = some 0) ∧
    (∀ (t : D3D11GpuTimer) (reset : Bool) (gpu : D3D11TimestampData),
      (t.query reset { gpu with disjointOk := false }).1 = some 0) ∧
    (∀ (t : D3D12GpuTimer) (reset : Bool), (t.query reset).1 = 0) := by
  refine ⟨?_, ?_, ?_⟩
  · intro dis start stop reset gpu
    exact D3D11GpuTimer.query_invalid _ reset gpu rfl
  · intro t reset gpu
    simp [D3D11GpuTimer.query]
  · intro t reset
    rfl

/-! ## C14: two queries without reset -/

set_option maxRecDepth 10000 in
/-- C14 fails as stated: after `start()`/`stop()` with results available, the D3D12 timer
answers 0 to `query(false)` (it is not implemented), and the D3D11 timer answers 0 for
an interval of 5 ticks at 10 MHz, which is less than a microsecond. -/
theorem C14_counterexample :
    (((D3D12GpuTimer.mk 0).start.stop.query false).1 = 0) ∧
    Scenario.stoppedTimer.m_valid = true ∧
    (Scenario.stoppedTimer.query false Scenario.shortSample).1 = some 0 := by
  refine ⟨rfl, rfl, ?_⟩
  decide

/-- C14, amended: on D3D11, after one `start()`/`stop()` pair whose three results are
available, `query(false)` leaves the timer as it is and answers the elapsed microseconds
computed from the timestamps (0 when the GPU flags them disjoint), so a second
`query(false)` with the same results answers the same; the value is not always non-zero.
On D3D12 both queries answer 0. -/
theorem C14_query_keeps_sample (t t1 t2 : D3D11GpuTimer) (NDEBUG : Bool)
    (c c1 c2 : List D3D11Command) (gpu : D3D11TimestampData)
    (hstart : t.start NDEBUG c = some (t1, c1)) (hstop : t1.stop NDEBUG c1 = some (t2, c2))
    (hd : gpu.disjointOk = true) (hs : gpu.startOk = true) (he : gpu.endOk = true) :
    t1 = t ∧ t2 = { t with m_valid := true } ∧
    (t2.query false gpu).1 =
      (if gpu.Disjoint then some 0
       else elapsedMicroseconds gpu.startime gpu.endtime gpu.Frequency) ∧
    (t2.query false gpu).2 = t2 ∧
    ((t2.query false gpu).2.query false gpu).1 = (t2.query false gpu).1 ∧
    (∀ (t12 : D3D12GpuTimer),
      (t12.start.stop.query false).1 = 0 ∧
      ((t12.start.stop.query false).2.query false).1 = 0) := by
  have hv : t2.m_valid = true := D3D11GpuTimer.stop_valid t1 t2 NDEBUG c1 c2 hstop
  have hsame : (t2.query false gpu).2 = t2 := by
    cases t2
    simp only [D3D11GpuTimer.query] at hv ⊢
    simp [hv]
  have ht1 : t1 = t := by
    unfold D3D11GpuTimer.start at hstart
    split at hstart
    · cases hstart
    · cases hstart; rfl
  have ht2 : t2 = { t with m_valid := true } := by
    subst ht1
    unfold D3D11GpuTimer.stop at hstop
    split at hstop
    · cases hstop
    · cases hstop; rfl
  refine ⟨ht1, ht2, D3D11GpuTimer.query_available t2 false gpu hv hd hs he, hsame, ?_, ?_⟩
  · rw [hsame]
  · intro t12
    exact ⟨rfl, rfl⟩

set_option maxRecDepth 10000 in
/-- C14 at a concrete input: 10000 ticks at 10 MHz are answered as 1000 microseconds,
twice. -/
theorem C14_query_keeps_sample_witness :
    elapsedMicroseconds 1000 11000 10000000 = some 1000 ∧
    (Scenario.stoppedTimer.query false Scenario.sample).1 =
      (if Scenario.sample.Disjoint then some 0
       else elapsedMicroseconds Scenario.sample.startime Scenario.sample.endtime
         Scenario.sample.Frequency) ∧
    ((Scenario.stoppedTimer.query false Scenario.sample).2.query false Scenario.sample).1 =
      (Scenario.stoppedTimer.query false Scenario.sample).1 :=
  have h := C14_query_keeps_sample Scenario.timer Scenario.timer Scenario.stoppedTimer false
    [] [.Begin 10, .End 11] [.Begin 10, .End 11, .End 12, .End 10] Scenario.sample
    rfl rfl rfl rfl rfl
  ⟨by decide, h.2.2.1, h.2.2.2.2.1⟩

/-! ## C15: queries after a reset -/

set_option maxRecDepth 10000 in
/-- C15 fails on the code: `query` ends with `m_valid = !reset`, so a `query(false)` marks
a timer valid that `query(true)` had invalidated.  After one `start()`/`stop()` pair,
`query(true)` answers the 1000 microseconds, the next `query(false)` answers 0, and the
`query(false)` after it answers the old 1000 microseconds again, with no `start()` or
`stop()` in between.  (`D3D11GpuTimer.query_after_reset` shows the claim for the first
query after `query(true)`.) -/
theorem C15_stale_sample_after_reset :
    (Scenario.stoppedTimer.query true Scenario.sample).1 = some 1000 ∧
    ((Scenario.stoppedTimer.query true Scenario.sample).2.query false Scenario.sample).1 =
      some 0 ∧
    (((Scenario.stoppedTimer.query true Scenario.sample).2.query false
      Scenario.sample).2.query false Scenario.sample).1 = some 1000 := by
  refine ⟨?_, ?_, ?_⟩ <;> decide

/-! ## C16: start on a started timer -/

/-- C16 fails as stated: on a timer that `start()` was just called on, a second `start()`
is accepted, in a build with assertions too, and issues `Begin`/`End` again. -/
theorem C16_counterexample :
    Scenario.timer.start false [] = some (Scenario.timer, [.Begin 10, .End 11]) ∧
    Scenario.timer.start false [.Begin 10, .End 11] =
      some (Scenario.timer, [.Begin 10, .End 11, .Begin 10, .End 11]) := by
  decide

/-- C16, amended: `start()` on a D3D11 timer is refused only by `assert(!m_valid)`, that
is in a build without `NDEBUG` and when `m_valid` is set (by `stop()`, or by a
`query(false)`); it does not change `m_valid`, so a `start()` that was accepted is
accepted again right after it and issues its two calls a second time.  `start()` on a
D3D12 timer does nothing. -/
theorem C16_start_assertion (t : D3D11GpuTimer) (NDEBUG : Bool) (c : List D3D11Command) :
    (t.start NDEBUG c = none ↔ (NDEBUG = false ∧ t.m_valid = true)) ∧
    (∀ (t1 : D3D11GpuTimer) (c1 : List D3D11Command), t.start NDEBUG c = some (t1, c1) →
      t1 = t ∧ c1 = c ++ [.Begin t.m_timeStampDis, .End t.m_timeStampStart] ∧
      t1.start NDEBUG c1 =
        some (t, c1 ++ [.Begin t.m_timeStampDis, .End t.m_timeStampStart])) ∧
    (∀ (t12 : D3D12GpuTimer), t12.start = t12) := by
  refine ⟨?_, ?_, fun _ => rfl⟩
  · cases NDEBUG <;> cases hv : t.m_valid <;> simp [D3D11GpuTimer.start, hv]
  · intro t1 c1 h
    cases NDEBUG <;> cases hv : t.m_valid <;> simp [D3D11GpuTimer.start, hv] at h ⊢ <;>
      (obtain ⟨rfl, rfl⟩ := h; simp [hv])

/-! ## C17: uploading to an immutable buffer -/

/-- C17 fails as stated on D3D11: a 16-byte buffer created immutable with initial data
refuses an upload of 8 bytes with the size error and an upload of 16 bytes with the failure
of `Map`; neither is an immutability error (the error of the D3D12 buffer), because
`D3D11Buffer::uploadData` has no test of its own for immutability.  Nothing is written in
either case. -/
theorem C17_counterexample :
    (D3D11CreateBuffer 16 (some [1, 2]) true 7).m_bufferDesc.Usage = D3D11_USAGE_IMMUTABLE ∧
    (D3D11CreateBuffer 16 (some [1, 2]) true 7).uploadData [3, 4] 8 true [] =
      (.error (.runtimeError "Upload size mismatch"), []) ∧
    LayerError.runtimeError "Upload size mismatch" ≠ D3D12Buffer.immutableError ∧
    (D3D11CreateBuffer 16 (some [1, 2]) true 7).uploadData [3, 4] 16 true [] =
      (.error (.hresult
        "context->Map(m_buffer.Get(), 0, D3D11_MAP_WRITE_DISCARD, 0, &mappedResources)"), []) ∧
    LayerError.hresult
        "context->Map(m_buffer.Get(), 0, D3D11_MAP_WRITE_DISCARD, 0, &mappedResources)" ≠
      D3D12Buffer.immutableError := by
  refine ⟨rfl, rfl, by decide, rfl, by decide⟩

/-- C17, amended: a D3D12 buffer created with `immutable = true` and initial data has no
upload buffer, and `uploadData` on it throws "Texture is immutable" and records nothing,
whatever the data and size.  A D3D11 buffer created that way is made with
`D3D11_USAGE_IMMUTABLE` and without CPU access, so Direct3D 11 accepts no write mapping of
it; every `uploadData` on it throws and records no call on the context (its contents are
not written), whatever the data, the size and the state of the device: "Upload size
mismatch" when the size differs from the buffer's, the failure of `Map` otherwise. -/
theorem C17_immutable_buffer_upload (size : Nat) (initialData data : List Nat) (count : Nat) :
    (∀ (d : D3D12Device) (context : List D3D12Command),
      (d.createBuffer size (some initialData) true).1.m_uploadBuffer = none ∧
      (d.createBuffer size (some initialData) true).1.uploadData data count context =
        (.error D3D12Buffer.immutableError, context)) ∧
    (∀ (buffer : Nat) (mapSucceeds : Bool) (context : List D3D11Command),
      (D3D11CreateBuffer size (some initialData) true buffer).m_bufferDesc =
        { ByteWidth := size % 2 ^ 32, Usage := D3D11_USAGE_IMMUTABLE,
          BindFlags := D3D11_BIND_CONSTANT_BUFFER, CPUAccessFlags := 0 } ∧
      (D3D11CreateBuffer size (some initialData) true buffer).m_bufferDesc.mapWriteDiscardAllowed
        = false ∧
      (D3D11CreateBuffer size (some initialData) true buffer).uploadData data count
          mapSucceeds context =
        if count ≠ size % 2 ^ 32 then (.error (.runtimeError "Upload size mismatch"), context)
        else
          (.error (.hresult
            "context->Map(m_buffer.Get(), 0, D3D11_MAP_WRITE_DISCARD, 0, &mappedResources)"),
           context)) := by
  refine ⟨?_, ?_⟩
  · intro d context
    simp [D3D12Device.createBuffer, D3D12Buffer.uploadData]
  · intro buffer mapSucceeds context
    have hmap : (D3D11CreateBuffer size (some initialData) true
        buffer).m_bufferDesc.mapWriteDiscardAllowed = false := by
      simp [D3D11CreateBuffer, D3D11BufferDesc, D3D11_BUFFER_DESC.mapWriteDiscardAllowed,
        D3D11_USAGE_IMMUTABLE, D3D11_USAGE_DYNAMIC]
    refine ⟨by simp [D3D11CreateBuffer, D3D11BufferDesc], hmap, ?_⟩
    unfold D3D11Buffer.uploadData
    rw [hmap]
    by_cases hc : count = size % 2 ^ 32
    · simp [D3D11CreateBuffer, D3D11BufferDesc, hc]
    · have hc1 : ¬ size % 2 ^ 32 = count := fun h => hc h.symm
      simp only [Nat.reducePow] at hc hc1
      simp [D3D11CreateBuffer, D3D11BufferDesc, hc, hc1]

/-! ## The D3D11 device without a current shader -/

namespace graphics

namespace D3D11Device

theorem create_noShader (highest : Nat × Nat × Nat) (slices : Int × Int) :
    (create highest slices).m_currentQuadShader = none ∧
    (create highest slices).m_currentComputeShader = none := ⟨rfl, rfl⟩

theorem setShaderInputBuffer_noShader (d : D3D11Device) (slot : Nat) (input : D3D11Buffer)
    (hq : d.m_currentQuadShader = none) (hc : d.m_currentComputeShader = none) :
    d.setShaderInputBuffer slot input = (.error noShaderIsSet, d) := by
  simp [setShaderInputBuffer, hq, hc]

theorem setShaderOutput_noShader (d : D3D11Device) (slot : Nat) (output : D3D11Texture)
    (slice : Int) (hq : d.m_currentQuadShader = none) (hc : d.m_currentComputeShader = none) :
    d.setShaderOutput slot output slice = (.error noShaderIsSet, d, output) := by
  simp [setShaderOutput, hq, hc]

theorem dispatchShader_noShader (d : D3D11Device) (doNotClear : Bool)
    (hq : d.m_currentQuadShader = none) (hc : d.m_currentComputeShader = none) :
    d.dispatchShader doNotClear = (.error noShaderIsSet, d) := by
  simp [dispatchShader, hq, hc]

/-- Without a current shader `setShaderInput` with a texture throws and issues nothing on
the context; what it throws is the error of the view getter when there is one, and "No
shader is set" otherwise. -/
theorem setShaderInput_noShader (d : D3D11Device) (slot : Nat) (input : D3D11Texture)
    (slice : Int) (hq : d.m_currentQuadShader = none) (hc : d.m_currentComputeShader = none) :
    (d.setShaderInput slot input slice).2.1.m_currentContext = d.m_currentContext ∧
    ((d.setShaderInput slot input slice).1 = .error noShaderIsSet ∨
     (d.setShaderInput slot input slice).1 =
       (.error (D3D11Texture.capabilityError .shaderInput)) ∨
     (d.setShaderInput slot input slice).1 = .error .outOfRange) := by
  unfold setShaderInput
  by_cases hs : slice = -1
  · simp only [hs, beq_self_eq_true, if_true]
    unfold D3D11Texture.getView D3D11Texture.getViewInternal
    cases hw : input.cache.whole .shaderInput with
    | some v => simp [hq, hc]
    | none =>
      cases hp : input.permits .shaderInput <;> simp [hq, hc]
  · have hs1 : (slice == -1) = false := by simpa using hs
    simp only [hs1]
    unfold D3D11Texture.getSliceView
    cases hg : (input.cache.sub .shaderInput)[sliceIndex slice]? with
    | none => simp
    | some cached =>
      unfold D3D11Texture.getViewInternal
      cases cached with
      | some v => simp [hq, hc]
      | none => cases hp : input.permits .shaderInput <;> simp [hq, hc]

/-- A dispatch that does not preserve the bindings leaves no shader current. -/
theorem dispatchShader_clears (d : D3D11Device)
    (h : (d.dispatchShader false).1 = .ok ()) :
    (d.dispatchShader false).2.m_currentQuadShader = none ∧
    (d.dispatchShader false).2.m_currentComputeShader = none := by
  unfold dispatchShader at h ⊢
  cases hq : d.m_currentQuadShader <;> cases hc : d.m_currentComputeShader <;>
    simp [hq, hc, unbindAll] at h ⊢

end D3D11Device

end graphics

/-! ## The D3D12 device without a current shader -/

namespace graphics

namespace D3D12Device

theorem create_noShader_d3d12 (rootSlot : Nat) (slices : Int × Int) :
    (create rootSlot slices).m_currentQuadShader = none ∧
    (create rootSlot slices).m_currentComputeShader = none := ⟨rfl, rfl⟩

theorem setShaderInput_noShader_d3d12 (d : D3D12Device) (slot : Nat) (input : D3D12Texture)
    (slice : Int) (hq : d.m_currentQuadShader = none) (hc : d.m_currentComputeShader = none) :
    d.setShaderInput slot input slice = (.error noShaderIsSet, d, input) := by
  simp [setShaderInput, currentShader, hq, hc]

theorem setShaderInputBuffer_noShader_d3d12 (d : D3D12Device) (slot : Nat)
    (input : D3D12Buffer) (hq : d.m_currentQuadShader = none)
    (hc : d.m_currentComputeShader = none) :
    d.setShaderInputBuffer slot input = (.error noShaderIsSet, d, input) := by
  simp [setShaderInputBuffer, currentShader, hq, hc]

theorem setShaderOutput_noShader_d3d12 (d : D3D12Device) (slot : Nat) (output : D3D12Texture)
    (slice : Int) (hq : d.m_currentQuadShader = none) (hc : d.m_currentComputeShader = none) :
    d.setShaderOutput slot output slice = (.error noShaderIsSet, d, output) := by
  simp [setShaderOutput, hq, hc]

theorem dispatchShader_noShader_d3d12 (d : D3D12Device) (doNotClear : Bool)
    (native : D3D12ResolveResults) (hq : d.m_currentQuadShader = none)
    (hc : d.m_currentComputeShader = none) :
    d.dispatchShader doNotClear native = (.error noShaderIsSet, d) := by
  simp [dispatchShader, currentShader, hq, hc]

/-- A dispatch that does not preserve the bindings leaves no shader current. -/
theorem dispatchShader_clears_d3d12 (d : D3D12Device) (native : D3D12ResolveResults)
    (h : (d.dispatchShader false native).1 = .ok ()) :
    (d.dispatchShader false native).2.m_currentQuadShader = none ∧
    (d.dispatchShader false native).2.m_currentComputeShader = none := by
  unfold dispatchShader at h ⊢
  cases hcur : d.currentShader with
  | none => simp [hcur] at h
  | some shader =>
    cases hs : d.shaders[shader]? with
    | none => simp [hcur, hs] at h
    | some s =>
      simp only [hcur, hs] at h ⊢
      cases hr : d.resolveIfNeeded shader s native with
      | mk r d1 =>
        cases r with
        | error e => simp [hr] at h
        | ok u => simp

end D3D12Device

end graphics

/-! ## C18: binding without a current shader -/

/-- C18 fails on the code of the D3D11 device: `setShaderInput` with a texture fetches the
shader input view before it looks at the shader members, so on a device as constructed
(no shader current) a texture created without sampled usage is answered with the
capability error of the view getter, not with "No shader is set".  The D3D12 device tests
the shader members first and throws "No shader is set" for the same call.  (The lemmas
`setShaderInput_noShader` to `dispatchShader_noShader_d3d12` show the claim for the other
functions and for textures whose view can be fetched.) -/
theorem C18_input_view_before_shader_check :
    Scenario.device11.m_currentQuadShader = none ∧
    Scenario.device11.m_currentComputeShader = none ∧
    Scenario.renderOnly11.permits .shaderInput = false ∧
    (Scenario.device11.setShaderInput 0 Scenario.renderOnly11 (-1)).1 =
      .error (D3D11Texture.capabilityError .shaderInput) ∧
    D3D11Texture.capabilityError .shaderInput ≠ D3D11Device.noShaderIsSet ∧
    (Scenario.device12.setShaderInput 0 Scenario.renderOnly12 (-1)).1 =
      .error D3D12Device.noShaderIsSet :=
  ⟨rfl, rfl, by decide, by rfl, by decide, by rfl⟩

/-! ## What a D3D11 dispatch unbinds -/

namespace graphics

theorem boundAt_append (array? : D3D11Command → Option (Nat × List (Option Nat)))
    (context : List D3D11Command) (call : D3D11Command) (slot : Nat) :
    boundAt array? (context ++ [call]) slot =
      match array? call with
      | some (start, views) =>
        if start ≤ slot ∧ slot < start + views.length then (views[slot - start]?).join
        else boundAt array? context slot
      | none => boundAt array? context slot := by
  simp only [boundAt, List.foldl_append, List.foldl_cons, List.foldl_nil]

theorem boundRenderTarget_append (context : List D3D11Command) (call : D3D11Command)
    (slot : Nat) :
    boundRenderTarget (context ++ [call]) slot =
      match call with
      | .OMSetRenderTargets views _ => (views[slot]?).join
      | _ => boundRenderTarget context slot := by
  simp only [boundRenderTarget, List.foldl_append, List.foldl_cons, List.foldl_nil]

theorem append_three {α : Type} (l : List α) (a b c : α) :
    l ++ [a, b, c] = ((l ++ [a]) ++ [b]) ++ [c] := by simp

theorem join_replicate_none (n i : Nat) :
    ((List.replicate n (none : Option Nat))[i]?).join = none := by
  cases h : (List.replicate n (none : Option Nat))[i]? with
  | none => rfl
  | some v =>
    have := List.getElem?_mem h
    rw [List.mem_replicate] at this
    rw [this.2]; rfl

namespace D3D11Device

/-- The calls a dispatch without `doNotClear` issues after the draw. -/
theorem unbindAll_context (d : D3D11Device) :
    d.unbindAll.m_currentContext = d.m_currentContext ++
      [.OMSetRenderTargets (List.replicate ((d.m_currentShaderHighestRTV + 1) % 2 ^ 32) none) none,
       (if d.m_currentQuadShader.isSome then
          .PSSetShaderResources 0 (List.replicate ((d.m_currentShaderHighestSRV + 1) % 2 ^ 32) none)
        else
          .CSSetShaderResources 0 (List.replicate ((d.m_currentShaderHighestSRV + 1) % 2 ^ 32) none)),
       .CSSetUnorderedAccessViews 0 [none]] := by
  cases hq : d.m_currentQuadShader <;> simp [unbindAll, issue, hq]

/-- With `doNotClear` the dispatch issues the draw and changes nothing else: the current
shader and the three tracked slots stay. -/
theorem dispatchShader_preserve (d : D3D11Device)
    (h : d.m_currentQuadShader.isSome ∨ d.m_currentComputeShader.isSome) :
    d.dispatchShader true = (.ok (), d.issue [d.drawCall]) := by
  unfold dispatchShader drawCall
  cases hq : d.m_currentQuadShader <;> cases hc : d.m_currentComputeShader <;>
    simp [hq, hc] at h ⊢

/-- Without `doNotClear` the dispatch issues the draw and the unbinding calls. -/
theorem dispatchShader_unbind (d : D3D11Device)
    (h : d.m_currentQuadShader.isSome ∨ d.m_currentComputeShader.isSome) :
    d.dispatchShader false = (.ok (), (d.issue [d.drawCall]).unbindAll) := by
  unfold dispatchShader drawCall
  cases hq : d.m_currentQuadShader <;> cases hc : d.m_currentComputeShader <;>
    simp [hq, hc] at h ⊢

end D3D11Device

end graphics

namespace graphics

namespace D3D11Device

/-- What is bound after a dispatch without `doNotClear`: no shader is current, no render
target is bound, the shader resource slots up to the highest one tracked are empty, and
unordered access slot 0 is empty; the unordered access slots above 0 hold what they held
before the dispatch. -/
theorem dispatchShader_unbound (d : D3D11Device)
    (h : d.m_currentQuadShader.isSome ∨ d.m_currentComputeShader.isSome) :
    (d.dispatchShader false).2.m_currentQuadShader = none ∧
    (d.dispatchShader false).2.m_currentComputeShader = none ∧
    (∀ slot, boundRenderTarget (d.dispatchShader false).2.m_currentContext slot = none) ∧
    (∀ slot, slot < (d.m_currentShaderHighestSRV + 1) % 2 ^ 32 →
      (if d.m_currentQuadShader.isSome then
         boundPSShaderResource (d.dispatchShader false).2.m_currentContext slot
       else boundCSShaderResource (d.dispatchShader false).2.m_currentContext slot) = none) ∧
    boundUnorderedAccessView (d.dispatchShader false).2.m_currentContext 0 = none ∧
    (∀ slot, 0 < slot →
      boundUnorderedAccessView (d.dispatchShader false).2.m_currentContext slot =
        boundUnorderedAccessView d.m_currentContext slot) := by
  rw [dispatchShader_unbind d h]
  cases hq : d.m_currentQuadShader with
  | some q =>
    refine ⟨?_, ?_, ?_, ?_, ?_, ?_⟩
    · simp [unbindAll]
    · simp [unbindAll]
    · intro slot
      simp [unbindAll, issue, drawCall, hq, boundRenderTarget, List.foldl_append,
        join_replicate_none]
      intro a ha
      exact (List.mem_replicate.1 (List.getElem?_mem ha)).2
    · intro slot hslot
      simp only [Nat.reducePow] at hslot
      simp [unbindAll, issue, drawCall, hq, boundPSShaderResource, boundAt, List.foldl_append,
        join_replicate_none, hslot]
    · simp [unbindAll, issue, drawCall, hq, boundUnorderedAccessView, boundAt, List.foldl_append]
    · intro slot hslot
      have hne : ¬ slot = 0 := by omega
      simp [unbindAll, issue, drawCall, hq, boundUnorderedAccessView, boundAt, List.foldl_append,
        hne]
  | none =>
    cases hc : d.m_currentComputeShader with
    | none => simp [hq, hc] at h
    | some c =>
      refine ⟨?_, ?_, ?_, ?_, ?_, ?_⟩
      · simp [unbindAll]
      · simp [unbindAll]
      · intro slot
        simp [unbindAll, issue, drawCall, hq, hc, boundRenderTarget, List.foldl_append,
          join_replicate_none]
        intro a ha
        exact (List.mem_replicate.1 (List.getElem?_mem ha)).2
      · intro slot hslot
        simp only [Nat.reducePow] at hslot
        simp [unbindAll, issue, drawCall, hq, hc, boundCSShaderResource, boundAt,
          List.foldl_append, join_replicate_none, hslot]
      · simp [unbindAll, issue, drawCall, hq, hc, boundUnorderedAccessView, boundAt,
          List.foldl_append]
      · intro slot hslot
        have hne : ¬ slot = 0 := by omega
        simp [unbindAll, issue, drawCall, hq, hc, boundUnorderedAccessView, boundAt,
          List.foldl_append, hne]

end D3D11Device

end graphics

/-! ## C19: what a D3D11 dispatch unbinds -/

/-- C19 fails on the code: in `dispatchShader` the loop that fills the vector of null
unordered access views runs to `m_currentShaderHighestRTV + 1`, a member already set to 0,
instead of `m_currentShaderHighestUAV + 1`, so only slot 0 is unbound.  With a compute
shader whose outputs are bound to slots 0 and 1 (highest slot tracked: 1), after
`dispatchShader(false)` slot 0 is empty and slot 1 still holds its view.
(`D3D11Device.dispatchShader_unbound` and `D3D11Device.dispatchShader_preserve` show the
rest of the claim.) -/
theorem C19_unordered_access_slot_left_bound :
    Scenario.outputsBound11.m_currentComputeShader = some Scenario.computeShader11 ∧
    Scenario.outputsBound11.m_currentShaderHighestUAV = 1 ∧
    boundUnorderedAccessView Scenario.outputsBound11.m_currentContext 0 = some 0 ∧
    boundUnorderedAccessView Scenario.outputsBound11.m_currentContext 1 = some 1 ∧
    (Scenario.outputsBound11.dispatchShader false).1 = .ok () ∧
    (Scenario.outputsBound11.dispatchShader false).2.m_currentComputeShader = none ∧
    boundUnorderedAccessView
      (Scenario.outputsBound11.dispatchShader false).2.m_currentContext 0 = none ∧
    boundUnorderedAccessView
      (Scenario.outputsBound11.dispatchShader false).2.m_currentContext 1 = some 1 :=
  ⟨by decide, by decide, by decide, by decide, by rfl, by decide, by decide, by decide⟩

/-! ## The frame handed to the runtime -/

namespace OpenXrLayer

theorem processEye_ok (s : OpenXrLayer) (view v : XrCompositionLayerProjectionView)
    (useVPRT : Bool) (eye : Nat) (t : ITexture) (c : List StageCall)
    (h : s.processEye view useVPRT eye = .ok (v, t, c)) : v = s.patchView view := by
  unfold processEye at h
  cases hf : s.findSwapchain view.subImage.swapchain with
  | none => simp [hf, throw, throwThe, MonadExceptOf.throw] at h
  | some st =>
    cases ha : st.images[st.acquiredImageIndex]? with
    | none => simp [hf, ha, throw, throwThe, MonadExceptOf.throw] at h
    | some im =>
      cases hw : firstFault (s.walkChain im useVPRT eye).calls with
      | some e => simp [hf, ha, hw, throw, throwThe, MonadExceptOf.throw] at h
      | none =>
        cases hl : im.chain.getLast? with
        | none =>
          by_cases hc :
            ((s.walkChain im useVPRT eye).nextImage != chainSizeMinusOne im.chain) = true
            <;> simp [hf, ha, hw, hl, hc, throw, throwThe, MonadExceptOf.throw] at h
        | some back =>
          by_cases hc :
            ((s.walkChain im useVPRT eye).nextImage != chainSizeMinusOne im.chain) = true
          · simp [hf, ha, hw, hl, hc, throw, throwThe, MonadExceptOf.throw] at h
          · simp [hf, ha, hw, hl, hc, pure, Except.pure] at h
            exact h.1.symm

theorem processProjection_ok (s : OpenXrLayer) (layerFlags space viewCount : Nat)
    (views : List XrCompositionLayerProjectionView) (layer : XrCompositionLayer)
    (textures : List ITexture) (calls : List StageCall)
    (h : s.processProjection layerFlags space viewCount views = .ok (layer, textures, calls)) :
    ∃ view0 view1, views[0]? = some view0 ∧ views[1]? = some view1 ∧
      layer = .projection layerFlags space viewCount [s.patchView view0, s.patchView view1] := by
  unfold processProjection at h
  split at h
  · rename_i view0 view1 h0 h1
    refine ⟨view0, view1, h0, h1, ?_⟩
    cases hr0 : s.processEye view0 (view0.subImage.swapchain == view1.subImage.swapchain) 0 with
    | error e => simp [hr0, bind, Except.bind] at h
    | ok r0 =>
      cases hr1 : s.processEye view1 (view0.subImage.swapchain == view1.subImage.swapchain) 1 with
      | error e => simp [hr0, hr1, bind, Except.bind] at h
      | ok r1 =>
        obtain ⟨v0, t0, c0⟩ := r0
        obtain ⟨v1, t1, c1⟩ := r1
        have e0 := processEye_ok s view0 v0 _ 0 t0 c0 hr0
        have e1 := processEye_ok s view1 v1 _ 1 t1 c1 hr1
        simp [hr0, hr1, bind, Except.bind, pure, Except.pure] at h
        rw [← h.1, e0, e1]
  · cases h

/-- What `processLayers` hands on for the layer at position `i`. -/
theorem processLayers_ok (s : OpenXrLayer) :
    ∀ (layers : List XrCompositionLayer) (overlay : List (Option ITexture))
      (corrected : List XrCompositionLayer) (overlay1 : List (Option ITexture))
      (calls : List StageCall),
      s.processLayers layers overlay = .ok (corrected, overlay1, calls) →
      corrected.length = layers.length ∧
      ∀ (i : Nat) (layer : XrCompositionLayer), layers[i]? = some layer →
        match layer with
        | .other type payload => corrected[i]? = some (.other type payload)
        | .projection layerFlags space viewCount views =>
          ∃ view0 view1, views[0]? = some view0 ∧ views[1]? = some view1 ∧
            corrected[i]? = some
              (.projection layerFlags space viewCount [s.patchView view0, s.patchView view1])
  | [], overlay, corrected, overlay1, calls, h => by
    simp only [processLayers, pure, Except.pure] at h
    cases h
    exact ⟨rfl, by intro i layer hi; simp at hi⟩
  | .other type payload :: rest, overlay, corrected, overlay1, calls, h => by
    cases hr : s.processLayers rest overlay with
    | error e => simp [processLayers, bind, Except.bind, hr] at h
    | ok r =>
      obtain ⟨more, overlay2, moreCalls⟩ := r
      simp [processLayers, bind, Except.bind, hr, pure, Except.pure] at h
      obtain ⟨hlen, hat⟩ := processLayers_ok s rest overlay more overlay2 moreCalls hr
      obtain ⟨rfl, -, -⟩ := h
      refine ⟨by simp [hlen], ?_⟩
      intro i layer hi
      cases i with
      | zero =>
        simp at hi
        subst hi
        simp
      | succ j =>
        simp at hi
        have := hat j layer hi
        simpa using this
  | .projection lf sp vc vs :: rest, overlay, corrected, overlay1, calls, h => by
    cases hp : s.processProjection lf sp vc vs with
    | error e => simp [processLayers, bind, Except.bind, hp] at h
    | ok p =>
      obtain ⟨layer0, textures, calls0⟩ := p
      cases hr : s.processLayers rest (textures.map some) with
      | error e => simp [processLayers, bind, Except.bind, hp, hr] at h
      | ok r =>
        obtain ⟨more, overlay2, moreCalls⟩ := r
        simp [processLayers, bind, Except.bind, hp, hr, pure, Except.pure] at h
        obtain ⟨hlen, hat⟩ := processLayers_ok s rest _ more overlay2 moreCalls hr
        obtain ⟨view0, view1, h0, h1, hl⟩ := processProjection_ok s lf sp vc vs layer0 textures
          calls0 hp
        obtain ⟨rfl, -, -⟩ := h
        refine ⟨by simp [hlen], ?_⟩
        intro i layer hi
        cases i with
        | zero =>
          simp at hi
          subst hi
          exact ⟨view0, view1, h0, h1, by simp [hl]⟩
        | succ j =>
          simp at hi
          have := hat j layer hi
          simpa using this

/-- What `patchView` changes: the extent becomes the display size (as `int32_t`), the
angles are scaled when the FOV setting is above 100, and nothing else. -/
theorem patchView_fields (s : OpenXrLayer) (view : XrCompositionLayerProjectionView) :
    (s.patchView view).pose = view.pose ∧
    (s.patchView view).subImage.swapchain = view.subImage.swapchain ∧
    (s.patchView view).subImage.imageRect.offset = view.subImage.imageRect.offset ∧
    (s.patchView view).subImage.imageArrayIndex = view.subImage.imageArrayIndex ∧
    (s.patchView view).subImage.imageRect.extent =
      { width := toInt32 s.m_displayWidth, height := toInt32 s.m_displayHeight } ∧
    (s.m_configManager.SettingFOV ≤ 100 → (s.patchView view).fov = view.fov) ∧
    (100 < s.m_configManager.SettingFOV → (s.patchView view).fov =
      { angleUp := .scaled view.fov.angleUp s.m_configManager.SettingFOV,
        angleDown := .scaled view.fov.angleDown s.m_configManager.SettingFOV,
        angleLeft := .scaled view.fov.angleLeft s.m_configManager.SettingFOV,
        angleRight := .scaled view.fov.angleRight s.m_configManager.SettingFOV }) := by
  unfold patchView
  by_cases hf : s.m_configManager.SettingFOV > 100
  · simp [hf]
  · have hle : s.m_configManager.SettingFOV ≤ 100 := by omega
    simp [hf, hle]

theorem toInt32_small (n : Nat) (h : n < 2 ^ 31) : toInt32 n = (n : Int) := by
  unfold toInt32
  have h1 : n % 2 ^ 32 = n := Nat.mod_eq_of_lt (by omega)
  rw [h1, if_pos h]

end OpenXrLayer

/-! ## C20: the frame handed to the runtime -/

/-- C20 fails as stated: a session created without a D3D11 or D3D12 binding is still the
VR session, and `xrEndFrame` then hands the frame on as it is; the extent of the views
stays 1334x1334 on a 2000x2000 display. -/
theorem C20_counterexample :
    Scenario.sessionWithoutDevice.isVrSession 5 = true ∧
    Scenario.sessionWithoutDevice.m_graphicsDevice = none ∧
    Scenario.sessionWithoutDevice.m_displayWidth = 2000 ∧
    Scenario.sessionWithoutDevice.xrEndFrame 5 Scenario.frame (fun _ => XR_SUCCESS) =
      .ok { layer := Scenario.sessionWithoutDevice, forwarded := Scenario.frame,
            result := XR_SUCCESS, calls := [], textureForOverlay := [none, none] } ∧
    (Scenario.view 42).subImage.imageRect.extent = { width := 1334, height := 1334 } :=
  ⟨by decide, by decide, by decide, by rfl, by decide⟩

/-- C20, amended: when `xrEndFrame` is called on the VR session and the layer holds a
graphics device, the frame handed to the runtime has the application's display time, blend
mode and number of layers; a layer of another type is handed on as it is, at its position;
a projection layer is handed on at its position with its first two views patched; a
patched view keeps pose, swapchain, offset and array index, has the display size as extent
and keeps its angles when the FOV setting is at most 100. -/
theorem C20_forwarded_frame (s : OpenXrLayer) (session : Nat) (frameEndInfo : XrFrameEndInfo)
    (runtimeResult : XrFrameEndInfo → Int) (out : EndFrameOutcome)
    (hvr : s.isVrSession session = true) (hdev : s.m_graphicsDevice.isSome = true)
    (h : s.xrEndFrame session frameEndInfo runtimeResult = .ok out) :
    out.forwarded.displayTime = frameEndInfo.displayTime ∧
    out.forwarded.environmentBlendMode = frameEndInfo.environmentBlendMode ∧
    out.forwarded.layers.length = frameEndInfo.layers.length ∧
    out.result = runtimeResult out.forwarded ∧
    (∀ (i : Nat) (layer : XrCompositionLayer), frameEndInfo.layers[i]? = some layer →
      match layer with
      | .other type payload => out.forwarded.layers[i]? = some (.other type payload)
      | .projection layerFlags space viewCount views =>
        ∃ view0 view1, views[0]? = some view0 ∧ views[1]? = some view1 ∧
          out.forwarded.layers[i]? = some
            (.projection layerFlags space viewCount [s.patchView view0, s.patchView view1])) ∧
    (∀ (view : XrCompositionLayerProjectionView),
      (s.patchView view).pose = view.pose ∧
      (s.patchView view).subImage.swapchain = view.subImage.swapchain ∧
      (s.patchView view).subImage.imageRect.offset = view.subImage.imageRect.offset ∧
      (s.patchView view).subImage.imageArrayIndex = view.subImage.imageArrayIndex ∧
      (s.patchView view).subImage.imageRect.extent =
        { width := toInt32 s.m_displayWidth, height := toInt32 s.m_displayHeight } ∧
      (s.m_configManager.SettingFOV ≤ 100 → (s.patchView view).fov = view.fov)) := by
  have hnone : s.m_graphicsDevice.isNone = false := by
    cases hd : s.m_graphicsDevice <;> simp [hd] at hdev ⊢
  unfold OpenXrLayer.xrEndFrame at h
  simp only [hvr, hnone, Bool.not_true, Bool.or_self, Bool.false_eq_true, if_false] at h
  cases hp : s.processLayers frameEndInfo.layers (List.replicate ViewCount none) with
  | error e => simp [hp, bind, Except.bind] at h
  | ok r =>
    obtain ⟨corrected, overlay, calls⟩ := r
    simp only [hp, bind, Except.bind, pure, Except.pure] at h
    cases h
    obtain ⟨hlen, hat⟩ := OpenXrLayer.processLayers_ok s _ _ corrected overlay calls hp
    refine ⟨rfl, rfl, hlen, rfl, hat, ?_⟩
    intro view
    have hf := OpenXrLayer.patchView_fields s view
    exact ⟨hf.1, hf.2.1, hf.2.2.1, hf.2.2.2.1, hf.2.2.2.2.1, hf.2.2.2.2.2.1⟩

/-- C20 at a concrete input: with the two-slice swapchain 42 registered in the session
with FSR at 150%, `xrEndFrame` returns for the frame of `Scenario.frame` (both eyes find
their timers), and the frame is handed on with both views at 2000x2000 and everything else
as it was. -/
theorem C20_forwarded_frame_witness :
    Scenario.createdArray150.layer.xrEndFrame 5 Scenario.frame (fun _ => XR_SUCCESS) =
      .ok Scenario.endFrame150 ∧
    Scenario.endFrame150.calls.length = 4 ∧
    (∀ c ∈ Scenario.endFrame150.calls, c.fault = none) ∧
    Scenario.endFrame150.forwarded.layers.length = Scenario.frame.layers.length ∧
    Scenario.endFrame150.forwarded.layers =
      [.other 3 9,
       .projection 0 0 2
         [{ Scenario.view 42 with subImage := { (Scenario.view 42).subImage with
              imageRect := { offset := { x := 0, y := 0 },
                             extent := { width := 2000, height := 2000 } } } },
          { Scenario.view 42 with subImage := { (Scenario.view 42).subImage with
              imageRect := { offset := { x := 0, y := 0 },
                             extent := { width := 2000, height := 2000 } } } }]] :=
  ⟨by rfl, by decide, by decide,
   (C20_forwarded_frame Scenario.createdArray150.layer 5 Scenario.frame (fun _ => XR_SUCCESS)
      Scenario.endFrame150 (by decide) (by decide) (by rfl)).2.2.1, by decide⟩

/-! ## Deferred resolution of D3D12 shaders -/

namespace graphics

namespace D3D12Device

/-- Replacing a shader object by one with the same `needsResolve()` changes the answer
of `needsResolve()` for no object. -/
theorem map_set_needsResolve (l : List D3D12Shader) (i j : Nat) (s s1 : D3D12Shader)
    (hs : l[i]? = some s) (h : s1.needsResolve = s.needsResolve) :
    ((l.set i s1)[j]?).map D3D12Shader.needsResolve = (l[j]?).map D3D12Shader.needsResolve := by
  simp only [List.getElem?_set]
  by_cases hij : i = j
  · subst hij
    have hlt : i < l.length := by
      by_contra hcon
      rw [List.getElem?_eq_none (by omega)] at hs
      cases hs
    simp [hlt, hs, h]
  · simp [hij]

theorem needsResolve_updateShader (d : D3D12Device) (i j : Nat)
    (f : D3D12Shader → D3D12Shader) (hf : ∀ s, (f s).needsResolve = s.needsResolve) :
    (d.updateShader i f).needsResolve j = d.needsResolve j := by
  unfold updateShader
  cases hs : d.shaders[i]? with
  | none => rfl
  | some s => exact map_set_needsResolve d.shaders i j s (f s) hs (hf s)

theorem needsResolve_setShader (d : D3D12Device) (compute : Bool) (shader j : Nat) :
    (d.setShader compute shader).2.needsResolve j = d.needsResolve j := by
  unfold setShader
  cases hs : d.shaders[shader]? with
  | none => rfl
  | some s =>
    simp only []
    split
    · rfl
    · cases hn : s.needsResolve <;> cases compute <;>
        simp only [Bool.not_true, Bool.not_false, Bool.false_eq_true, if_false, if_true,
          needsResolve, updateShader, issue, nextRootSlot, hs]
      all_goals first
        | rfl
        | exact map_set_needsResolve d.shaders shader j s _ hs rfl

theorem needsResolve_bindOrRegister (d : D3D12Device) (shader j : Nat)
    (rangeType : D3D12_DESCRIPTOR_RANGE_TYPE) (slot handle : Nat) :
    (d.bindOrRegister shader rangeType slot handle).2.needsResolve j = d.needsResolve j := by
  unfold bindOrRegister
  cases hs : d.shaders[shader]? with
  | none => rfl
  | some s =>
    simp only []
    cases hn : s.needsResolve <;> cases hc : d.m_currentComputeShader.isSome <;>
      simp only [Bool.not_true, Bool.not_false, Bool.false_eq_true, if_false, if_true,
        needsResolve, updateShader, issue, nextRootSlot, hs]
    all_goals first
      | rfl
      | exact map_set_needsResolve d.shaders shader j s _ hs rfl

end D3D12Device

end graphics

namespace graphics

namespace D3D12Device

theorem needsResolve_setShaderInput (d : D3D12Device) (slot : Nat) (input : D3D12Texture)
    (slice : Int) (j : Nat) :
    (d.setShaderInput slot input slice).2.1.needsResolve j = d.needsResolve j := by
  unfold setShaderInput
  cases hcur : d.currentShader with
  | none => rfl
  | some shader =>
    simp only []
    generalize hview : (if (slice == -1) = true then input.getView .shaderInput d.descriptors
      else input.getSliceView .shaderInput (sliceIndex slice) d.descriptors) = got
    obtain ⟨r, input1, descriptors1⟩ := got
    cases r with
    | error e => rfl
    | ok view =>
      simp only []
      rw [needsResolve_bindOrRegister]
      rfl

theorem needsResolve_setShaderInputBuffer (d : D3D12Device) (slot : Nat) (input : D3D12Buffer)
    (j : Nat) :
    (d.setShaderInputBuffer slot input).2.1.needsResolve j = d.needsResolve j := by
  unfold setShaderInputBuffer
  cases hcur : d.currentShader with
  | none => rfl
  | some shader =>
    simp only []
    rw [needsResolve_bindOrRegister]
    rfl

theorem needsResolve_setRenderTarget (d : D3D12Device) (renderTarget : D3D12Texture)
    (slice : Int) (j : Nat) :
    (d.setRenderTarget renderTarget slice).2.1.needsResolve j = d.needsResolve j := by
  unfold setRenderTarget
  generalize hview : (if (slice == -1) = true then renderTarget.getView .renderTarget d.descriptors
    else renderTarget.getSliceView .renderTarget (sliceIndex slice) d.descriptors) = got
  obtain ⟨r, renderTarget1, descriptors1⟩ := got
  cases r with
  | error e => rfl
  | ok view => rfl

theorem needsResolve_setShaderOutput (d : D3D12Device) (slot : Nat) (output : D3D12Texture)
    (slice : Int) (j : Nat) :
    (d.setShaderOutput slot output slice).2.1.needsResolve j = d.needsResolve j := by
  unfold setShaderOutput
  cases hq : d.m_currentQuadShader with
  | some shader =>
    simp only []
    split
    · rfl
    · have hrt := needsResolve_setRenderTarget d output slice j
      generalize d.setRenderTarget output slice = got at hrt ⊢
      obtain ⟨r, d1, output1⟩ := got
      cases r with
      | error e => exact hrt
      | ok u =>
        simp only [] at hrt ⊢
        cases hs : d1.shaders[shader]? with
        | none => exact hrt
        | some s =>
          simp only []
          split
          · rw [needsResolve_updateShader d1 shader j
              (fun sh => sh.setOutputFormat output.m_info) (fun _ => rfl)]
            exact hrt
          · exact hrt
  | none =>
    cases hc : d.m_currentComputeShader with
    | none => rfl
    | some shader =>
      simp only []
      generalize hview : (if (slice == -1) = true then
          output.getView .computeShaderOutput d.descriptors
        else output.getSliceView .computeShaderOutput (sliceIndex slice) d.descriptors) = got
      obtain ⟨r, output1, descriptors1⟩ := got
      cases r with
      | error e => rfl
      | ok view =>
        simp only []
        rw [needsResolve_bindOrRegister]
        rfl

theorem needsResolve_flushContext (d : D3D12Device) (blocking : Bool) (j : Nat) :
    (d.flushContext blocking).needsResolve j = d.needsResolve j := rfl

end D3D12Device

end graphics

namespace graphics

namespace D3D12Shader

theorem resolveRootSignature_pipelineState (s : D3D12Shader) (native : D3D12ResolveResults)
    (objects : Nat) :
    (s.resolveRootSignature native objects).2.1.m_pipelineState = s.m_pipelineState ∧
    (s.resolveRootSignature native objects).2.1.compute = s.compute := by
  unfold resolveRootSignature
  cases native.D3D12SerializeRootSignature <;> cases native.CreateRootSignature <;> simp

/-- A `resolve()` that returns leaves a pipeline state; one that throws leaves the shader
unresolved if it was unresolved. -/
theorem resolve_needsResolve (s : D3D12Shader) (native : D3D12ResolveResults) (objects : Nat) :
    ((s.resolve native objects).1 = .ok () → (s.resolve native objects).2.1.needsResolve = false) ∧
    ((∃ e, (s.resolve native objects).1 = .error e) → s.needsResolve = true →
      (s.resolve native objects).2.1.needsResolve = true) := by
  have hp := (resolveRootSignature_pipelineState s native objects).1
  unfold resolve resolveQuad resolveCompute
  generalize s.resolveRootSignature native objects = got at hp ⊢
  obtain ⟨r, s1, n1⟩ := got
  simp only [] at hp
  cases r with
  | error e =>
    cases s.compute <;> simp [needsResolve, hp]
  | ok rootSignature =>
    cases s.compute <;> cases native.CreatePipelineState <;>
      cases native.CheckFeatureSupport <;>
      by_cases hsc : s1.m_outputInfo.sampleCount > 1 <;>
      simp [needsResolve, hp, hsc]

end D3D12Shader

namespace D3D12Device

/-- The answer of `needsResolve()` for every shader object after `resolveIfNeeded` on the
object `shader`. -/
theorem needsResolve_resolveIfNeeded (d : D3D12Device) (shader j : Nat) (s : D3D12Shader)
    (native : D3D12ResolveResults) (hs : d.shaders[shader]? = some s) :
    (j ≠ shader → (d.resolveIfNeeded shader s native).2.needsResolve j = d.needsResolve j) ∧
    ((d.resolveIfNeeded shader s native).1 = .ok () →
      (d.resolveIfNeeded shader s native).2.needsResolve shader = some false) ∧
    (d.needsResolve j = some false →
      (d.resolveIfNeeded shader s native).2.needsResolve j = some false) := by
  have hlt : shader < d.shaders.length := by
    by_contra hcon
    rw [List.getElem?_eq_none (by omega)] at hs
    cases hs
  unfold resolveIfNeeded
  cases hn : s.needsResolve with
  | false =>
    simp only [Bool.false_eq_true, if_false]
    refine ⟨?_, ?_, ?_⟩
    · intro _; trivial
    · intro _; simp [needsResolve, hs, hn]
    · intro h; exact h
  | true =>
    simp only [if_true]
    have hres := D3D12Shader.resolve_needsResolve s native d.objects
    generalize s.resolve native d.objects = got at hres ⊢
    obtain ⟨r, s1, objects1, calls⟩ := got
    simp only [] at hres ⊢
    refine ⟨?_, ?_, ?_⟩
    · intro hne
      have hne1 : ¬ shader = j := fun h => hne h.symm
      simp [needsResolve, issue, List.getElem?_set, hne1]
    · intro hok
      simp [needsResolve, issue, List.getElem?_set, hlt, hres.1 hok]
    · intro hj
      by_cases hjs : shader = j
      · subst hjs
        simp [needsResolve, hs, hn] at hj
      · simp [needsResolve, issue, List.getElem?_set, hjs] at hj ⊢
        exact hj

/-- The answer of `needsResolve()` for every shader object after `dispatchShader`. -/
theorem needsResolve_dispatchShader (d : D3D12Device) (doNotClear : Bool)
    (native : D3D12ResolveResults) (j : Nat) :
    (d.currentShader ≠ some j →
      (d.dispatchShader doNotClear native).2.needsResolve j = d.needsResolve j) ∧
    (d.currentShader = some j → (d.dispatchShader doNotClear native).1 = .ok () →
      (d.dispatchShader doNotClear native).2.needsResolve j = some false) ∧
    (d.needsResolve j = some false →
      (d.dispatchShader doNotClear native).2.needsResolve j = some false) := by
  unfold dispatchShader
  cases hcur : d.currentShader with
  | none =>
    refine ⟨?_, ?_, ?_⟩
    · intro _; rfl
    · intro h; cases h
    · intro h; exact h
  | some shader =>
    simp only []
    cases hs : d.shaders[shader]? with
    | none =>
      simp only []
      refine ⟨?_, ?_, ?_⟩
      · intro _; first | rfl | trivial
      · intro _ h; cases h
      · intro h; exact h
    | some s =>
      simp only []
      have hr := needsResolve_resolveIfNeeded d shader j s native hs
      generalize d.resolveIfNeeded shader s native = got at hr ⊢
      obtain ⟨r, d1⟩ := got
      cases r with
      | error e =>
        refine ⟨?_, ?_, hr.2.2⟩
        · intro hne; exact hr.1 (fun h => hne (by rw [h]))
        · intro _ h; cases h
      | ok u =>
        simp only [] at hr ⊢
        have hsame : ∀ (d2 : D3D12Device), d2.shaders = d1.shaders →
            d2.needsResolve j = d1.needsResolve j := fun d2 h => by simp [needsResolve, h]
        have hfin : (if (!doNotClear) = true then
            { d1.issue [d1.drawCall s] with
              m_currentQuadShader := none, m_currentComputeShader := none }
            else d1.issue [d1.drawCall s]).needsResolve j = d1.needsResolve j := by
          cases doNotClear <;> exact hsame _ rfl
        rw [hfin]
        refine ⟨?_, ?_, hr.2.2⟩
        · intro hne; exact hr.1 (fun h => hne (by rw [h]))
        · intro hj _
          cases hj
          first
            | exact hr.2.1 rfl
            | exact hr.2.1 trivial

end D3D12Device

end graphics

namespace graphics

namespace D3D12Device

/-- An operation other than `dispatchShader` changes the answer of `needsResolve()` for
no shader object. -/
theorem needsResolve_step (d : D3D12Device) (operation : Operation) (j : Nat)
    (h : ∀ doNotClear native, operation ≠ .dispatchShader doNotClear native) :
    (d.step operation).2.needsResolve j = d.needsResolve j := by
  cases operation with
  | setShader compute shader => exact needsResolve_setShader d compute shader j
  | setShaderInput slot input slice => exact needsResolve_setShaderInput d slot input slice j
  | setShaderInputBuffer slot input => exact needsResolve_setShaderInputBuffer d slot input j
  | setShaderOutput slot output slice => exact needsResolve_setShaderOutput d slot output slice j
  | dispatchShader doNotClear native => exact absurd rfl (h doNotClear native)
  | flushContext blocking => rfl

/-- No operation makes a resolved shader unresolved. -/
theorem needsResolve_step_false (d : D3D12Device) (operation : Operation) (j : Nat)
    (h : d.needsResolve j = some false) : (d.step operation).2.needsResolve j = some false := by
  cases operation with
  | dispatchShader doNotClear native =>
    exact (needsResolve_dispatchShader d doNotClear native j).2.2 h
  | setShader compute shader => rw [← h]; exact needsResolve_setShader d compute shader j
  | setShaderInput slot input slice =>
    rw [← h]; exact needsResolve_setShaderInput d slot input slice j
  | setShaderInputBuffer slot input =>
    rw [← h]; exact needsResolve_setShaderInputBuffer d slot input j
  | setShaderOutput slot output slice =>
    rw [← h]; exact needsResolve_setShaderOutput d slot output slice j
  | flushContext blocking => exact h

/-- No sequence of operations makes a resolved shader unresolved. -/
theorem needsResolve_run_false (j : Nat) :
    ∀ (operations : List Operation) (d : D3D12Device), d.needsResolve j = some false →
      (d.run operations).needsResolve j = some false
  | [], d, h => h
  | operation :: rest, d, h => by
    have h1 := needsResolve_step_false d operation j h
    exact needsResolve_run_false j rest (d.step operation).2 h1

/-- A dispatch returns when the current shader is resolved already or the native calls of
`resolve()` succeed. -/
theorem dispatchShader_returns (d : D3D12Device) (doNotClear : Bool)
    (native : D3D12ResolveResults) (shader : Nat) (s : D3D12Shader)
    (hcur : d.currentShader = some shader) (hs : d.shaders[shader]? = some s)
    (hnative : s.needsResolve = false ∨
      (native.D3D12SerializeRootSignature = true ∧ native.CreateRootSignature = true ∧
       native.CheckFeatureSupport = true ∧ native.CreatePipelineState = true)) :
    (d.dispatchShader doNotClear native).1 = .ok () := by
  have hres : (d.resolveIfNeeded shader s native).1 = .ok () := by
    unfold resolveIfNeeded
    cases hn : s.needsResolve with
    | false => rfl
    | true =>
      rcases hnative with h | ⟨h1, h2, h3, h4⟩
      · rw [hn] at h; cases h
      · cases hc : s.compute <;>
          simp [D3D12Shader.resolve, D3D12Shader.resolveQuad, D3D12Shader.resolveCompute,
            D3D12Shader.resolveRootSignature, h1, h2, h3, h4, hc]
  unfold dispatchShader
  simp only [hcur, hs]
  generalize d.resolveIfNeeded shader s native = got at hres ⊢
  obtain ⟨r, d1⟩ := got
  cases r with
  | error e => cases hres
  | ok u => rfl

/-- A new shader object needs to be resolved, and creating it changes no other. -/
theorem needsResolve_create (d : D3D12Device) (compute : Bool) (threadGroups : Nat × Nat × Nat)
    (d1 : D3D12Device)
    (h : d1.shaders = d.shaders ++ [D3D12Shader.create compute threadGroups]) :
    d1.needsResolve d.shaders.length = some true ∧
    ∀ j, j < d.shaders.length → d1.needsResolve j = d.needsResolve j := by
  refine ⟨by simp [needsResolve, h, D3D12Shader.needsResolve, D3D12Shader.create], ?_⟩
  intro j hj
  simp [needsResolve, h, List.getElem?_append_left hj]

end D3D12Device

end graphics

/-- The life of the compute shader of `Scenario.computeBound12`: unresolved after
creation, `setShader`, `setShaderInput` and `setShaderOutput`; resolved by the first
dispatch, which returns; still resolved after a second `setShader` and dispatch. -/
theorem Scenario.needsResolve_life :
    (Scenario.device12.createComputeShader (8, 8, 1)).2.needsResolve 0 = some true ∧
    Scenario.computeBound12.needsResolve 0 = some true ∧
    (Scenario.computeBound12.dispatchShader true Scenario.nativeOk).1 = .ok () ∧
    Scenario.dispatched12.needsResolve 0 = some false ∧
    (Scenario.dispatched12.run
      [.setShader true 0, .dispatchShader false Scenario.nativeOk, .flushContext true]).needsResolve
        0 = some false :=
  ⟨by decide, by decide, by rfl, by decide, by decide⟩

/-! ## C11: needsResolve over the life of a shader -/

/-- C11: for every shader object of a D3D12 device, `needsResolve()` is true when the
object is created (quad or compute); every operation other than `dispatchShader`, and a
`dispatchShader` while another shader is current, leaves its answer as it is; a
`dispatchShader` with the object current that returns leaves it false, and it does return
when the native calls of `resolve()` succeed; and once false it stays false through every
sequence of `setShader`, `setShaderInput`, `setShaderOutput`, `dispatchShader` and
`flushContext`. -/
theorem C11_needs_resolve (d : D3D12Device) (shader : Nat) :
    d.createQuadShader.2.needsResolve d.createQuadShader.1 = some true ∧
    (∀ threadGroups, (d.createComputeShader threadGroups).2.needsResolve
      (d.createComputeShader threadGroups).1 = some true) ∧
    (∀ operation, (∀ doNotClear native, operation ≠ .dispatchShader doNotClear native) →
      (d.step operation).2.needsResolve shader = d.needsResolve shader) ∧
    (∀ doNotClear native, d.currentShader ≠ some shader →
      (d.dispatchShader doNotClear native).2.needsResolve shader = d.needsResolve shader) ∧
    (∀ doNotClear native, d.currentShader = some shader →
      (d.dispatchShader doNotClear native).1 = .ok () →
      (d.dispatchShader doNotClear native).2.needsResolve shader = some false) ∧
    (∀ doNotClear native, d.currentShader = some shader → d.needsResolve shader = some true →
      native.D3D12SerializeRootSignature = true → native.CreateRootSignature = true →
      native.CheckFeatureSupport = true → native.CreatePipelineState = true →
      (d.dispatchShader doNotClear native).1 = .ok ()) ∧
    (∀ operations, d.needsResolve shader = some false →
      (d.run operations).needsResolve shader = some false) := by
  refine ⟨?_, ?_, ?_, ?_, ?_, ?_, ?_⟩
  · exact (D3D12Device.needsResolve_create d false (0, 0, 0) _ rfl).1
  · intro threadGroups
    exact (D3D12Device.needsResolve_create d true threadGroups _ rfl).1
  · intro operation h
    exact D3D12Device.needsResolve_step d operation shader h
  · intro doNotClear native h
    exact (D3D12Device.needsResolve_dispatchShader d doNotClear native shader).1 h
  · intro doNotClear native h hok
    exact (D3D12Device.needsResolve_dispatchShader d doNotClear native shader).2.1 h hok
  · intro doNotClear native hcur hn h1 h2 h3 h4
    cases hs : d.shaders[shader]? with
    | none => simp [D3D12Device.needsResolve, hs] at hn
    | some s =>
      exact D3D12Device.dispatchShader_returns d doNotClear native shader s hcur hs
        (Or.inr ⟨h1, h2, h3, h4⟩)
  · intro operations h
    exact D3D12Device.needsResolve_run_false shader operations d h

/-! ## C12: resolving a second time -/

namespace graphics

theorem wrapInt32_eq (x : Int) (h1 : -(2 ^ 31) ≤ x) (h2 : x < 2 ^ 31) : wrapInt32 x = x := by
  unfold wrapInt32
  rw [Int.emod_eq_of_lt (by omega) (by omega)]
  omega

/-- Below the end of the `INT` range `allocate` moves the offset up by one. -/
theorem D3D12Heap.allocate_offset (h : D3D12Heap) (h1 : -(2 ^ 31) ≤ h.heapOffset)
    (h2 : h.heapOffset < 2 ^ 31 - 1) :
    h.allocate.2 = { h with heapOffset := h.heapOffset + 1 } := by
  simp only [D3D12Heap.allocate]
  rw [wrapInt32_eq _ (by omega) (by omega)]

theorem D3D12Heap.allocate_handle (h : D3D12Heap) (k : Nat) (hk : h.heapOffset = (k : Int))
    (hptr : h.heapStartCPU + k * h.descSize < 2 ^ 64) :
    h.allocate.1 = h.heapStartCPU + k * h.descSize := by
  simp only [D3D12Heap.allocate, hk]
  have : ((h.heapStartCPU : Int) + (k : Int) * (h.descSize : Int)) =
      ((h.heapStartCPU + k * h.descSize : Nat) : Int) := by push_cast; rfl
  rw [this, Int.emod_eq_of_lt (by omega) (by omega), Int.toNat_ofNat]

theorem D3D12Heap.allocateTimes_eq (h : D3D12Heap) (k : Nat) (h1 : 0 ≤ h.heapOffset)
    (h2 : h.heapOffset + k < 2 ^ 31) :
    h.allocateTimes k = { h with heapOffset := h.heapOffset + k } := by
  induction k with
  | zero => simp [D3D12Heap.allocateTimes]
  | succ n ih =>
    have hn := ih (by omega)
    simp only [D3D12Heap.allocateTimes]
    rw [hn, D3D12Heap.allocate_offset _ (by simp only; omega) (by simp only; omega)]
    simp only [Nat.cast_add, Nat.cast_one, Int.add_assoc]

/-- An allocation for a view lowers the offset of no heap that is below the end of the
`INT` range. -/
theorem D3D12Texture.allocateFor_offsets (h : D3D12Descriptors) (kind : ViewKind)
    (hrtv : -(2 ^ 31) ≤ h.m_rtvHeap.heapOffset ∧ h.m_rtvHeap.heapOffset < 2 ^ 31 - 1)
    (hdsv : -(2 ^ 31) ≤ h.m_dsvHeap.heapOffset ∧ h.m_dsvHeap.heapOffset < 2 ^ 31 - 1)
    (hrv : -(2 ^ 31) ≤ h.m_rvHeap.heapOffset ∧ h.m_rvHeap.heapOffset < 2 ^ 31 - 1) :
    h.m_rtvHeap.heapOffset ≤ (D3D12Texture.allocateFor h kind).2.m_rtvHeap.heapOffset ∧
    h.m_dsvHeap.heapOffset ≤ (D3D12Texture.allocateFor h kind).2.m_dsvHeap.heapOffset ∧
    h.m_rvHeap.heapOffset ≤ (D3D12Texture.allocateFor h kind).2.m_rvHeap.heapOffset := by
  cases kind <;>
    simp only [D3D12Texture.allocateFor, D3D12Heap.allocate_offset _ hrtv.1 hrtv.2,
      D3D12Heap.allocate_offset _ hdsv.1 hdsv.2, D3D12Heap.allocate_offset _ hrv.1 hrv.2] <;>
    omega

theorem D3D12Texture.getViewInternal_offsets (t : D3D12Texture) (kind : ViewKind)
    (cached : Option D3D12ResourceView) (slice : Nat) (h : D3D12Descriptors)
    (hrtv : -(2 ^ 31) ≤ h.m_rtvHeap.heapOffset ∧ h.m_rtvHeap.heapOffset < 2 ^ 31 - 1)
    (hdsv : -(2 ^ 31) ≤ h.m_dsvHeap.heapOffset ∧ h.m_dsvHeap.heapOffset < 2 ^ 31 - 1)
    (hrv : -(2 ^ 31) ≤ h.m_rvHeap.heapOffset ∧ h.m_rvHeap.heapOffset < 2 ^ 31 - 1) :
    h.m_rtvHeap.heapOffset ≤ (t.getViewInternal kind cached slice h).2.2.m_rtvHeap.heapOffset ∧
    h.m_dsvHeap.heapOffset ≤ (t.getViewInternal kind cached slice h).2.2.m_dsvHeap.heapOffset ∧
    h.m_rvHeap.heapOffset ≤ (t.getViewInternal kind cached slice h).2.2.m_rvHeap.heapOffset := by
  unfold D3D12Texture.getViewInternal
  cases cached with
  | some v => simp
  | none =>
    by_cases hp : t.permits kind = true
    · simpa [hp] using D3D12Texture.allocateFor_offsets h kind hrtv hdsv hrv
    · simp [hp]

theorem D3D12Texture.getView_offsets (t : D3D12Texture) (kind : ViewKind)
    (h : D3D12Descriptors)
    (hrtv : -(2 ^ 31) ≤ h.m_rtvHeap.heapOffset ∧ h.m_rtvHeap.heapOffset < 2 ^ 31 - 1)
    (hdsv : -(2 ^ 31) ≤ h.m_dsvHeap.heapOffset ∧ h.m_dsvHeap.heapOffset < 2 ^ 31 - 1)
    (hrv : -(2 ^ 31) ≤ h.m_rvHeap.heapOffset ∧ h.m_rvHeap.heapOffset < 2 ^ 31 - 1) :
    h.m_rtvHeap.heapOffset ≤ (t.getView kind h).2.2.m_rtvHeap.heapOffset ∧
    h.m_dsvHeap.heapOffset ≤ (t.getView kind h).2.2.m_dsvHeap.heapOffset ∧
    h.m_rvHeap.heapOffset ≤ (t.getView kind h).2.2.m_rvHeap.heapOffset := by
  simpa [D3D12Texture.getView] using
    t.getViewInternal_offsets kind (t.cache.whole kind) 0 h hrtv hdsv hrv

theorem D3D12Texture.getSliceView_offsets (t : D3D12Texture) (kind : ViewKind) (slice : Nat)
    (h : D3D12Descriptors)
    (hrtv : -(2 ^ 31) ≤ h.m_rtvHeap.heapOffset ∧ h.m_rtvHeap.heapOffset < 2 ^ 31 - 1)
    (hdsv : -(2 ^ 31) ≤ h.m_dsvHeap.heapOffset ∧ h.m_dsvHeap.heapOffset < 2 ^ 31 - 1)
    (hrv : -(2 ^ 31) ≤ h.m_rvHeap.heapOffset ∧ h.m_rvHeap.heapOffset < 2 ^ 31 - 1) :
    h.m_rtvHeap.heapOffset ≤ (t.getSliceView kind slice h).2.2.m_rtvHeap.heapOffset ∧
    h.m_dsvHeap.heapOffset ≤ (t.getSliceView kind slice h).2.2.m_dsvHeap.heapOffset ∧
    h.m_rvHeap.heapOffset ≤ (t.getSliceView kind slice h).2.2.m_rvHeap.heapOffset := by
  unfold D3D12Texture.getSliceView
  cases hc : (t.cache.sub kind)[slice]? with
  | none => simp
  | some cached => simpa using t.getViewInternal_offsets kind cached slice h hrtv hdsv hrv

theorem D3D12Buffer.getConstantBufferView_offsets (b : D3D12Buffer) (h : D3D12Descriptors)
    (hrv : -(2 ^ 31) ≤ h.m_rvHeap.heapOffset ∧ h.m_rvHeap.heapOffset < 2 ^ 31 - 1) :
    h.m_rtvHeap.heapOffset ≤ (b.getConstantBufferView h).2.2.m_rtvHeap.heapOffset ∧
    h.m_dsvHeap.heapOffset ≤ (b.getConstantBufferView h).2.2.m_dsvHeap.heapOffset ∧
    h.m_rvHeap.heapOffset ≤ (b.getConstantBufferView h).2.2.m_rvHeap.heapOffset := by
  unfold D3D12Buffer.getConstantBufferView
  cases b.m_constantBufferView with
  | some v => simp
  | none =>
    simp only [D3D12Heap.allocate_offset _ hrv.1 hrv.2]
    exact ⟨le_refl _, le_refl _, by omega⟩

end graphics

/-- C21: for `k < 2^31` (the range of `INT heapOffset`) the `k`-th `allocate` since
`initialize` (`k = 0, 1, 2, ...`) finds the heap offset at `k` and returns
`heapStart + k * descSize` (an address below `2^64`); with a positive descriptor size an
earlier call returned a strictly smaller handle, so no slot is handed out twice.  Below
the end of the `INT` range `allocate` moves the offset up by one, and the view getters of
textures and buffers, the only callers, never lower the offset of a heap. -/
theorem C21_heap_allocation (heapStartCPU heapStartGPU descSize k : Nat) (hk : k < 2 ^ 31)
    (hptr : heapStartCPU + k * descSize < 2 ^ 64) :
    ((D3D12Heap.init heapStartCPU heapStartGPU descSize).allocateTimes k).heapOffset = k ∧
    ((D3D12Heap.init heapStartCPU heapStartGPU descSize).allocateTimes k).allocate.1 =
      heapStartCPU + k * descSize ∧
    (∀ j, j < k → 0 < descSize →
      ((D3D12Heap.init heapStartCPU heapStartGPU descSize).allocateTimes j).allocate.1 <
        ((D3D12Heap.init heapStartCPU heapStartGPU descSize).allocateTimes k).allocate.1) ∧
    (∀ h : D3D12Heap, -(2 ^ 31) ≤ h.heapOffset → h.heapOffset < 2 ^ 31 - 1 →
      h.allocate.2.heapOffset = h.heapOffset + 1 ∧
      h.allocate.2.heapStartCPU = h.heapStartCPU ∧ h.allocate.2.descSize = h.descSize) ∧
    (∀ (t : D3D12Texture) (kind : ViewKind) (slice : Nat) (h : D3D12Descriptors),
      (-(2 ^ 31) ≤ h.m_rtvHeap.heapOffset ∧ h.m_rtvHeap.heapOffset < 2 ^ 31 - 1) →
      (-(2 ^ 31) ≤ h.m_dsvHeap.heapOffset ∧ h.m_dsvHeap.heapOffset < 2 ^ 31 - 1) →
      (-(2 ^ 31) ≤ h.m_rvHeap.heapOffset ∧ h.m_rvHeap.heapOffset < 2 ^ 31 - 1) →
      (h.m_rtvHeap.heapOffset ≤ (t.getView kind h).2.2.m_rtvHeap.heapOffset ∧
       h.m_dsvHeap.heapOffset ≤ (t.getView kind h).2.2.m_dsvHeap.heapOffset ∧
       h.m_rvHeap.heapOffset ≤ (t.getView kind h).2.2.m_rvHeap.heapOffset) ∧
      (h.m_rtvHeap.heapOffset ≤ (t.getSliceView kind slice h).2.2.m_rtvHeap.heapOffset ∧
       h.m_dsvHeap.heapOffset ≤ (t.getSliceView kind slice h).2.2.m_dsvHeap.heapOffset ∧
       h.m_rvHeap.heapOffset ≤ (t.getSliceView kind slice h).2.2.m_rvHeap.heapOffset)) ∧
    (∀ (b : D3D12Buffer) (h : D3D12Descriptors),
      (-(2 ^ 31) ≤ h.m_rvHeap.heapOffset ∧ h.m_rvHeap.heapOffset < 2 ^ 31 - 1) →
      h.m_rtvHeap.heapOffset ≤ (b.getConstantBufferView h).2.2.m_rtvHeap.heapOffset ∧
      h.m_dsvHeap.heapOffset ≤ (b.getConstantBufferView h).2.2.m_dsvHeap.heapOffset ∧
      h.m_rvHeap.heapOffset ≤ (b.getConstantBufferView h).2.2.m_rvHeap.heapOffset) := by
  have hat : ∀ j : Nat, j ≤ k →
      (D3D12Heap.init heapStartCPU heapStartGPU descSize).allocateTimes j =
        { D3D12Heap.init heapStartCPU heapStartGPU descSize with heapOffset := (j : Int) } := by
    intro j hj
    rw [D3D12Heap.allocateTimes_eq _ j (by simp [D3D12Heap.init])
      (by simp only [D3D12Heap.init]; omega)]
    simp [D3D12Heap.init]
  have hhandle : ∀ j : Nat, j ≤ k →
      ((D3D12Heap.init heapStartCPU heapStartGPU descSize).allocateTimes j).allocate.1 =
        heapStartCPU + j * descSize := by
    intro j hj
    rw [hat j hj]
    have hle : j * descSize ≤ k * descSize := Nat.mul_le_mul_right _ hj
    exact D3D12Heap.allocate_handle _ j rfl (by simp only [D3D12Heap.init]; omega)
  refine ⟨?_, hhandle k (le_refl _), ?_, ?_, ?_, ?_⟩
  · rw [hat k (le_refl _)]
  · intro j hj hd
    rw [hhandle j (Nat.le_of_lt hj), hhandle k (le_refl _)]
    exact Nat.add_lt_add_left (Nat.mul_lt_mul_of_pos_right hj hd) _
  · intro h h1 h2
    rw [D3D12Heap.allocate_offset h h1 h2]
    exact ⟨rfl, rfl, rfl⟩
  · intro t kind slice h hrtv hdsv hrv
    exact ⟨t.getView_offsets kind h hrtv hdsv hrv, t.getSliceView_offsets kind slice h hrtv hdsv hrv⟩
  · intro b h hrv
    exact b.getConstantBufferView_offsets h hrv

/-- C21 on the resource view heap of `Scenario.d3d12`: the allocation after five. -/
theorem C21_heap_allocation_witness :
    (5 : Nat) < 2 ^ 31 ∧ 0x3000 + 5 * 32 < 2 ^ 64 ∧
    ((D3D12Heap.init 0x3000 0x9000 32).allocateTimes 5).heapOffset = 5 ∧
    ((D3D12Heap.init 0x3000 0x9000 32).allocateTimes 5).allocate.1 = 0x3000 + 5 * 32 :=
  have h := C21_heap_allocation 0x3000 0x9000 32 5 (by decide) (by decide)
  ⟨by decide, by decide, h.1, h.2.1⟩

set_option maxRecDepth 100000 in
/-- C27: `allocate` has no bound: on a heap created with `NumDescriptors = 32` the call
after 32 allocations returns the handle of slot 32, past the last descriptor (slots 0 to
31).  Thirty-three textures asking for a shader input view reach it: the view of the last
one is created at `heapStart + 32 * descSize`. -/
theorem C27_allocation_past_heap_end :
    D3D12Heap.NumDescriptors = 32 ∧
    (∀ heapStartCPU heapStartGPU descSize : Nat,
      ((D3D12Heap.init heapStartCPU heapStartGPU descSize).allocateTimes 32).heapOffset =
        D3D12Heap.NumDescriptors ∧
      ((D3D12Heap.init heapStartCPU heapStartGPU descSize).allocateTimes 32).allocate.1 =
        (heapStartCPU + D3D12Heap.NumDescriptors * descSize) % 2 ^ 64) ∧
    (Scenario.afterViews 32).m_rvHeap.heapOffset = 32 ∧
    ((Scenario.storage12 32).getView .shaderInput (Scenario.afterViews 32)).1 =
      .ok { m_resourceView := Scenario.d3d12.m_rvHeap.heapStartCPU +
              32 * Scenario.d3d12.m_rvHeap.descSize } := by
  refine ⟨rfl, ?_, by decide, by rfl⟩
  intro a b c
  have hat : (D3D12Heap.init a b c).allocateTimes 32 =
      { D3D12Heap.init a b c with heapOffset := 32 } := by
    rw [D3D12Heap.allocateTimes_eq _ 32 (by simp [D3D12Heap.init])
      (by simp only [D3D12Heap.init]; omega)]
    simp [D3D12Heap.init]
  rw [hat]
  refine ⟨rfl, ?_⟩
  simp only [D3D12Heap.allocate, D3D12Heap.init, D3D12Heap.NumDescriptors]
  have : ((a : Int) + 32 * (c : Int)) = ((a + 32 * c : Nat) : Int) := by push_cast; rfl
  rw [this]
  have h2 : ((a + 32 * c : Nat) : Int) % 18446744073709551616 =
      (((a + 32 * c) % 18446744073709551616 : Nat) : Int) := by norm_cast
  rw [h2, Int.toNat_ofNat]
  norm_num

/-! ## C28: scaling below 100% -/

namespace graphics

theorem scaledInputBelow100_eq (p : Int) (d : Nat) (hp1 : 1 ≤ p) (hp2 : p ≤ 99)
    (hd : p.toNat * d < 2 ^ 32) :
    scaledInputBelow100 p d = p.toNat * d / 100 + p.toNat * d / 100 % 2 := by
  obtain ⟨m, rfl⟩ := Int.eq_ofNat_of_zero_le (by omega : 0 ≤ p)
  have hm : m < 2 ^ 32 := by norm_num; omega
  have h1 : ((m : Int) % 2 ^ 32).toNat = m := by
    have : ((m : Int) % 2 ^ 32) = ((m % 2 ^ 32 : Nat) : Int) := by norm_cast
    rw [this, Int.toNat_ofNat, Nat.mod_eq_of_lt hm]
  simp only [Int.toNat_ofNat] at hd ⊢
  unfold scaledInputBelow100
  simp only [h1, Nat.mod_eq_of_lt hd, Nat.and_one_is_mod]
  apply Nat.mod_eq_of_lt
  have : m * d / 100 < 2 ^ 32 / 100 + 1 := by
    have := Nat.div_le_div_right (c := 100) (Nat.le_of_lt hd)
    omega
  norm_num at this ⊢
  omega

end graphics

/-- C28: for a scaling percentage `p` with `1 <= p <= 99` and output dimensions with
`p * width < 2^32` and `p * height < 2^32`, `GetFSRScaledResolution` returns for each
dimension `d` the value `floor(p * d / 100)` plus one when that is odd: the result is even,
is `floor(p * d / 100)` or the number after it, and does not exceed `d`.  For `p = 100` the
output dimensions are returned unchanged. -/
theorem C28_scaled_resolution_below_100 (p : Int) (width height : Nat) (hp1 : 1 ≤ p)
    (hp2 : p ≤ 99) (hw : p.toNat * width < 2 ^ 32) (hh : p.toNat * height < 2 ^ 32) :
    GetFSRScaledResolution p width height =
      (p.toNat * width / 100 + p.toNat * width / 100 % 2,
       p.toNat * height / 100 + p.toNat * height / 100 % 2) ∧
    (GetFSRScaledResolution p width height).1 % 2 = 0 ∧
    (GetFSRScaledResolution p width height).2 % 2 = 0 ∧
    p.toNat * width / 100 ≤ (GetFSRScaledResolution p width height).1 ∧
    (GetFSRScaledResolution p width height).1 ≤ p.toNat * width / 100 + 1 ∧
    p.toNat * height / 100 ≤ (GetFSRScaledResolution p width height).2 ∧
    (GetFSRScaledResolution p width height).2 ≤ p.toNat * height / 100 + 1 ∧
    (GetFSRScaledResolution p width height).1 ≤ width ∧
    (GetFSRScaledResolution p width height).2 ≤ height ∧
    GetFSRScaledResolution 100 width height = (width, height) := by
  have heq : GetFSRScaledResolution p width height =
      (p.toNat * width / 100 + p.toNat * width / 100 % 2,
       p.toNat * height / 100 + p.toNat * height / 100 % 2) := by
    unfold GetFSRScaledResolution
    rw [if_neg (by omega), if_pos (by omega), scaledInputBelow100_eq p width hp1 hp2 hw,
      scaledInputBelow100_eq p height hp1 hp2 hh]
  have hp : p.toNat ≤ 99 := by omega
  have hle : ∀ d : Nat, p.toNat * d / 100 + p.toNat * d / 100 % 2 ≤ d := by
    intro d
    have h1 : p.toNat * d ≤ 99 * d := Nat.mul_le_mul_right d hp
    have h2 : p.toNat * d / 100 ≤ 99 * d / 100 := Nat.div_le_div_right h1
    omega
  refine ⟨heq, ?_, ?_, ?_, ?_, ?_, ?_, ?_, ?_, ?_⟩
  · rw [heq]; simp only; omega
  · rw [heq]; simp only; omega
  · rw [heq]; simp only; omega
  · rw [heq]; simp only; omega
  · rw [heq]; simp only; omega
  · rw [heq]; simp only; omega
  · rw [heq]; exact hle width
  · rw [heq]; exact hle height
  · simp [GetFSRScaledResolution]

theorem C28_scaled_resolution_below_100_witness :
    GetFSRScaledResolution 75 2002 1000 = (1502, 750) ∧
    GetFSRScaledResolution 100 2002 1000 = (2002, 1000) :=
  have h := C28_scaled_resolution_below_100 75 2002 1000 (by decide) (by decide) (by decide)
    (by decide)
  ⟨h.1.trans (by decide), h.2.2.2.2.2.2.2.2.2⟩

/-! ## C30: pass-through of xrCreateSwapchain and xrEndFrame -/

/-- C30: when the session is not the VR session or no graphics device was wrapped,
`xrCreateSwapchain` hands the application's create info to the runtime and `xrEndFrame` the
application's frame, each returns what the runtime answered, and the layer (with its
swapchain table) is as before; a create info without the COLOR_ATTACHMENT usage is handed
on unmodified in every session and nothing is registered for it. -/
theorem C30_pass_through (s : OpenXrLayer) (session : Nat) :
    (∀ (createInfo : XrSwapchainCreateInfo) (runtime : XrSwapchainCreateInfo → RuntimeSwapchain),
      (s.isVrSession session = false ∨ s.m_graphicsDevice = none) →
      s.xrCreateSwapchain session createInfo runtime =
        { layer := s, result := (runtime createInfo).result,
          swapchain := (runtime createInfo).swapchain, forwarded := createInfo }) ∧
    (∀ (frameEndInfo : XrFrameEndInfo) (runtimeResult : XrFrameEndInfo → Int),
      (s.isVrSession session = false ∨ s.m_graphicsDevice = none) →
      s.xrEndFrame session frameEndInfo runtimeResult =
        .ok { layer := s, forwarded := frameEndInfo, result := runtimeResult frameEndInfo,
              calls := [], textureForOverlay := List.replicate ViewCount none }) ∧
    (∀ (createInfo : XrSwapchainCreateInfo) (runtime : XrSwapchainCreateInfo → RuntimeSwapchain),
      hasFlag createInfo.usageFlags XR_SWAPCHAIN_USAGE_COLOR_ATTACHMENT_BIT = false →
      s.xrCreateSwapchain session createInfo runtime =
        { layer := s, result := (runtime createInfo).result,
          swapchain := (runtime createInfo).swapchain, forwarded := createInfo }) := by
  refine ⟨?_, ?_, ?_⟩
  · intro createInfo runtime h
    unfold OpenXrLayer.xrCreateSwapchain
    cases hd : s.m_graphicsDevice with
    | none => rfl
    | some dev =>
      rcases h with h | h
      · simp [h]
      · rw [hd] at h; cases h
  · intro frameEndInfo runtimeResult h
    unfold OpenXrLayer.xrEndFrame
    rcases h with h | h
    · simp [h]; rfl
    · simp [h]; rfl
  · intro createInfo runtime h
    unfold OpenXrLayer.xrCreateSwapchain
    cases hd : s.m_graphicsDevice with
    | none => rfl
    | some dev =>
      by_cases hv : s.isVrSession session = true
      · simp [hv, h, OpenXrLayer.chainCreateInfo]
      · simp [hv]

/-! ## C26: xrDestroySession -/

theorem OpenXrLayer.xrDestroySession_device (s : OpenXrLayer) (dev : IDevice) (session : Nat)
    (result : Int) (hr : XR_SUCCEEDED result = true) (hs : s.isVrSession session = true)
    (hd : s.m_graphicsDevice = some dev) :
    s.xrDestroySession session result =
      .ok ({ s with m_upscaler := none, m_preProcessor := none, m_postProcessor := none,
                    m_swapchains := [], m_menuHandler := false, m_graphicsDevice := none,
                    m_vrSession := XR_NULL_HANDLE }, result) := by
  simp [OpenXrLayer.xrDestroySession, hr, hs, hd]; rfl

theorem OpenXrLayer.xrDestroySession_no_device (s : OpenXrLayer) (session : Nat)
    (result : Int) (hr : XR_SUCCEEDED result = true) (hs : s.isVrSession session = true)
    (hd : s.m_graphicsDevice = none) :
    s.xrDestroySession session result = .error .nullPointer := by
  simp [OpenXrLayer.xrDestroySession, hr, hs, hd]; rfl

/-- C26: the layer after `xrCreateSession` without a D3D11 or D3D12 binding has session 5
as its VR session and no graphics device; a successful `xrDestroySession` of that session
calls `shutdown()` through the empty `m_graphicsDevice` instead of completing.  With a
device the same call completes, clears the swapchain table and resets the handle. -/
theorem C26_destroy_session_without_device :
    Scenario.sessionWithoutDevice.isVrSession 5 = true ∧
    Scenario.sessionWithoutDevice.m_graphicsDevice = none ∧
    Scenario.sessionWithoutDevice.xrDestroySession 5 XR_SUCCESS = .error .nullPointer ∧
    (Scenario.created150.layer.xrDestroySession 5 XR_SUCCESS).toOption.map
      (fun r => (r.1.m_swapchains, r.1.m_vrSession, r.1.m_graphicsDevice, r.2)) =
      some ([], XR_NULL_HANDLE, none, XR_SUCCESS) :=
  ⟨by decide, by decide, by rfl, by rfl⟩

/-! ## C29: prediction dampening -/

theorem tdiv_hundred (x : Int) :
    Int.tdiv x 100 = if 0 ≤ x then x / 100 else -((-x) / 100) := by
  by_cases h : 0 ≤ x
  · rw [if_pos h, Int.tdiv_eq_ediv h (by decide)]
  · rw [if_neg h]
    have : x = -(-x) := by omega
    rw [this, Int.neg_tdiv, Int.tdiv_eq_ediv (by omega) (by decide)]
    simp

theorem toInt64_eq (x : Int) (h1 : -(2 ^ 63) ≤ x) (h2 : x < 2 ^ 63) : toInt64 x = x := by
  unfold toInt64
  rw [Int.emod_eq_of_lt (by omega) (by omega)]
  omega

/-- C29: in `xrWaitFrame` on the VR session, with the runtime call and the time conversion
successful and the conversion function available, write `a = predictedDisplayTime - now`.
The call returns; the time `out` it returns is also the recorded waited-frame time.  When
the setting is 100 or `a <= 0`, `out` is the runtime's prediction; otherwise it is
`now + (setting * a) / 100` with the division truncating.  For a setting from 0 to 100 `out`
lies between `now` and the prediction.  Times are within `±2^62` and `setting * a` within
the 64-bit range. -/
theorem C29_prediction_dampening (s : OpenXrLayer) (session : Nat)
    (result predictedDisplayTime convertResult now : Int)
    (hr : XR_SUCCEEDED result = true) (hs : s.isVrSession session = true)
    (hc : s.xrConvertWin32PerformanceCounterToTimeKHR = true)
    (hconv : XR_SUCCEEDED convertResult = true)
    (hnow : -(2 ^ 62) ≤ now ∧ now < 2 ^ 62)
    (hpred : -(2 ^ 62) ≤ predictedDisplayTime ∧ predictedDisplayTime < 2 ^ 62)
    (hprod : -(2 ^ 63) ≤ s.m_configManager.SettingPredictionDampen * (predictedDisplayTime - now) ∧
      s.m_configManager.SettingPredictionDampen * (predictedDisplayTime - now) < 2 ^ 63) :
    ∃ out : Int,
      s.xrWaitFrame session result predictedDisplayTime convertResult now =
        .ok { layer := { s with m_waitedFrameTime := out }, result := result,
              predictedDisplayTime := out } ∧
      ((s.m_configManager.SettingPredictionDampen = 100 ∨ predictedDisplayTime - now ≤ 0) →
        out = predictedDisplayTime) ∧
      (s.m_configManager.SettingPredictionDampen ≠ 100 → 0 < predictedDisplayTime - now →
        out = now + Int.tdiv
          (s.m_configManager.SettingPredictionDampen * (predictedDisplayTime - now)) 100) ∧
      (0 ≤ s.m_configManager.SettingPredictionDampen →
        s.m_configManager.SettingPredictionDampen ≤ 100 →
        min now predictedDisplayTime ≤ out ∧ out ≤ max now predictedDisplayTime) := by
  have ha : toInt64 (predictedDisplayTime - now) = predictedDisplayTime - now :=
    toInt64_eq _ (by omega) (by omega)
  have hp := toInt64_eq _ hprod.1 hprod.2
  by_cases h100 : s.m_configManager.SettingPredictionDampen = 100
  · refine ⟨predictedDisplayTime, ?_, fun _ => rfl, fun h => absurd h100 h, fun _ _ => ?_⟩
    · simp [OpenXrLayer.xrWaitFrame, hr, hs, hc, h100]; rfl
    · omega
  · by_cases hpos : 0 < predictedDisplayTime - now
    · have hq := tdiv_hundred
        (s.m_configManager.SettingPredictionDampen * (predictedDisplayTime - now))
      have hsum : toInt64 (now + Int.tdiv
          (s.m_configManager.SettingPredictionDampen * (predictedDisplayTime - now)) 100) =
          now + Int.tdiv
            (s.m_configManager.SettingPredictionDampen * (predictedDisplayTime - now)) 100 := by
        apply toInt64_eq
        · rw [hq]; split <;> omega
        · rw [hq]; split <;> omega
      refine ⟨_, ?_, fun h => ?_, fun _ _ => rfl, fun h0 h1 => ?_⟩
      · simp [OpenXrLayer.xrWaitFrame, hr, hs, hc, h100, hconv, ha, hpos, hp, hsum]; rfl
      · rcases h with h | h
        · exact absurd h h100
        · omega
      · have hn : 0 ≤ s.m_configManager.SettingPredictionDampen * (predictedDisplayTime - now) :=
          Int.mul_nonneg h0 (by omega)
        have hle : s.m_configManager.SettingPredictionDampen * (predictedDisplayTime - now) ≤
            100 * (predictedDisplayTime - now) :=
          Int.mul_le_mul_of_nonneg_right h1 (by omega)
        rw [hq, if_pos hn]
        omega
    · refine ⟨predictedDisplayTime, ?_, fun _ => rfl, fun _ h => absurd h hpos, fun _ _ => ?_⟩
      · simp [OpenXrLayer.xrWaitFrame, hr, hs, hc, h100, hconv, ha, hpos]; rfl
      · omega

theorem C29_prediction_dampening_witness :
    ∃ out : Int,
      (Scenario.sessionDampen 50).xrWaitFrame 5 XR_SUCCESS 1000 XR_SUCCESS 400 =
        .ok { layer := { Scenario.sessionDampen 50 with m_waitedFrameTime := out },
              result := XR_SUCCESS, predictedDisplayTime := out } ∧
      out = 700 :=
  have h := C29_prediction_dampening (Scenario.sessionDampen 50) 5 XR_SUCCESS 1000 XR_SUCCESS 400
    (by decide) (by decide) (by decide) (by decide) (by decide) (by decide) (by decide)
  h.elim fun out hout => ⟨out, hout.1, (hout.2.2.1 (by decide) (by decide)).trans (by decide)⟩

/-! ## C22: the per-slice caches -/

namespace graphics

theorem ViewCache.whole_setSub {View : Type} (c : ViewCache View) (kind other : ViewKind)
    (slice : Nat) (v : Option View) : (c.setSub kind slice v).whole other = c.whole other := by
  cases kind <;> cases other <;> rfl

theorem ViewCache.sub_setSub_other {View : Type} (c : ViewCache View) (kind other : ViewKind)
    (slice index : Nat) (v : Option View) (h : other ≠ kind ∨ index ≠ slice) :
    ((c.setSub kind slice v).sub other)[index]? = (c.sub other)[index]? := by
  by_cases hk : other = kind
  · subst hk
    have hi : index ≠ slice := by
      rcases h with h | h
      · exact absurd rfl h
      · exact h
    rw [ViewCache.sub_setSub, List.getElem?_set_ne (Ne.symm hi)]
  · cases kind <;> cases other <;> first | exact absurd rfl hk | rfl

/-- A per-slice request writes at most element `slice` of the vector of its kind: the
whole-texture members, the vectors of the other kinds and the other slices are as before. -/
theorem D3D11Texture.getSliceView_independent (t : D3D11Texture) (kind other : ViewKind)
    (slice index : Nat) (dev : ID3D11Device) :
    (t.getSliceView kind slice dev).2.1.cache.whole other = t.cache.whole other ∧
    ((other ≠ kind ∨ index ≠ slice) →
      ((t.getSliceView kind slice dev).2.1.cache.sub other)[index]? =
        (t.cache.sub other)[index]?) := by
  unfold D3D11Texture.getSliceView
  cases hc : (t.cache.sub kind)[slice]? with
  | none => exact ⟨rfl, fun _ => rfl⟩
  | some cached =>
    exact ⟨ViewCache.whole_setSub _ _ _ _ _, fun h => ViewCache.sub_setSub_other _ _ _ _ _ _ h⟩

theorem D3D12Texture.getSliceView_independent_d3d12 (t : D3D12Texture) (kind other : ViewKind)
    (slice index : Nat) (h : D3D12Descriptors) :
    (t.getSliceView kind slice h).2.1.cache.whole other = t.cache.whole other ∧
    ((other ≠ kind ∨ index ≠ slice) →
      ((t.getSliceView kind slice h).2.1.cache.sub other)[index]? =
        (t.cache.sub other)[index]?) := by
  unfold D3D12Texture.getSliceView
  cases hc : (t.cache.sub kind)[slice]? with
  | none => exact ⟨rfl, fun _ => rfl⟩
  | some cached =>
    exact ⟨ViewCache.whole_setSub _ _ _ _ _, fun h => ViewCache.sub_setSub_other _ _ _ _ _ _ h⟩

end graphics

/-- C22: after construction the per-slice cache of a texture with array size `n` has `n`
entries for the shader-input, random-access-output and render-target kinds, and none for
the depth-stencil kind, on D3D11 and on D3D12.  For the two-slice depth texture of
`Scenario.depthArray`, which permits depth-stencil views, the request for slice 0 < 2
therefore indexes an empty vector. -/
theorem C22_depth_stencil_slice_cache_empty :
    (∀ (info : XrSwapchainCreateInfo) (texture : Nat) (kind : ViewKind),
      ((D3D11CreateTexture info texture).cache.sub kind).length =
        (if kind = .depthStencil then 0 else info.arraySize) ∧
      ((D3D12CreateTexture info texture).cache.sub kind).length =
        (if kind = .depthStencil then 0 else info.arraySize)) ∧
    Scenario.depthArray.arraySize = 2 ∧
    (D3D11CreateTexture Scenario.depthArray 7).permits .depthStencil = true ∧
    ((D3D11CreateTexture Scenario.depthArray 7).cache.sub .depthStencil).length = 0 ∧
    ((D3D11CreateTexture Scenario.depthArray 7).getSliceView .depthStencil 0 Scenario.d3d11).1 =
      .error .outOfRange ∧
    (D3D12CreateTexture Scenario.depthArray 7).permits .depthStencil = true ∧
    ((D3D12CreateTexture Scenario.depthArray 7).cache.sub .depthStencil).length = 0 ∧
    ((D3D12CreateTexture Scenario.depthArray 7).getSliceView .depthStencil 0 Scenario.d3d12).1 =
      .error .outOfRange := by
  refine ⟨?_, by decide, by decide, by decide, by rfl, by decide, by decide, by rfl⟩
  intro info texture kind
  exact ⟨ViewCache.create_sub_length _ _ _, ViewCache.create_sub_length _ _ _⟩

/-! ## C24: usage flags along the walk -/

open OpenXrLayer

/-- C24: for a chain built by a successful `xrCreateSwapchain` from a create info with the
COLOR_ATTACHMENT usage (any of the 8 stage combinations) and a frame-time layer with the
same stages set (any configuration, so also with the upscaler bypassed), every stage call
of the per-eye walk gets an input texture whose info has the SAMPLED usage and an output
texture whose info has the UNORDERED_ACCESS usage when the stage is the upscaler and the
COLOR_ATTACHMENT usage when it is the pre- or post-processor. -/
theorem C24_usage_flags_suffice (s : OpenXrLayer) (dev : IDevice) (session : Nat)
    (ci : XrSwapchainCreateInfo) (runtime : XrSwapchainCreateInfo → RuntimeSwapchain)
    (hdev : s.m_graphicsDevice = some dev) (hvr : s.isVrSession session = true)
    (hcolor : hasFlag ci.usageFlags XR_SWAPCHAIN_USAGE_COLOR_ATTACHMENT_BIT = true)
    (hok : XR_SUCCEEDED (runtime (s.chainCreateInfo ci)).result = true)
    (st : SwapchainState)
    (hst : (s.xrCreateSwapchain session ci runtime).layer.findSwapchain
          (runtime (s.chainCreateInfo ci)).swapchain = some st)
    (im : SwapchainImages) (him : im ∈ st.images)
    (frame : OpenXrLayer)
    (hpre : frame.m_preProcessor.isSome = s.m_preProcessor.isSome)
    (hup : frame.m_upscaler.isSome = s.m_upscaler.isSome)
    (hpost : frame.m_postProcessor.isSome = s.m_postProcessor.isSome)
    (useVPRT : Bool) (eye : Nat) :
    ∀ c ∈ (frame.walkChain im useVPRT eye).calls,
      (∃ input, c.input = some input ∧
        hasFlag input.info.usageFlags XR_SWAPCHAIN_USAGE_SAMPLED_BIT = true) ∧
      (∃ output, c.output = some output ∧
        (c.stage = .upscaler →
          hasFlag output.info.usageFlags XR_SWAPCHAIN_USAGE_UNORDERED_ACCESS_BIT = true) ∧
        (c.stage ≠ .upscaler →
          hasFlag output.info.usageFlags XR_SWAPCHAIN_USAGE_COLOR_ATTACHMENT_BIT = true)) := by
  obtain ⟨st0, hst0, _, _, hch⟩ :=
    xrCreateSwapchain_registered s dev session ci runtime hdev hvr hcolor hok
  rw [hst] at hst0
  cases hst0
  obtain ⟨j, hj⟩ := List.getElem?_of_mem him
  obtain ⟨d, texture, _, hc⟩ := hch j im hj
  have hbit : ci.usageFlags.testBit 0 = true := by rw [← hasFlag_color]; exact hcolor
  have hmod : ci.usageFlags % 2 = 1 := by simpa [Nat.testBit_zero] using hbit
  have hone : XR_SWAPCHAIN_USAGE_COLOR_ATTACHMENT_BIT % 2 = 1 := by decide
  cases hp : s.m_preProcessor.isSome <;> cases hu : s.m_upscaler.isSome <;>
    cases hq : s.m_postProcessor.isSome <;>
    by_cases hb : frame.m_configManager.SettingScalingType = .None <;>
    by_cases hf : isTextureFormatSRGB ci.format = true <;>
    simp [walkChain, hc, expectedChain, hpre, hup, hpost, hp, hu, hq, hb, chainCreateInfo,
      hcolor, WrapTexture, preProcessorInputCreateInfo, upscalerInputCreateInfo,
      intermediateCreateInfo, hasFlag_color, hasFlag_unorderedAccess, hasFlag_sampled,
      Nat.testBit_or, Nat.testBit_and, testBit_color, testBit_unorderedAccess, testBit_sampled,
      testBit_flagsNot, hbit, hmod, hone, hf]

/-- C24 at the FSR 150% session (upscaler and post-processor): the hypotheses hold. -/
theorem C24_usage_flags_suffice_witness :
    Scenario.session150.m_graphicsDevice = some (WrapDevice .D3D11) ∧
    Scenario.session150.isVrSession 5 = true ∧
    hasFlag (Scenario.colorSwapchain 1334 1334).usageFlags
      XR_SWAPCHAIN_USAGE_COLOR_ATTACHMENT_BIT = true ∧
    XR_SUCCEEDED (Scenario.runtime
      (Scenario.session150.chainCreateInfo (Scenario.colorSwapchain 1334 1334))).result = true ∧
    Scenario.created150.layer.findSwapchain 42 =
      some (Scenario.registered Scenario.created150.layer) ∧
    Scenario.image0 Scenario.created150.layer ∈
      (Scenario.registered Scenario.created150.layer).images ∧
    (Scenario.created150.layer.walkChain (Scenario.image0 Scenario.created150.layer)
      false 0).calls.length = 2 ∧
    ∀ c ∈ (Scenario.created150.layer.walkChain (Scenario.image0 Scenario.created150.layer)
        false 0).calls,
      (∃ input, c.input = some input ∧
        hasFlag input.info.usageFlags XR_SWAPCHAIN_USAGE_SAMPLED_BIT = true) ∧
      (∃ output, c.output = some output ∧
        (c.stage = .upscaler →
          hasFlag output.info.usageFlags XR_SWAPCHAIN_USAGE_UNORDERED_ACCESS_BIT = true) ∧
        (c.stage ≠ .upscaler →
          hasFlag output.info.usageFlags XR_SWAPCHAIN_USAGE_COLOR_ATTACHMENT_BIT = true)) :=
  ⟨by decide, by decide, by decide, by decide, by decide, by decide, by decide,
   C24_usage_flags_suffice Scenario.session150 (WrapDevice .D3D11) 5
      (Scenario.colorSwapchain 1334 1334) Scenario.runtime (by decide) (by decide)
      (by decide) (by decide) (Scenario.registered Scenario.created150.layer) (by decide)
      (Scenario.image0 Scenario.created150.layer) (by decide)
      Scenario.created150.layer (by decide) (by decide) (by decide) false 0⟩

/-! ## C25: the timer and the slice selected for an eye -/

/-- C25: the 1334x1334 swapchain of `Scenario.created150` has `arraySize` 1, so
`xrCreateSwapchain` created slot 0 of each stage's timer array and left slot 1 empty.  For
the projection layer of `Scenario.frame`, whose two views both show that swapchain, the
walk for eye 1 selects slot 1: both stage calls get an empty timer pointer and the slice
argument 1, which is not below `arraySize`.  The iteration for eye 1 calls through the
empty pointer, and so does `xrEndFrame` for that frame, after eye 0 went through. -/
theorem C25_shared_swapchain_single_slice :
    (Scenario.colorSwapchain 1334 1334).arraySize = 1 ∧
    Scenario.created150.layer.findSwapchain 42 =
      some (Scenario.registered Scenario.created150.layer) ∧
    (Scenario.registered Scenario.created150.layer).images[
        (Scenario.registered Scenario.created150.layer).acquiredImageIndex]? =
      some (Scenario.image0 Scenario.created150.layer) ∧
    (Scenario.image0 Scenario.created150.layer).upscalerGpuTimer =
      [some { serial := 0 }, none] ∧
    (Scenario.image0 Scenario.created150.layer).postProcessorGpuTimer =
      [some { serial := 1 }, none] ∧
    (Scenario.created150.layer.walkChain (Scenario.image0 Scenario.created150.layer)
        true 1).calls.map (fun c => (c.stage, c.timer, c.slice)) =
      [(.upscaler, none, 1), (.postProcessor, none, 1)] ∧
    (Scenario.created150.layer.walkChain (Scenario.image0 Scenario.created150.layer)
        true 0).calls.map (fun c => (c.stage, c.timer, c.slice)) =
      [(.upscaler, some { serial := 0 }, 0), (.postProcessor, some { serial := 1 }, 0)] ∧
    (Scenario.created150.layer.processEye (Scenario.view 42) true 0).toOption.isSome = true ∧
    Scenario.created150.layer.processEye (Scenario.view 42) true 1 = .error .nullPointer ∧
    Scenario.created150.layer.xrEndFrame 5 Scenario.frame (fun _ => XR_SUCCESS) =
      .error .nullPointer :=
  ⟨by decide, by decide, by decide, by decide, by decide, by decide, by decide, by rfl, by rfl,
   by rfl⟩

/-! ## C23: deferred and direct binding -/

namespace graphics

namespace D3D12Device

end D3D12Device

end graphics

namespace graphics

namespace D3D12Device

end D3D12Device

end graphics

namespace graphics

namespace D3D12Device

end D3D12Device

end graphics

namespace graphics

namespace D3D12Device

end D3D12Device

end graphics

namespace graphics

namespace D3D12Device

end D3D12Device

end graphics

namespace graphics

end graphics

end toolkit
